import Mathlib

/-!
# SqliteGIS: geometry value, its serialisations and the SQL functions

A shallow embedding of `Workspace/src/geometry_types.cpp` and
`Workspace/include/sqlitegis/geometry_types.hpp`, and of the SQL functions of
`geometry_accessors.cpp`, `geometry_measures.cpp`, `geometry_relations.cpp`,
`geometry_operations.cpp`, `geometry_bbox.cpp`, `geometry_aggregates.cpp` and
`geometry_transform.cpp`.

* A `std::string` is a list of characters (`Str`), one list element per `char`.
* A `std::vector<uint8_t>` is a list of naturals below 256.
* `uint32_t` arithmetic is arithmetic on `Nat` modulo `2 ^ 32`; an `int` is an `Int`.
* A `double` is its 64-bit IEEE-754 pattern (a `Nat` below `2 ^ 64`); the code of the
  repository only copies such patterns and prints them with `std::to_string`.
* `std::regex` (ECMAScript grammar) is embedded as a small backtracking matcher over the
  constructs that the patterns of the source use.
* A SQL function is a function from its arguments (`SqlValue`) to the result that it
  leaves in the context (`SqlResult`); an aggregate step is a function on the context.
* Boost.Geometry is a parameter (`Boost`): its readers, writers and algorithms; so is the
  library PROJ (`Proj`).
-/

namespace sqlitegis

/-! ## Strings and the C character functions -/

/-- A `std::string`: the sequence of its `char`s. -/
abbrev Str := List Char

/-- The function `std::isspace` in the "C" locale: space, `\t`, `\n`, `\v`, `\f`, `\r`. -/
def isspace (c : Char) : Bool :=
  c.toNat == 32 || (9 ≤ c.toNat && c.toNat ≤ 13)

/-- The function `std::isdigit`: `0` to `9`. -/
def isdigit (c : Char) : Bool :=
  48 ≤ c.toNat && c.toNat ≤ 57

/-- The function `::toupper` in the "C" locale. -/
def toupper (c : Char) : Char :=
  if 97 ≤ c.toNat && c.toNat ≤ 122 then Char.ofNat (c.toNat - 32) else c

/-- The function `::tolower` in the "C" locale. -/
def tolower (c : Char) : Char :=
  if 65 ≤ c.toNat && c.toNat ≤ 90 then Char.ofNat (c.toNat + 32) else c

/-- Helper `trim` of the source: the substring from the first to the last character that
is not white space, the empty string when there is none. -/
def trim (str : Str) : Str :=
  ((str.dropWhile isspace).reverse.dropWhile isspace).reverse

/-- Helper `to_upper` of the source: `std::transform` with `::toupper`. -/
def to_upper (str : Str) : Str :=
  str.map toupper

/-- The test `s.find(p) == 0` of the source: `p` occurs in `s` at offset 0. -/
def find_at_zero : Str → Str → Bool
  | _, [] => true
  | [], _ :: _ => false
  | c :: s, d :: p => c == d && find_at_zero s p

/-! ## Regular expressions (`std::regex`, ECMAScript grammar) -/

/-- The character classes that occur in the patterns of the source. -/
inductive CharClass where
  /-- The class `\s`. -/
  | space
  /-- The class `\d`. -/
  | digit
  /-- The wildcard `.`: every character except the line terminators `\n` and `\r`. -/
  | any
  deriving DecidableEq, Repr

/-- Membership of a character in a class. -/
def CharClass.test : CharClass → Char → Bool
  | .space, c => isspace c
  | .digit, c => isdigit c
  | .any, c => !(c.toNat == 10 || c.toNat == 13)

/-- The regular expressions used by the source: anchors, literal characters, classes,
greedy repetition of a class, concatenation, alternation, capture groups and negative
lookahead. -/
inductive Regex where
  /-- The empty pattern. -/
  | eps
  /-- The anchor `^`. -/
  | bol
  /-- The anchor `$`. -/
  | eol
  /-- A literal character. -/
  | chr (c : Char)
  /-- One character of a class. -/
  | cls (k : CharClass)
  /-- Greedy `k*`. -/
  | star (k : CharClass)
  /-- Greedy `k+`. -/
  | plus (k : CharClass)
  /-- Concatenation. -/
  | seq (a b : Regex)
  /-- Alternation `a|b`, the left branch tried first. -/
  | alt (a b : Regex)
  /-- Capture group number `i`. -/
  | group (i : Nat) (a : Regex)
  /-- Negative lookahead `(?!a)`. -/
  | nla (a : Regex)
  deriving Repr

/-- The sub-matches recorded so far: group number and matched text, latest first. -/
abbrev Caps := List (Nat × Str)

/-- The text of capture group `i` (`match[i].str()`), empty when the group did not take part. -/
def Caps.get (m : Caps) (i : Nat) : Str :=
  match m.find? (fun e => e.1 == i) with
  | some e => e.2
  | none => []

/-- Comparison of an input character with a pattern character; with `std::regex::icase`
both are folded with `tolower`. -/
def chr_eq (icase : Bool) (p c : Char) : Bool :=
  if icase then tolower c == tolower p else c == p

/-- Greedy repetition of a class with backtracking: the longest run is tried first and
given back one character at a time while the continuation fails. -/
def star_match (p : Char → Bool) :
    Str → Nat → Caps → (Nat → Str → Caps → Option Caps) → Option Caps
  | [], pos, m, k => k pos [] m
  | c :: cs, pos, m, k =>
    if p c then
      match star_match p cs (pos + 1) m k with
      | some r => some r
      | none => k pos (c :: cs) m
    else k pos (c :: cs) m

/-- The backtracking matcher. `pos` is the offset of the remaining input `s` in the subject,
`m` holds the captures, `k` is the continuation (the rest of the pattern). -/
def Regex.run (icase : Bool) :
    Regex → Nat → Str → Caps → (Nat → Str → Caps → Option Caps) → Option Caps
  | .eps, pos, s, m, k => k pos s m
  | .bol, pos, s, m, k => if pos = 0 then k pos s m else none
  | .eol, pos, s, m, k => if s.isEmpty then k pos s m else none
  | .chr p, pos, s, m, k =>
    match s with
    | c :: cs => if chr_eq icase p c then k (pos + 1) cs m else none
    | [] => none
  | .cls c, pos, s, m, k =>
    match s with
    | d :: cs => if c.test d then k (pos + 1) cs m else none
    | [] => none
  | .star c, pos, s, m, k => star_match c.test s pos m k
  | .plus c, pos, s, m, k =>
    match s with
    | d :: cs => if c.test d then star_match c.test cs (pos + 1) m k else none
    | [] => none
  | .seq a b, pos, s, m, k =>
    a.run icase pos s m (fun pos1 s1 m1 => b.run icase pos1 s1 m1 k)
  | .alt a b, pos, s, m, k =>
    match a.run icase pos s m k with
    | some r => some r
    | none => b.run icase pos s m k
  | .group i a, pos, s, m, k =>
    a.run icase pos s m (fun pos1 s1 m1 => k pos1 s1 ((i, s.take (pos1 - pos)) :: m1))
  | .nla a, pos, s, m, k =>
    match a.run icase pos s m (fun _ _ m1 => some m1) with
    | some _ => none
    | none => k pos s m

/-- The function `std::regex_match`: the whole subject must match; the captures on success. -/
def regex_match (icase : Bool) (r : Regex) (s : Str) : Option Caps :=
  r.run icase 0 s [] (fun _ rest m => if rest.isEmpty then some m else none)

/-- Search from offset `pos` on: the first offset at which the pattern matches. -/
def regex_search_from (icase : Bool) (r : Regex) : Nat → Str → Bool
  | pos, [] => (r.run icase pos [] [] (fun _ _ m => some m)).isSome
  | pos, c :: cs =>
    (r.run icase pos (c :: cs) [] (fun _ _ m => some m)).isSome
      || regex_search_from icase r (pos + 1) cs

/-- The function `std::regex_search`, used for its boolean result. -/
def regex_search (icase : Bool) (r : Regex) (s : Str) : Bool :=
  regex_search_from icase r 0 s

/-- A literal word as a pattern: its characters in sequence. -/
def Regex.word (w : Str) : Regex :=
  w.foldr (fun c r => .seq (.chr c) r) .eps

/-- Concatenation of a list of patterns. -/
def Regex.cat (rs : List Regex) : Regex :=
  rs.foldr .seq .eps

/-- Alternation `r|r1|r2|...`, in order. -/
def Regex.any_of : Regex → List Regex → Regex
  | r, [] => r
  | r, r1 :: rs => .alt r (Regex.any_of r1 rs)

/-! ## The geometry value -/

/-- The enumeration `DimensionType` of the header. -/
inductive DimensionType where
  | XY | XYZ | XYM | XYZM
  deriving DecidableEq, Repr

/-- The enumeration `GeometryType` of the header. -/
inductive GeometryType where
  | Unknown | Point | LineString | Polygon | MultiPoint | MultiLineString | MultiPolygon
  deriving DecidableEq, Repr

/-- The class `GeometryWrapper`: the WKT text (without SRID), the SRID and the dimension. -/
structure GeometryWrapper where
  /-- Field `wkt_`. -/
  wkt : Str
  /-- Field `srid_`. -/
  srid : Int
  /-- Field `dimension_`. -/
  dimension : DimensionType
  deriving DecidableEq, Repr

/-- Member `is_3d`. -/
def GeometryWrapper.is_3d (g : GeometryWrapper) : Bool :=
  g.dimension == .XYZ || g.dimension == .XYZM

/-- Member `has_m`. -/
def GeometryWrapper.has_m (g : GeometryWrapper) : Bool :=
  g.dimension == .XYM || g.dimension == .XYZM

/-- Member `coord_dimension`. -/
def GeometryWrapper.coord_dimension (g : GeometryWrapper) : Nat :=
  match g.dimension with
  | .XY => 2
  | .XYZ => 3
  | .XYM => 3
  | .XYZM => 4

/-! ## EWKT and WKT parsing -/

/-- The value of a decimal digit character. -/
def digit_value (c : Char) : Nat := c.toNat - 48

/-- The number written by a string of decimal digits. -/
def decimal_value (ds : Str) : Nat :=
  ds.foldl (fun a c => 10 * a + digit_value c) 0

/-- The function `std::stoi`: leading white space, an optional sign, then decimal digits;
`none` stands for the exception thrown when there is no digit or the value does not fit
an `int`. -/
def stoi (s : Str) : Option Int :=
  let s1 := s.dropWhile isspace
  let signed : Bool × Str :=
    match s1 with
    | '-' :: r => (true, r)
    | '+' :: r => (false, r)
    | _ => (false, s1)
  let ds := signed.2.takeWhile isdigit
  if ds.isEmpty then none
  else
    let v : Int := if signed.1 then -(decimal_value ds : Int) else (decimal_value ds : Int)
    if -2147483648 ≤ v ∧ v ≤ 2147483647 then some v else none

/-- The keyword alternation `(POINT|LINESTRING|...|GEOMETRYCOLLECTION)`, capture group 1. -/
def keyword_group : Regex :=
  .group 1 (Regex.any_of (Regex.word "POINT".toList) [
    Regex.word "LINESTRING".toList, Regex.word "POLYGON".toList,
    Regex.word "MULTIPOINT".toList, Regex.word "MULTILINESTRING".toList,
    Regex.word "MULTIPOLYGON".toList, Regex.word "GEOMETRYCOLLECTION".toList])

/-- The pattern `ewkt_pattern`: `^\s*SRID\s*=\s*(\d+)\s*;\s*(.+)$`. -/
def ewkt_pattern : Regex :=
  Regex.cat [.bol, .star .space, Regex.word "SRID".toList, .star .space, .chr '=',
    .star .space, .group 1 (.plus .digit), .star .space, .chr ';', .star .space,
    .group 2 (.plus .any), .eol]

/-- The pattern `zm_pattern`: `^\s*(POINT|...)\s+(Z\s+M|ZM|M\s+Z|MZ)\s+`. -/
def zm_pattern : Regex :=
  Regex.cat [.bol, .star .space, keyword_group, .plus .space,
    .group 2 (Regex.any_of (Regex.cat [.chr 'Z', .plus .space, .chr 'M']) [
      Regex.word "ZM".toList,
      Regex.cat [.chr 'M', .plus .space, .chr 'Z'], Regex.word "MZ".toList]),
    .plus .space]

/-- The pattern `z_pattern`: `^\s*(POINT|...)\s+Z\s+`. -/
def z_pattern : Regex :=
  Regex.cat [.bol, .star .space, keyword_group, .plus .space, .chr 'Z', .plus .space]

/-- The pattern `m_pattern`: `^\s*(POINT|...)\s+M\s+`. -/
def m_pattern : Regex :=
  Regex.cat [.bol, .star .space, keyword_group, .plus .space, .chr 'M', .plus .space]

/-- The block "Detect dimension type (Z and/or M)" that `from_ewkt` (twice) and `from_wkt`
repeat verbatim: the three case-insensitive searches, in this order. -/
def detect_dimension (wkt : Str) : DimensionType :=
  if regex_search true zm_pattern wkt then .XYZM
  else if regex_search true z_pattern wkt then .XYZ
  else if regex_search true m_pattern wkt then .XYM
  else .XY

/-- Function `GeometryWrapper::from_ewkt`. -/
def from_ewkt (ewkt : Str) : Option GeometryWrapper :=
  if ewkt.isEmpty then none
  else
    let trimmed := trim ewkt
    match regex_match true ewkt_pattern trimmed with
    | some m =>
      -- the `try` block: `std::stoi` throws on overflow, the handler returns `nullopt`
      match stoi (m.get 1) with
      | none => none
      | some srid =>
        let wkt := trim (m.get 2)
        if wkt.isEmpty then none
        else some ⟨wkt, srid, detect_dimension wkt⟩
    | none => some ⟨trimmed, -1, detect_dimension trimmed⟩

/-- Function `GeometryWrapper::from_wkt`. -/
def from_wkt (wkt : Str) (srid : Int) : Option GeometryWrapper :=
  if wkt.isEmpty then none
  else
    let trimmed := trim wkt
    if trimmed.isEmpty then none
    else
      let dim := detect_dimension trimmed
      let upper_wkt := to_upper trimmed
      let valid :=
        find_at_zero upper_wkt "POINT".toList ||
        find_at_zero upper_wkt "LINESTRING".toList ||
        find_at_zero upper_wkt "POLYGON".toList ||
        find_at_zero upper_wkt "MULTIPOINT".toList ||
        find_at_zero upper_wkt "MULTILINESTRING".toList ||
        find_at_zero upper_wkt "MULTIPOLYGON".toList ||
        find_at_zero upper_wkt "GEOMETRYCOLLECTION".toList
      if !valid then none
      else some ⟨trimmed, srid, dim⟩

/-! ## EWKT emission -/

/-- The character of a decimal digit. -/
def digit_char (d : Nat) : Char := Char.ofNat (48 + d)

/-- The decimal digits of a natural number, most significant first; `fuel` bounds the
number of digits. -/
def nat_digits : Nat → Nat → Str
  | 0, _ => []
  | fuel + 1, n =>
    if n < 10 then [digit_char n] else nat_digits fuel (n / 10) ++ [digit_char (n % 10)]

/-- The function `std::to_string` on an unsigned value. -/
def to_string_nat (n : Nat) : Str := nat_digits (n + 1) n

/-- The function `std::to_string(int)`. -/
def to_string_int (i : Int) : Str :=
  if i < 0 then '-' :: to_string_nat i.natAbs else to_string_nat i.natAbs

/-- Function `GeometryWrapper::to_ewkt`. -/
def GeometryWrapper.to_ewkt (g : GeometryWrapper) : Str :=
  if g.wkt.isEmpty then []
  else "SRID=".toList ++ to_string_int g.srid ++ ";".toList ++ g.wkt

/-- Function `GeometryWrapper::to_wkt`. -/
def GeometryWrapper.to_wkt (g : GeometryWrapper) : Str := g.wkt

/-- Function `GeometryWrapper::geometry_type`. -/
def GeometryWrapper.geometry_type (g : GeometryWrapper) : GeometryType :=
  if g.wkt.isEmpty then .Unknown
  else
    let upper_wkt := to_upper g.wkt
    if find_at_zero upper_wkt "MULTIPOLYGON".toList then .MultiPolygon
    else if find_at_zero upper_wkt "MULTILINESTRING".toList then .MultiLineString
    else if find_at_zero upper_wkt "MULTIPOINT".toList then .MultiPoint
    else if find_at_zero upper_wkt "POLYGON".toList then .Polygon
    else if find_at_zero upper_wkt "LINESTRING".toList then .LineString
    else if find_at_zero upper_wkt "POINT".toList then .Point
    else .Unknown

/-! ## EWKB: constants and byte-level helpers -/

/-- Enumerator `ByteOrder::BigEndian`. -/
def BigEndian : Nat := 0

/-- Enumerator `ByteOrder::LittleEndian`. -/
def LittleEndian : Nat := 1

/-- Constant `SRID_FLAG`. -/
def SRID_FLAG : Nat := 0x20000000

/-- Constant `WKB_Z_FLAG`. -/
def WKB_Z_FLAG : Nat := 0x80000000

/-- Constant `WKB_M_FLAG`. -/
def WKB_M_FLAG : Nat := 0x40000000

/-- The enumeration `WKBType` as its underlying `uint32_t`. -/
def WKBType_Point : Nat := 1

/-- Enumerator `WKBType::LineString`. -/
def WKBType_LineString : Nat := 2

/-- Enumerator `WKBType::Polygon`. -/
def WKBType_Polygon : Nat := 3

/-- Enumerator `WKBType::MultiPoint`. -/
def WKBType_MultiPoint : Nat := 4

/-- Enumerator `WKBType::MultiLineString`. -/
def WKBType_MultiLineString : Nat := 5

/-- Enumerator `WKBType::MultiPolygon`. -/
def WKBType_MultiPolygon : Nat := 6

/-- The operator `~` on a `uint32_t`. -/
def not32 (x : Nat) : Nat := x ^^^ 0xFFFFFFFF

/-- The conversion `static_cast<int>` of a `uint32_t`: two's complement. -/
def to_int32 (v : Nat) : Int :=
  if v % 2 ^ 32 < 2 ^ 31 then (v % 2 ^ 32 : Nat) else ((v % 2 ^ 32 : Nat) : Int) - 2 ^ 32

/-- The conversion `static_cast<uint32_t>` of an `int`. -/
def to_uint32 (i : Int) : Nat := (i % 2 ^ 32).toNat

/-- The element `data[i]` of a buffer; the value 0 stands for a read outside the buffer,
which `from_ewkb_run` records and never performs. -/
def byte_at (data : List Nat) (i : Nat) : Nat := data.getD i 0

/-- Function `read_uint32`, reading at `&data[off]`. -/
def read_uint32 (data : List Nat) (off : Nat) (order : Nat) : Nat :=
  if order = LittleEndian then
    (byte_at data off ||| (byte_at data (off + 1) <<< 8) ||| (byte_at data (off + 2) <<< 16)
      ||| (byte_at data (off + 3) <<< 24)) % 2 ^ 32
  else
    ((byte_at data off <<< 24) ||| (byte_at data (off + 1) <<< 16)
      ||| (byte_at data (off + 2) <<< 8) ||| byte_at data (off + 3)) % 2 ^ 32

/-- Function `write_uint32`: the four bytes appended to the buffer. -/
def write_uint32 (buffer : List Nat) (value : Nat) (order : Nat) : List Nat :=
  if order = LittleEndian then
    buffer ++ [value &&& 0xFF, (value >>> 8) &&& 0xFF, (value >>> 16) &&& 0xFF,
      (value >>> 24) &&& 0xFF]
  else
    buffer ++ [(value >>> 24) &&& 0xFF, (value >>> 16) &&& 0xFF, (value >>> 8) &&& 0xFF,
      value &&& 0xFF]

/-- Function `read_double`, reading at `&data[off]`: the 64-bit pattern of the result. -/
def read_double (data : List Nat) (off : Nat) (order : Nat) : Nat :=
  if order = LittleEndian then
    (byte_at data off ||| (byte_at data (off + 1) <<< 8) ||| (byte_at data (off + 2) <<< 16)
      ||| (byte_at data (off + 3) <<< 24) ||| (byte_at data (off + 4) <<< 32)
      ||| (byte_at data (off + 5) <<< 40) ||| (byte_at data (off + 6) <<< 48)
      ||| (byte_at data (off + 7) <<< 56)) % 2 ^ 64
  else
    ((byte_at data off <<< 56) ||| (byte_at data (off + 1) <<< 48)
      ||| (byte_at data (off + 2) <<< 40) ||| (byte_at data (off + 3) <<< 32)
      ||| (byte_at data (off + 4) <<< 24) ||| (byte_at data (off + 5) <<< 16)
      ||| (byte_at data (off + 6) <<< 8) ||| byte_at data (off + 7)) % 2 ^ 64

/-- Function `write_double`: the eight bytes of the pattern appended to the buffer. -/
def write_double (buffer : List Nat) (value : Nat) (order : Nat) : List Nat :=
  if order = LittleEndian then
    buffer ++ [value &&& 0xFF, (value >>> 8) &&& 0xFF, (value >>> 16) &&& 0xFF,
      (value >>> 24) &&& 0xFF, (value >>> 32) &&& 0xFF, (value >>> 40) &&& 0xFF,
      (value >>> 48) &&& 0xFF, (value >>> 56) &&& 0xFF]
  else
    buffer ++ [(value >>> 56) &&& 0xFF, (value >>> 48) &&& 0xFF, (value >>> 40) &&& 0xFF,
      (value >>> 32) &&& 0xFF, (value >>> 24) &&& 0xFF, (value >>> 16) &&& 0xFF,
      (value >>> 8) &&& 0xFF, value &&& 0xFF]

/-! ## Printing a double: `std::to_string(double)` -/

/-- Six decimal digits of a number below `10 ^ 6`, with leading zeros. -/
def pad6 (n : Nat) : Str :=
  [digit_char (n / 100000 % 10), digit_char (n / 10000 % 10), digit_char (n / 1000 % 10),
   digit_char (n / 100 % 10), digit_char (n / 10 % 10), digit_char (n % 10)]

/-- The function `std::to_string(double)` of the C++ standard library, which the standard
defines as the output of `printf` with the format `%f`: the sign, the integer part and
exactly six digits after the decimal point, the exact binary value rounded to nearest
(ties to even). The argument is the 64-bit pattern of the double: sign bit, 11 exponent
bits, 52 fraction bits. -/
def to_string_double (bits : Nat) : Str :=
  let sign := bits / 2 ^ 63 % 2
  let e := bits / 2 ^ 52 % 2 ^ 11
  let f := bits % 2 ^ 52
  let pre : Str := if sign = 1 then ['-'] else []
  if e = 2047 then pre ++ (if f = 0 then "inf".toList else "nan".toList)
  else
    -- the value is `sig * 2 ^ (ex - 1075)`; `num / den` is that value times `10 ^ 6`
    let sig := if e = 0 then f else 2 ^ 52 + f
    let ex := if e = 0 then 1 else e
    let num := sig * 10 ^ 6 * 2 ^ (ex - 1075)
    let den := 2 ^ (1075 - ex)
    let q := num / den
    let r := num % den
    let rounded := if den < 2 * r ∨ (2 * r = den ∧ q % 2 = 1) then q + 1 else q
    pre ++ to_string_nat (rounded / 10 ^ 6) ++ '.' :: pad6 (rounded % 10 ^ 6)

/-! ## EWKB parsing

`GeometryWrapper::from_ewkb` is embedded in three parts that follow its text: `ewkb_header`
(byte order, type word, SRID), `ewkb_flags` (dimension flags) and `ewkb_point` (the
coordinates of a point). Each part also returns the indices of the buffer that it reads
(`ewkb[i]`, `read_uint32(&ewkb[i], _)`, `read_double(&ewkb[i], _)`).
-/

/-- The indices `off, ..., off + n - 1` of a buffer. -/
def index_range (off n : Nat) : List Nat := (List.range n).map (fun i => off + i)

/-- The local variables of `from_ewkb` when it reaches the test of the geometry type. -/
structure EwkbHeader where
  /-- Variable `order`. -/
  order : Nat
  /-- Variable `type`, the flags that were found removed. -/
  type : Nat
  /-- Variable `srid`. -/
  srid : Int
  /-- Variable `dim`. -/
  dim : DimensionType
  /-- Variable `offset`. -/
  offset : Nat
  deriving DecidableEq, Repr

/-- Part "Check for dimension flags (Z and/or M)" of `from_ewkb`. -/
def ewkb_flags (order type : Nat) (srid : Int) (offset : Nat) : EwkbHeader :=
  let has_z : Bool := type &&& WKB_Z_FLAG ≠ 0
  let has_m : Bool := type &&& WKB_M_FLAG ≠ 0
  if has_z && has_m then
    ⟨order, type &&& not32 (WKB_Z_FLAG ||| WKB_M_FLAG), srid, .XYZM, offset⟩
  else if has_z then ⟨order, type &&& not32 WKB_Z_FLAG, srid, .XYZ, offset⟩
  else if has_m then ⟨order, type &&& not32 WKB_M_FLAG, srid, .XYM, offset⟩
  else ⟨order, type, srid, .XY, offset⟩

/-- Parts "Read byte order", "Read geometry type" and "Check for SRID flag" of `from_ewkb`,
followed by `ewkb_flags`; with the indices read. -/
def ewkb_header (ewkb : List Nat) : Option EwkbHeader × List Nat :=
  -- offset = 0
  if ewkb.length ≤ 0 then (none, [])
  else
    let order := byte_at ewkb 0
    if order ≠ BigEndian ∧ order ≠ LittleEndian then (none, [0])
    else
      -- offset = 1
      if ewkb.length < 1 + 4 then (none, [0])
      else
        let type := read_uint32 ewkb 1 order
        -- offset = 5
        if type &&& SRID_FLAG ≠ 0 then
          if ewkb.length < 5 + 4 then (none, 0 :: index_range 1 4)
          else
            (some (ewkb_flags order (type &&& not32 SRID_FLAG)
                (to_int32 (read_uint32 ewkb 5 order)) (5 + 4)),
              0 :: index_range 1 4 ++ index_range 5 4)
        else (some (ewkb_flags order type (-1) 5), 0 :: index_range 1 4)

/-- The branch `WKBType::Point` of `from_ewkb`: the value built from the coordinates, with
the indices read. -/
def ewkb_point (ewkb : List Nat) (h : EwkbHeader) : Option GeometryWrapper × List Nat :=
  let coord_size :=
    if h.dim = .XYZ ∨ h.dim = .XYM then 24 else if h.dim = .XYZM then 32 else 16
  if ewkb.length < h.offset + coord_size then (none, [])
  else
    let x := read_double ewkb h.offset h.order
    let y := read_double ewkb (h.offset + 8) h.order
    let xy := to_string_double x ++ " ".toList ++ to_string_double y
    match h.dim with
    | .XYZ =>
      let z := read_double ewkb (h.offset + 16) h.order
      (some ⟨"POINT Z (".toList ++ xy ++ " ".toList ++ to_string_double z ++ ")".toList,
          h.srid, h.dim⟩,
        index_range h.offset 24)
    | .XYM =>
      let mv := read_double ewkb (h.offset + 16) h.order
      (some ⟨"POINT M (".toList ++ xy ++ " ".toList ++ to_string_double mv ++ ")".toList,
          h.srid, h.dim⟩,
        index_range h.offset 24)
    | .XYZM =>
      let z := read_double ewkb (h.offset + 16) h.order
      let mv := read_double ewkb (h.offset + 24) h.order
      (some ⟨"POINT ZM (".toList ++ xy ++ " ".toList ++ to_string_double z
          ++ " ".toList ++ to_string_double mv ++ ")".toList, h.srid, h.dim⟩,
        index_range h.offset 32)
    | .XY =>
      (some ⟨"POINT(".toList ++ xy ++ ")".toList, h.srid, h.dim⟩,
        index_range h.offset 16)

/-- Function `GeometryWrapper::from_ewkb`, together with the indices of the buffer that it
reads, in order. -/
def from_ewkb_run (ewkb : List Nat) : Option GeometryWrapper × List Nat :=
  if ewkb.length < 5 then (none, [])
  else
    match ewkb_header ewkb with
    | (none, rd) => (none, rd)
    | (some h, rd) =>
      if h.type = WKBType_Point then
        ((ewkb_point ewkb h).1, rd ++ (ewkb_point ewkb h).2)
      else
        -- other types not yet implemented
        (none, rd)

/-- Function `GeometryWrapper::from_ewkb`. -/
def from_ewkb (ewkb : List Nat) : Option GeometryWrapper :=
  (from_ewkb_run ewkb).1

/-! ## EWKB emission -/

/-- The WKT reader of Boost.Geometry (`boost::geometry::read_wkt`), an external library:
`point_2d` reads a text into a `point_t` and `point_3d` into a `point_3d_t`, each giving
the 64-bit patterns of the coordinates, or `none` when the reader throws. -/
structure WktReader where
  /-- Reading into `point_t`: x and y. -/
  point_2d : Str → Option (Nat × Nat)
  /-- Reading into `point_3d_t`: x, y and z. -/
  point_3d : Str → Option (Nat × Nat × Nat)

/-- Function `GeometryWrapper::to_ewkb`. -/
def GeometryWrapper.to_ewkb (R : WktReader) (g : GeometryWrapper) : List Nat :=
  let order := LittleEndian
  let result0 : List Nat := [order]
  let type := g.geometry_type
  let wkb_type0 : Option Nat :=
    match type with
    | .Point => some WKBType_Point
    | .LineString => some WKBType_LineString
    | .Polygon => some WKBType_Polygon
    | .MultiPoint => some WKBType_MultiPoint
    | .MultiLineString => some WKBType_MultiLineString
    | .MultiPolygon => some WKBType_MultiPolygon
    | .Unknown => none
  match wkb_type0 with
  | none => result0
  | some t0 =>
    let t1 := t0 ||| SRID_FLAG
    let wkb_type :=
      match g.dimension with
      | .XYZ => t1 ||| WKB_Z_FLAG
      | .XYM => t1 ||| WKB_M_FLAG
      | .XYZM => t1 ||| (WKB_Z_FLAG ||| WKB_M_FLAG)
      | .XY => t1
    let result1 := write_uint32 result0 wkb_type order
    let result2 := write_uint32 result1 (to_uint32 g.srid) order
    if type = .Point then
      if g.dimension = .XYZ ∨ g.dimension = .XYZM then
        match R.point_3d g.wkt with
        | some (x, y, z) =>
          let r := write_double (write_double (write_double result2 x order) y order) z order
          if g.dimension = .XYZM then write_double r 0 order else r
        | none => result2
      else if g.dimension = .XYM then
        match R.point_2d g.wkt with
        | some (x, y) =>
          write_double (write_double (write_double result2 x order) y order) 0 order
        | none => result2
      else
        match R.point_2d g.wkt with
        | some (x, y) => write_double (write_double result2 x order) y order
        | none => result2
    else result2

/-! ## Replacement with `std::regex_replace`, `force_2d` and `force_3d` -/

/-- An optional pattern `a?` (greedy). -/
def Regex.opt (a : Regex) : Regex := .alt a .eps

/-- A piece of a replacement format: literal text, or `$i`, the text of capture group `i`. -/
inductive FmtPiece where
  | lit (s : Str)
  | sub (i : Nat)
  deriving Repr

/-- The text that a format yields for a match (`match_results::format`). -/
def format (m : Caps) (fmt : List FmtPiece) : Str :=
  (fmt.map (fun p => match p with
    | .lit s => s
    | .sub i => m.get i)).flatten

/-- The leftmost match at or after offset `pos` (`std::regex_search`): the text skipped
before it, the captures (group 0 is the whole match), and the text after it. -/
def regex_find (icase : Bool) (r : Regex) : Nat → Str → Option (Str × Caps × Str)
  | pos, [] =>
    match r.run icase pos [] [] (fun _ _ m => some ((0, []) :: m)) with
    | some m => some ([], m, [])
    | none => none
  | pos, c :: cs =>
    match r.run icase pos (c :: cs) []
        (fun pos1 _ m => some ((0, (c :: cs).take (pos1 - pos)) :: m)) with
    | some m => some ([], m, (c :: cs).drop (m.get 0).length)
    | none => (regex_find icase r (pos + 1) cs).map (fun x => (c :: x.1, x.2))

/-- The loop of `std::regex_replace` over the successive matches, `s` being the part of the
subject from offset `pos` on; `fuel` bounds the number of matches. After an empty match the
next character is copied and the search goes on behind it; no pattern that the source
passes to `std::regex_replace` can match the empty string. -/
def regex_replace_from (icase : Bool) (r : Regex) (fmt : List FmtPiece) :
    Nat → Nat → Str → Str
  | 0, _, s => s
  | fuel + 1, pos, s =>
    match regex_find icase r pos s with
    | none => s
    | some (pre, m, suf) =>
      let n := (m.get 0).length
      pre ++ format m fmt ++
        (if n = 0 then
          match suf with
          | [] => []
          | c :: cs => c :: regex_replace_from icase r fmt fuel (pos + pre.length + 1) cs
        else regex_replace_from icase r fmt fuel (pos + pre.length + n) suf)

/-- The function `std::regex_replace`: every match, from left to right and without overlap,
is replaced by the format; the text between matches is copied. -/
def regex_replace (icase : Bool) (r : Regex) (s : Str) (fmt : List FmtPiece) : Str :=
  regex_replace_from icase r fmt (s.length + 1) 0 s

/-- The pattern `[-+]?[0-9]*\.?[0-9]+` of a number in the coordinate patterns. -/
def number_pattern : Regex :=
  Regex.cat [Regex.opt (.alt (.chr '-') (.chr '+')), .star .digit, Regex.opt (.chr '.'),
    .plus .digit]

/-- The pattern `\s+Z\s+` (`z_suffix`). -/
def z_suffix : Regex := Regex.cat [.plus .space, .chr 'Z', .plus .space]

/-- The pattern `\s+M\s+` (`m_suffix`). -/
def m_suffix : Regex := Regex.cat [.plus .space, .chr 'M', .plus .space]

/-- The pattern `\s+(ZM|Z\s+M|M\s+Z)\s+` (`zm_suffix`). -/
def zm_suffix : Regex :=
  Regex.cat [.plus .space,
    .group 1 (Regex.any_of (Regex.word "ZM".toList) [
      Regex.cat [.chr 'Z', .plus .space, .chr 'M'],
      Regex.cat [.chr 'M', .plus .space, .chr 'Z']]),
    .plus .space]

/-- The `coord_pattern` of three numbers separated by white space, groups 1 to 3. -/
def coord_pattern_3 : Regex :=
  Regex.cat [.group 1 number_pattern, .plus .space, .group 2 number_pattern, .plus .space,
    .group 3 number_pattern]

/-- The `coord_pattern` of four numbers separated by white space, groups 1 to 4. -/
def coord_pattern_4 : Regex :=
  Regex.cat [.group 1 number_pattern, .plus .space, .group 2 number_pattern, .plus .space,
    .group 3 number_pattern, .plus .space, .group 4 number_pattern]

/-- The `coord_pattern` of `force_3d` for XY input: two numbers not followed by a third,
`(n)\s+(n)(?!\s+[-+]?[0-9])`. -/
def coord_pattern_2 : Regex :=
  Regex.cat [.group 1 number_pattern, .plus .space, .group 2 number_pattern,
    .nla (Regex.cat [.plus .space, Regex.opt (.alt (.chr '-') (.chr '+')), .cls .digit])]

/-- The pattern `geom_type_pattern` of `force_3d`: `^(POINT|...)(\s*\()`. -/
def geom_type_pattern : Regex :=
  Regex.cat [.bol, keyword_group, .group 2 (Regex.cat [.star .space, .chr '('])]

/-- Function `GeometryWrapper::force_2d`. -/
def GeometryWrapper.force_2d (g : GeometryWrapper) : GeometryWrapper :=
  match g.dimension with
  | .XY => g
  | .XYZ =>
    let wkt_2d := regex_replace true z_suffix g.wkt [.lit " ".toList]
    ⟨regex_replace false coord_pattern_3 wkt_2d [.sub 1, .lit " ".toList, .sub 2],
      g.srid, .XY⟩
  | .XYM =>
    let wkt_2d := regex_replace true m_suffix g.wkt [.lit " ".toList]
    ⟨regex_replace false coord_pattern_3 wkt_2d [.sub 1, .lit " ".toList, .sub 2],
      g.srid, .XY⟩
  | .XYZM =>
    let wkt_2d := regex_replace true zm_suffix g.wkt [.lit " ".toList]
    ⟨regex_replace false coord_pattern_4 wkt_2d [.sub 1, .lit " ".toList, .sub 2],
      g.srid, .XY⟩

/-- Function `GeometryWrapper::force_3d`; `z_default` is the 64-bit pattern of the double.
The text of `std::to_string(z_default)` has no `$`, so it stands for itself in the
format. -/
def GeometryWrapper.force_3d (g : GeometryWrapper) (z_default : Nat) : GeometryWrapper :=
  match g.dimension with
  | .XYZ => g
  | .XYZM => g
  | .XY =>
    let wkt_3d := regex_replace true geom_type_pattern g.wkt
      [.sub 1, .lit " Z".toList, .sub 2]
    let z_str := " ".toList ++ to_string_double z_default
    ⟨regex_replace false coord_pattern_2 wkt_3d [.sub 1, .lit " ".toList, .sub 2, .lit z_str],
      g.srid, .XYZ⟩
  | .XYM =>
    let wkt_3d := regex_replace true m_suffix g.wkt [.lit " ZM ".toList]
    let z_str := " ".toList ++ to_string_double z_default ++ " ".toList
    ⟨regex_replace false coord_pattern_3 wkt_3d
        [.sub 1, .lit " ".toList, .sub 2, .lit z_str, .sub 3],
      g.srid, .XYZM⟩

/-! ## Geometries of Boost.Geometry

The geometry types of the header (`point_t`, `linestring_t`, ...) are instances of the
models of Boost.Geometry, an external library. A coordinate is the 64-bit pattern of a
double.
-/

/-- Type `point_t`: x and y. -/
abbrev point_t := Nat × Nat

/-- Type `linestring_t`. -/
abbrev linestring_t := List point_t

/-- Type `polygon_t`: the outer ring and the inner rings, each as stored. -/
structure polygon_t where
  /-- The ring `outer()`. -/
  outer : List point_t
  /-- The rings `inners()`. -/
  inners : List (List point_t)
  deriving DecidableEq, Repr

/-- Type `multipoint_t`. -/
abbrev multipoint_t := List point_t

/-- Type `multilinestring_t`. -/
abbrev multilinestring_t := List linestring_t

/-- Type `multipolygon_t`. -/
abbrev multipolygon_t := List polygon_t

/-- Type `box_t`: the minimal and the maximal corner. -/
abbrev box_t := point_t × point_t

/-- Type `geometry_variant`. -/
inductive geometry_variant where
  | point (g : point_t)
  | linestring (g : linestring_t)
  | polygon (g : polygon_t)
  | multipoint (g : multipoint_t)
  | multilinestring (g : multilinestring_t)
  | multipolygon (g : multipolygon_t)
  deriving DecidableEq, Repr

/-- Type `point_3d_t`: x, y and z. -/
abbrev point_3d_t := Nat × Nat × Nat

/-- Type `linestring_3d_t`. -/
abbrev linestring_3d_t := List point_3d_t

/-- Type `polygon_3d_t`. -/
structure polygon_3d_t where
  /-- The ring `outer()`. -/
  outer : List point_3d_t
  /-- The rings `inners()`. -/
  inners : List (List point_3d_t)
  deriving DecidableEq, Repr

/-- Type `multipoint_3d_t`. -/
abbrev multipoint_3d_t := List point_3d_t

/-- Type `multilinestring_3d_t`. -/
abbrev multilinestring_3d_t := List linestring_3d_t

/-- Type `multipolygon_3d_t`. -/
abbrev multipolygon_3d_t := List polygon_3d_t

/-- Type `box_3d_t`: the minimal and the maximal corner. -/
abbrev box_3d_t := point_3d_t × point_3d_t

/-- Type `geometry_3d_variant`. -/
inductive geometry_3d_variant where
  | point (g : point_3d_t)
  | linestring (g : linestring_3d_t)
  | polygon (g : polygon_3d_t)
  | multipoint (g : multipoint_3d_t)
  | multilinestring (g : multilinestring_3d_t)
  | multipolygon (g : multipolygon_3d_t)
  deriving DecidableEq, Repr

/-- The external libraries that the functions below call: the readers, the writers and the
algorithms of Boost.Geometry on the types above, and the insertion of a double into a
`std::ostringstream`. They are parameters of the embedding. A reader gives `none` and an
algorithm gives `Except.error what` when the library throws an exception; `envelope` and
the writers are called outside or without regard to a handler and are taken as total. -/
structure Boost extends WktReader where
  /-- Function `read_wkt` into `linestring_t`. -/
  linestring : Str → Option linestring_t
  /-- Function `read_wkt` into `polygon_t`. -/
  polygon : Str → Option polygon_t
  /-- Function `read_wkt` into `multipoint_t`. -/
  multipoint : Str → Option multipoint_t
  /-- Function `read_wkt` into `multilinestring_t`. -/
  multilinestring : Str → Option multilinestring_t
  /-- Function `read_wkt` into `multipolygon_t`. -/
  multipolygon : Str → Option multipolygon_t
  /-- Function `read_wkt` into `linestring_3d_t`. -/
  linestring_3d : Str → Option linestring_3d_t
  /-- Function `read_wkt` into `polygon_3d_t`. -/
  polygon_3d : Str → Option polygon_3d_t
  /-- Function `read_wkt` into `multipoint_3d_t`. -/
  multipoint_3d : Str → Option multipoint_3d_t
  /-- Function `read_wkt` into `multilinestring_3d_t`. -/
  multilinestring_3d : Str → Option multilinestring_3d_t
  /-- Function `read_wkt` into `multipolygon_3d_t`. -/
  multipolygon_3d : Str → Option multipolygon_3d_t
  /-- Algorithm `distance`. -/
  distance : geometry_variant → geometry_variant → Except Str Nat
  /-- Algorithm `intersects`. -/
  intersects : geometry_variant → geometry_variant → Except Str Bool
  /-- Algorithm `within`. -/
  within : geometry_variant → geometry_variant → Except Str Bool
  /-- Algorithm `area` on a `polygon_t`. -/
  area : polygon_t → Except Str Nat
  /-- Algorithm `area` on a `multipolygon_t`. -/
  area_multi : multipolygon_t → Except Str Nat
  /-- Algorithm `envelope` into a `box_t`. -/
  envelope : geometry_variant → box_t
  /-- Algorithm `envelope` into a `box_3d_t`. -/
  envelope_3d : geometry_3d_variant → box_3d_t
  /-- Algorithm `union_` of two polygons: the polygons appended to the output. -/
  union_ : polygon_t → polygon_t → Except Str (List polygon_t)
  /-- Algorithm `convex_hull` of a multipoint into a polygon. -/
  convex_hull : multipoint_t → Except Str polygon_t
  /-- Writer `wkt` of a polygon, inserted into a stream. -/
  wkt_polygon : polygon_t → Str
  /-- Writer `wkt` of a multipolygon, inserted into a stream. -/
  wkt_multipolygon : multipolygon_t → Str
  /-- Insertion `oss << d` of a double after `std::setprecision(15)`. -/
  put_double : Nat → Str

/-- Member `is_empty`. -/
def GeometryWrapper.is_empty (g : GeometryWrapper) : Bool := g.wkt.isEmpty

/-- Member template `as<BoostGeomType>`, for a reader `read` of the target type: `nullopt`
for an empty text and when `read_wkt` throws. -/
def GeometryWrapper.as {α : Type} (read : Str → Option α) (g : GeometryWrapper) : Option α :=
  if g.wkt.isEmpty then none else read g.wkt

/-- Function `GeometryWrapper::as_variant`. -/
def GeometryWrapper.as_variant (B : Boost) (g : GeometryWrapper) : Option geometry_variant :=
  if g.wkt.isEmpty then none
  else
    match g.geometry_type with
    | .Point => (g.as B.point_2d).map .point
    | .LineString => (g.as B.linestring).map .linestring
    | .Polygon => (g.as B.polygon).map .polygon
    | .MultiPoint => (g.as B.multipoint).map .multipoint
    | .MultiLineString => (g.as B.multilinestring).map .multilinestring
    | .MultiPolygon => (g.as B.multipolygon).map .multipolygon
    | .Unknown => none

/-- Function `GeometryWrapper::as_3d_variant`. -/
def GeometryWrapper.as_3d_variant (B : Boost) (g : GeometryWrapper) :
    Option geometry_3d_variant :=
  if g.dimension ≠ .XYZ ∧ g.dimension ≠ .XYZM then none
  else
    match g.geometry_type with
    | .Point => (B.point_3d g.wkt).map .point
    | .LineString => (B.linestring_3d g.wkt).map .linestring
    | .Polygon => (B.polygon_3d g.wkt).map .polygon
    | .MultiPoint => (B.multipoint_3d g.wkt).map .multipoint
    | .MultiLineString => (B.multilinestring_3d g.wkt).map .multilinestring
    | .MultiPolygon => (B.multipolygon_3d g.wkt).map .multipolygon
    | .Unknown => none

/-- The common body of `x_min`, `x_max`, `y_min` and `y_max`: the coordinate that `pick_3d`
or `pick_2d` selects from the bounding box. -/
def GeometryWrapper.planar_bound (B : Boost) (g : GeometryWrapper)
    (pick_3d : box_3d_t → Nat) (pick_2d : box_t → Nat) : Option Nat :=
  if g.is_empty then none
  else if g.is_3d then (g.as_3d_variant B).map (fun v => pick_3d (B.envelope_3d v))
  else (g.as_variant B).map (fun v => pick_2d (B.envelope v))

/-- Function `GeometryWrapper::x_min`. -/
def GeometryWrapper.x_min (B : Boost) (g : GeometryWrapper) : Option Nat :=
  g.planar_bound B (fun b => b.1.1) (fun b => b.1.1)

/-- Function `GeometryWrapper::x_max`. -/
def GeometryWrapper.x_max (B : Boost) (g : GeometryWrapper) : Option Nat :=
  g.planar_bound B (fun b => b.2.1) (fun b => b.2.1)

/-- Function `GeometryWrapper::y_min`. -/
def GeometryWrapper.y_min (B : Boost) (g : GeometryWrapper) : Option Nat :=
  g.planar_bound B (fun b => b.1.2.1) (fun b => b.1.2)

/-- Function `GeometryWrapper::y_max`. -/
def GeometryWrapper.y_max (B : Boost) (g : GeometryWrapper) : Option Nat :=
  g.planar_bound B (fun b => b.2.2.1) (fun b => b.2.2)

/-- Function `GeometryWrapper::z_min`. -/
def GeometryWrapper.z_min (B : Boost) (g : GeometryWrapper) : Option Nat :=
  if g.is_empty || !g.is_3d then none
  else (g.as_3d_variant B).map (fun v => (B.envelope_3d v).1.2.2)

/-- Function `GeometryWrapper::z_max`. -/
def GeometryWrapper.z_max (B : Boost) (g : GeometryWrapper) : Option Nat :=
  if g.is_empty || !g.is_3d then none
  else (g.as_3d_variant B).map (fun v => (B.envelope_3d v).2.2.2)

/-- Function `GeometryWrapper::envelope`. -/
def GeometryWrapper.envelope (B : Boost) (g : GeometryWrapper) : Option GeometryWrapper :=
  match g.x_min B, g.x_max B, g.y_min B, g.y_max B with
  | some xmin, some xmax, some ymin, some ymax =>
    some ⟨"POLYGON((".toList
        ++ B.put_double xmin ++ " ".toList ++ B.put_double ymin ++ ",".toList
        ++ B.put_double xmax ++ " ".toList ++ B.put_double ymin ++ ",".toList
        ++ B.put_double xmax ++ " ".toList ++ B.put_double ymax ++ ",".toList
        ++ B.put_double xmin ++ " ".toList ++ B.put_double ymax ++ ",".toList
        ++ B.put_double xmin ++ " ".toList ++ B.put_double ymin
        ++ "))".toList, g.srid, .XY⟩
  | _, _, _, _ => none

/-- Function `GeometryWrapper::extent`. -/
def GeometryWrapper.extent (B : Boost) (g : GeometryWrapper) : Option Str :=
  match g.x_min B, g.x_max B, g.y_min B, g.y_max B with
  | some xmin, some xmax, some ymin, some ymax =>
    some ("BOX(".toList ++ B.put_double xmin ++ " ".toList ++ B.put_double ymin
      ++ ",".toList ++ B.put_double xmax ++ " ".toList ++ B.put_double ymax ++ ")".toList)
  | _, _, _, _ => none

/-! ## The host interface: SQLite values and results -/

/-- A `sqlite3_value`: its type (`sqlite3_value_type`) and its content. -/
inductive SqlValue where
  /-- Type `SQLITE_NULL`. -/
  | null
  /-- Type `SQLITE_INTEGER`. -/
  | integer (i : Int)
  /-- Type `SQLITE_FLOAT`, the 64-bit pattern of the double. -/
  | float (bits : Nat)
  /-- Type `SQLITE_TEXT`. -/
  | text (s : Str)
  /-- Type `SQLITE_BLOB`. -/
  | blob (b : List Nat)
  deriving DecidableEq, Repr

/-- The result that a function leaves in its `sqlite3_context`. A function that returns
without setting a result leaves `null`. -/
inductive SqlResult where
  /-- Call `sqlite3_result_null`. -/
  | null
  /-- Call `sqlite3_result_error`. -/
  | error (msg : Str)
  /-- Call `sqlite3_result_int`. -/
  | int (i : Int)
  /-- Call `sqlite3_result_double`. -/
  | double (bits : Nat)
  /-- Call `sqlite3_result_text`. -/
  | text (s : Str)
  /-- Call `sqlite3_result_blob`. -/
  | blob (b : List Nat)
  deriving DecidableEq, Repr

/-- The C string at the start of a text: the characters before the first NUL. This is what
`std::string(const char*)` copies and what `sqlite3_result_text(ctx, p, -1, _)` stores. -/
def c_str (s : Str) : Str := s.takeWhile (fun c => c.toNat != 0)

/-- Helper `read_text_arg` of `geometry_accessors.cpp`, `geometry_measures.cpp`,
`geometry_relations.cpp`, `geometry_operations.cpp` and `geometry_utils.cpp` (the same
text in each). -/
def read_text_arg (value : SqlValue) : Option Str :=
  match value with
  | .text s => some (c_str s)
  | _ => none

/-- Helper `read_real_arg` of `geometry_operations.cpp`; `int_to_double` is the conversion
that `sqlite3_value_double` applies to an integer. -/
def read_real_arg (int_to_double : Int → Nat) (value : SqlValue) : Option Nat :=
  match value with
  | .float bits => some bits
  | .integer i => some (int_to_double i)
  | _ => none

/-! ## Accessors (`geometry_accessors.cpp`) -/

/-- Function `st_as_text`. -/
def st_as_text (argv : List SqlValue) : SqlResult :=
  match argv with
  | [a0] =>
    if a0 = .null then .null
    else
      match read_text_arg a0 with
      | none => .error "sqlitegis: ST_AsText argument must be TEXT".toList
      | some geom_text =>
        match from_ewkt geom_text with
        | none => .error "sqlitegis: ST_AsText invalid geometry format".toList
        | some geom => .text geom.to_wkt
  | _ => .error "sqlitegis: ST_AsText expects exactly 1 argument".toList

/-- Function `st_as_ewkt`. -/
def st_as_ewkt (argv : List SqlValue) : SqlResult :=
  match argv with
  | [a0] =>
    if a0 = .null then .null
    else
      match read_text_arg a0 with
      | none => .error "sqlitegis: ST_AsEWKT argument must be TEXT".toList
      | some geom_text =>
        match from_ewkt geom_text with
        | none => .error "sqlitegis: ST_AsEWKT invalid geometry format".toList
        | some geom => .text geom.to_ewkt
  | _ => .error "sqlitegis: ST_AsEWKT expects exactly 1 argument".toList

/-- Function `st_srid`. -/
def st_srid (argv : List SqlValue) : SqlResult :=
  match argv with
  | [a0] =>
    if a0 = .null then .null
    else
      match read_text_arg a0 with
      | none => .error "sqlitegis: ST_SRID argument must be TEXT".toList
      | some geom_text =>
        match from_ewkt geom_text with
        | none => .error "sqlitegis: ST_SRID invalid geometry format".toList
        | some geom => .int geom.srid
  | _ => .error "sqlitegis: ST_SRID expects exactly 1 argument".toList

/-- Function `st_is_3d`. -/
def st_is_3d (argv : List SqlValue) : SqlResult :=
  match argv with
  | [a0] =>
    if a0 = .null then .null
    else
      match read_text_arg a0 with
      | none => .error "sqlitegis: ST_Is3D argument must be TEXT".toList
      | some geom_text =>
        match from_ewkt geom_text with
        | none => .error "sqlitegis: ST_Is3D invalid geometry format".toList
        | some geom => .int (if geom.is_3d then 1 else 0)
  | _ => .error "sqlitegis: ST_Is3D expects exactly 1 argument".toList

/-- Function `st_coord_dim`. -/
def st_coord_dim (argv : List SqlValue) : SqlResult :=
  match argv with
  | [a0] =>
    if a0 = .null then .null
    else
      match read_text_arg a0 with
      | none => .error "sqlitegis: ST_CoordDim argument must be TEXT".toList
      | some geom_text =>
        match from_ewkt geom_text with
        | none => .error "sqlitegis: ST_CoordDim invalid geometry format".toList
        | some geom => .int geom.coord_dimension
  | _ => .error "sqlitegis: ST_CoordDim expects exactly 1 argument".toList

/-! ## Measures (`geometry_measures.cpp`) -/

/-- Function `st_area`. -/
def st_area (B : Boost) (argv : List SqlValue) : SqlResult :=
  match argv with
  | [a0] =>
    if a0 = .null then .null
    else
      match read_text_arg a0 with
      | none => .error "sqlitegis: ST_Area argument must be TEXT".toList
      | some geom_text =>
        match from_ewkt geom_text with
        | none => .error "sqlitegis: ST_Area invalid geometry format".toList
        | some geom =>
          match geom.geometry_type with
          | .Polygon =>
            match geom.as B.polygon with
            | none => .error "sqlitegis: ST_Area failed to parse Polygon".toList
            | some polygon =>
              match B.area polygon with
              | .ok area => .double area
              | .error what =>
                .error ("sqlitegis: ST_Area calculation failed: ".toList ++ what)
          | .MultiPolygon =>
            match geom.as B.multipolygon with
            | none => .error "sqlitegis: ST_Area failed to parse MultiPolygon".toList
            | some multipolygon =>
              match B.area_multi multipolygon with
              | .ok area => .double area
              | .error what =>
                .error ("sqlitegis: ST_Area calculation failed: ".toList ++ what)
          | _ => .error "sqlitegis: ST_Area requires Polygon or MultiPolygon".toList
  | _ => .error "sqlitegis: ST_Area expects exactly 1 argument".toList

/-! ## Relations (`geometry_relations.cpp`) -/

/-- The part that `st_distance`, `st_intersects`, `st_contains` and `st_within` share up to
the function name in the messages: the test of the argument count, the handling of NULL,
the reading and the parsing of both arguments into variants; `compute` is the `try` block
on the two variants. -/
def binary_relation (B : Boost) (name : Str) (argv : List SqlValue)
    (compute : geometry_variant → geometry_variant → SqlResult) : SqlResult :=
  match argv with
  | [a0, a1] =>
    if a0 = .null ∨ a1 = .null then .null
    else
      match read_text_arg a0, read_text_arg a1 with
      | some geom1_text, some geom2_text =>
        match from_ewkt geom1_text, from_ewkt geom2_text with
        | some geom1, some geom2 =>
          match geom1.as_variant B, geom2.as_variant B with
          | some var1, some var2 => compute var1 var2
          | _, _ =>
            .error ("sqlitegis: ".toList ++ name ++ " failed to parse geometries".toList)
        | _, _ => .error ("sqlitegis: ".toList ++ name ++ " invalid geometry format".toList)
      | _, _ => .error ("sqlitegis: ".toList ++ name ++ " arguments must be TEXT".toList)
  | _ => .error ("sqlitegis: ".toList ++ name ++ " expects exactly 2 arguments".toList)

/-- The end of a `try` block that yields a boolean: `sqlite3_result_int` of 1 or 0, or the
error of the handler. -/
def result_of_bool (name : Str) (r : Except Str Bool) : SqlResult :=
  match r with
  | .ok b => .int (if b then 1 else 0)
  | .error what =>
    .error ("sqlitegis: ".toList ++ name ++ " calculation failed: ".toList ++ what)

/-- Function `st_distance`. -/
def st_distance (B : Boost) (argv : List SqlValue) : SqlResult :=
  binary_relation B "ST_Distance".toList argv (fun g1 g2 =>
    match B.distance g1 g2 with
    | .ok distance => .double distance
    | .error what =>
      .error ("sqlitegis: ST_Distance calculation failed: ".toList ++ what))

/-- Function `st_intersects`. -/
def st_intersects (B : Boost) (argv : List SqlValue) : SqlResult :=
  binary_relation B "ST_Intersects".toList argv (fun g1 g2 =>
    result_of_bool "ST_Intersects".toList (B.intersects g1 g2))

/-- The test `std::is_same_v<G, polygon_t> || std::is_same_v<G, multipolygon_t>` on the
type of the alternative that a variant holds. -/
def geometry_variant.is_areal : geometry_variant → Bool
  | .polygon _ => true
  | .multipolygon _ => true
  | _ => false

/-- Function `st_contains`. In the `if constexpr` the type `G2` ranges over all six
alternatives, so the condition is that `G1` is `polygon_t` or `multipolygon_t`. -/
def st_contains (B : Boost) (argv : List SqlValue) : SqlResult :=
  binary_relation B "ST_Contains".toList argv (fun g1 g2 =>
    result_of_bool "ST_Contains".toList
      (if g1.is_areal then B.within g2 g1 else .ok false))

/-- Function `st_within`. In the `if constexpr` the type `G1` ranges over all six
alternatives, so the condition is that `G2` is `polygon_t` or `multipolygon_t`. -/
def st_within (B : Boost) (argv : List SqlValue) : SqlResult :=
  binary_relation B "ST_Within".toList argv (fun g1 g2 =>
    result_of_bool "ST_Within".toList
      (if g2.is_areal then B.within g1 g2 else .ok false))

/-! ## Operations (`geometry_operations.cpp`) -/

/-- Function `st_force_2d`. -/
def st_force_2d (argv : List SqlValue) : SqlResult :=
  match argv with
  | [a0] =>
    if a0 = .null then .null
    else
      match read_text_arg a0 with
      | none => .error "sqlitegis: ST_Force2D argument must be TEXT".toList
      | some geom_text =>
        match from_ewkt geom_text with
        | none => .error "sqlitegis: ST_Force2D invalid geometry format".toList
        | some geom => .text geom.force_2d.to_ewkt
  | _ => .error "sqlitegis: ST_Force2D expects exactly 1 argument".toList

/-- The body of `st_force_3d` after the optional argument is read. -/
def st_force_3d_with (geom_text : Str) (z_default : Nat) : SqlResult :=
  match from_ewkt geom_text with
  | none => .error "sqlitegis: ST_Force3D invalid geometry format".toList
  | some geom => .text (geom.force_3d z_default).to_ewkt

/-- Function `st_force_3d`, called with one or two arguments; `int_to_double` is the
conversion that `sqlite3_value_double` applies to an integer. The default `z_default` is
`0.0`, the pattern 0. -/
def st_force_3d (int_to_double : Int → Nat) (argv : List SqlValue) : SqlResult :=
  match argv with
  | [a0] =>
    if a0 = .null then .null
    else
      match read_text_arg a0 with
      | none => .error "sqlitegis: ST_Force3D first argument must be TEXT".toList
      | some geom_text => st_force_3d_with geom_text 0
  | [a0, a1] =>
    if a0 = .null then .null
    else
      match read_text_arg a0 with
      | none => .error "sqlitegis: ST_Force3D first argument must be TEXT".toList
      | some geom_text =>
        match read_real_arg int_to_double a1 with
        | none => .error "sqlitegis: ST_Force3D second argument must be REAL".toList
        | some z_default => st_force_3d_with geom_text z_default
  | _ => .error "sqlitegis: ST_Force3D expects 1 or 2 arguments".toList

/-! ## Bounding boxes (`geometry_bbox.cpp`) -/

/-- Helper `read_text_arg` of `geometry_bbox.cpp`: the text, or the error that the helper
itself reports (and a null pointer) when the value is not of type `SQLITE_TEXT`. -/
def bbox_read_text_arg (val : SqlValue) : Except SqlResult Str :=
  match val with
  | .text s => .ok (c_str s)
  | _ => .error (.error "Expected TEXT argument".toList)

/-- Function `st_envelope`. -/
def st_envelope (B : Boost) (argv : List SqlValue) : SqlResult :=
  match argv with
  | [a0] =>
    match bbox_read_text_arg a0 with
    | .error reported => reported
    | .ok ewkt =>
      match from_ewkt ewkt with
      | none => .error "Invalid geometry".toList
      | some geom =>
        match geom.envelope B with
        | none => .null
        | some envelope => .text (c_str envelope.to_ewkt)
  | _ => .error "ST_Envelope requires 1 argument".toList

/-- Function `st_extent`. -/
def st_extent (B : Boost) (argv : List SqlValue) : SqlResult :=
  match argv with
  | [a0] =>
    match bbox_read_text_arg a0 with
    | .error reported => reported
    | .ok ewkt =>
      match from_ewkt ewkt with
      | none => .error "Invalid geometry".toList
      | some geom =>
        match geom.extent B with
        | none => .null
        | some extent => .text (c_str extent)
  | _ => .error "ST_Extent requires 1 argument".toList

/-- The text that `st_xmin`, `st_xmax`, `st_ymin`, `st_ymax`, `st_zmin` and `st_zmax` share
up to the function name in the first message and the member `bound` that is called. -/
def st_bound (name : Str) (bound : GeometryWrapper → Option Nat) (argv : List SqlValue) :
    SqlResult :=
  match argv with
  | [a0] =>
    match bbox_read_text_arg a0 with
    | .error reported => reported
    | .ok ewkt =>
      match from_ewkt ewkt with
      | none => .error "Invalid geometry".toList
      | some geom =>
        match bound geom with
        | none => .null
        | some value => .double value
  | _ => .error (name ++ " requires 1 argument".toList)

/-- Function `st_xmin`. -/
def st_xmin (B : Boost) (argv : List SqlValue) : SqlResult :=
  st_bound "ST_XMin".toList (fun g => g.x_min B) argv

/-- Function `st_xmax`. -/
def st_xmax (B : Boost) (argv : List SqlValue) : SqlResult :=
  st_bound "ST_XMax".toList (fun g => g.x_max B) argv

/-- Function `st_ymin`. -/
def st_ymin (B : Boost) (argv : List SqlValue) : SqlResult :=
  st_bound "ST_YMin".toList (fun g => g.y_min B) argv

/-- Function `st_ymax`. -/
def st_ymax (B : Boost) (argv : List SqlValue) : SqlResult :=
  st_bound "ST_YMax".toList (fun g => g.y_max B) argv

/-- Function `st_zmin`. -/
def st_zmin (B : Boost) (argv : List SqlValue) : SqlResult :=
  st_bound "ST_ZMin".toList (fun g => g.z_min B) argv

/-- Function `st_zmax`. -/
def st_zmax (B : Boost) (argv : List SqlValue) : SqlResult :=
  st_bound "ST_ZMax".toList (fun g => g.z_max B) argv

/-! ## Aggregates (`geometry_aggregates.cpp`) -/

/-- The structure `CollectContext`. -/
structure CollectContext where
  /-- Field `geometries`. -/
  geometries : List GeometryWrapper
  /-- Field `srid`. -/
  srid : Int
  /-- Field `has_error`. -/
  has_error : Bool
  /-- Field `error_message`. -/
  error_message : Str
  deriving DecidableEq, Repr

/-- The value that the constructor `CollectContext()` builds from the default member
initialisers. -/
def CollectContext.constructed : CollectContext := ⟨[], -1, false, []⟩

/-- The region that `sqlite3_aggregate_context` hands out on the first call, every byte
zero, read as a `CollectContext`: no geometry, `srid` 0, flag clear, empty message. -/
def CollectContext.zeroed : CollectContext := ⟨[], 0, false, []⟩

/-- The call `sqlite3_aggregate_context(ctx, sizeof(CollectContext))` of a step function:
the context of the group, allocated on the first call (`none` before it). -/
def aggregate_context (c : Option CollectContext) : CollectContext :=
  c.getD CollectContext.zeroed

/-- Function `sqlite3_value_text` followed by the conversion to `std::string`; `to_text` is
the conversion that SQLite applies to a value that is not a text. -/
def value_text (to_text : SqlValue → Str) (value : SqlValue) : Str :=
  match value with
  | .text s => c_str s
  | v => c_str (to_text v)

/-- The text that `st_collect_step`, `st_union_step` and `st_convexhull_agg_step` share up
to the function name `name` at the end of the two messages. The argument `c` is the state
of the group before the call, `none` when no context has been allocated yet. -/
def collect_step (name : Str) (to_text : SqlValue → Str) (c : Option CollectContext)
    (argv : List SqlValue) : Option CollectContext :=
  match argv with
  | [a0] =>
    let c0 := aggregate_context c
    -- "Initialize context on first call"
    let c1 := if c0.geometries.isEmpty ∧ c0.srid = -1 then CollectContext.constructed else c0
    if a0 = .null then some c1
    else
      match from_ewkt (value_text to_text a0) with
      | none =>
        some { c1 with has_error := true,
                       error_message := "Invalid geometry in ".toList ++ name }
      | some geom =>
        if c1.srid = -1 then
          some { c1 with srid := geom.srid, geometries := c1.geometries ++ [geom] }
        else if c1.srid ≠ geom.srid then
          some { c1 with has_error := true,
                         error_message := "Mixed SRIDs in ".toList ++ name }
        else some { c1 with geometries := c1.geometries ++ [geom] }
  | _ => c

/-- Function `st_collect_step`. -/
def st_collect_step (to_text : SqlValue → Str) (c : Option CollectContext)
    (argv : List SqlValue) : Option CollectContext :=
  collect_step "ST_Collect".toList to_text c argv

/-- Function `st_union_step`. -/
def st_union_step (to_text : SqlValue → Str) (c : Option CollectContext)
    (argv : List SqlValue) : Option CollectContext :=
  collect_step "ST_Union".toList to_text c argv

/-- Function `st_convexhull_agg_step`. -/
def st_convexhull_agg_step (to_text : SqlValue → Str) (c : Option CollectContext)
    (argv : List SqlValue) : Option CollectContext :=
  collect_step "ST_ConvexHull_Agg".toList to_text c argv

/-- Member `std::string::find(char)`: the offset of the first occurrence. -/
def find_char (s : Str) (c : Char) : Option Nat :=
  s.indexOf? c

/-- Member `std::string::rfind(char)`: the offset of the last occurrence. -/
def rfind_char (s : Str) (c : Char) : Option Nat :=
  (s.reverse.indexOf? c).map (fun i => s.length - 1 - i)

/-- Member `std::string::substr(pos, n)` for `pos` within the string. -/
def substr (s : Str) (pos n : Nat) : Str := (s.drop pos).take n

/-- The text between the first `(` and the last `)` of a WKT, as `st_collect_final`
extracts it: `wkt.substr(start + 1, end - start - 1)` in `size_t` arithmetic, `none` when
one of the two characters does not occur. -/
def inner_text (wkt : Str) : Option Str :=
  match find_char wkt '(', rfind_char wkt ')' with
  | some start, some stop => some (substr wkt (start + 1) ((stop + 2 ^ 64 - start - 1) % 2 ^ 64))
  | _, _ => none

/-- A loop `for (i = 0; i < geometries.size(); ++i)` of `st_collect_final`: a comma and a
space before every member but the first, then the text `piece` of the member. -/
def members_loop (piece : GeometryWrapper → Str) : Nat → List GeometryWrapper → Str
  | _, [] => []
  | i, g :: gs =>
    (if i > 0 then ", ".toList else []) ++ piece g ++ members_loop piece (i + 1) gs

/-- Function `st_collect_final`; `c` is what `sqlite3_aggregate_context(ctx, 0)` returns. -/
def st_collect_final (c : Option CollectContext) : SqlResult :=
  match c with
  | none => .null
  | some c =>
    match c.geometries with
    | [] => .null
    | first :: _ =>
      if c.has_error then .error (c_str c.error_message)
      else
        let first_type := first.geometry_type
        let same_type := c.geometries.all (fun g => g.geometry_type == first_type)
        let bare : GeometryWrapper → Str := fun g => (inner_text g.to_wkt).getD []
        let wrapped : GeometryWrapper → Str := fun g =>
          match inner_text g.to_wkt with
          | some t => "(".toList ++ t ++ ")".toList
          | none => []
        let collection : Str :=
          "GEOMETRYCOLLECTION(".toList ++ members_loop (fun g => g.to_wkt) 0 c.geometries
            ++ ")".toList
        let result : Str :=
          if same_type then
            match first_type with
            | .Point => "MULTIPOINT(".toList ++ members_loop bare 0 c.geometries ++ ")".toList
            | .LineString =>
              "MULTILINESTRING(".toList ++ members_loop wrapped 0 c.geometries ++ ")".toList
            | .Polygon =>
              "MULTIPOLYGON(".toList ++ members_loop wrapped 0 c.geometries ++ ")".toList
            | _ => collection
          else collection
        .text (c_str (GeometryWrapper.mk result c.srid .XY).to_ewkt)

/-- The loop of `st_union_final` over the accumulated geometries: a polygon becomes the
output when the output is empty, otherwise the output is replaced by the union of its
first polygon with the new one; other variants and unreadable members are skipped. -/
def union_loop (B : Boost) : List GeometryWrapper → List polygon_t → Except Str (List polygon_t)
  | [], output => .ok output
  | g :: gs, output =>
    match g.as_variant B with
    | some (.polygon geom) =>
      match output with
      | [] => union_loop B gs [geom]
      | first :: _ =>
        match B.union_ first geom with
        | .ok union_result => union_loop B gs union_result
        | .error what => .error what
    | _ => union_loop B gs output

/-- Function `st_union_final`. -/
def st_union_final (B : Boost) (c : Option CollectContext) : SqlResult :=
  match c with
  | none => .null
  | some c =>
    match c.geometries with
    | [] => .null
    | first :: rest =>
      if c.has_error then .error (c_str c.error_message)
      else
        match first.as_variant B with
        | none => .error "Cannot parse geometry in ST_Union".toList
        | some _ =>
          if rest.isEmpty then .text (c_str first.to_ewkt)
          else
            match union_loop B c.geometries [] with
            | .error what => .error ("ST_Union error: ".toList ++ what)
            | .ok [] => .error "Union produced no result".toList
            | .ok [single] =>
              .text (c_str (GeometryWrapper.mk (B.wkt_polygon single) c.srid .XY).to_ewkt)
            | .ok output =>
              .text (c_str (GeometryWrapper.mk (B.wkt_multipolygon output) c.srid .XY).to_ewkt)

/-- The points that `st_convexhull_agg_final` collects from one geometry. -/
def hull_points (B : Boost) (g : GeometryWrapper) : multipoint_t :=
  match g.as_variant B with
  | some (.point p) => [p]
  | some (.linestring l) => l
  | some (.polygon p) => p.outer
  | some (.multipoint m) => m
  | _ => []

/-- Function `st_convexhull_agg_final`. -/
def st_convexhull_agg_final (B : Boost) (c : Option CollectContext) : SqlResult :=
  match c with
  | none => .null
  | some c =>
    if c.geometries.isEmpty then .null
    else if c.has_error then .error (c_str c.error_message)
    else
      let all_points : multipoint_t := (c.geometries.map (hull_points B)).flatten
      match B.convex_hull all_points with
      | .error what => .error ("ST_ConvexHull_Agg error: ".toList ++ what)
      | .ok hull =>
        .text (c_str (GeometryWrapper.mk (B.wkt_polygon hull) c.srid .XY).to_ewkt)

/-- An aggregate evaluated over the rows of a group, one argument per row: the step
function on every row in order, then the final function. -/
def aggregate (step : Option CollectContext → List SqlValue → Option CollectContext)
    (final : Option CollectContext → SqlResult) (rows : List SqlValue) : SqlResult :=
  final (rows.foldl (fun c row => step c [row]) none)

/-! ## Arithmetic of doubles

The operations of IEEE-754 binary64 in the default rounding mode (to nearest, ties to
even) on 64-bit patterns. A finite double with exponent field `E` and fraction `F` has the
magnitude `fp_mantissa * 2 ^ fp_scale * 2 ^ (-1074)`. Every NaN result is the pattern
`fp_nan`.
-/

/-- The pattern of a quiet NaN. -/
def fp_nan : Nat := 0x7FF8000000000000

/-- The sign bit of a pattern. -/
def fp_sign (b : Nat) : Nat := b / 2 ^ 63 % 2

/-- The exponent field of a pattern. -/
def fp_exponent (b : Nat) : Nat := b / 2 ^ 52 % 2 ^ 11

/-- The fraction field of a pattern. -/
def fp_fraction (b : Nat) : Nat := b % 2 ^ 52

/-- Whether a pattern is a NaN. -/
def fp_is_nan (b : Nat) : Bool := fp_exponent b == 2047 && fp_fraction b != 0

/-- Whether a pattern is an infinity. -/
def fp_is_inf (b : Nat) : Bool := fp_exponent b == 2047 && fp_fraction b == 0

/-- The significand of a finite double, with the implicit bit of a normal number. -/
def fp_mantissa (b : Nat) : Nat :=
  if fp_exponent b = 0 then fp_fraction b else 2 ^ 52 + fp_fraction b

/-- The binary scale of a finite double above `2 ^ (-1074)`. -/
def fp_scale (b : Nat) : Nat :=
  if fp_exponent b = 0 then 0 else fp_exponent b - 1

/-- The number of binary digits of a natural number. -/
def bit_length : Nat → Nat → Nat
  | 0, _ => 0
  | fuel + 1, n => if n = 0 then 0 else bit_length fuel (n / 2) + 1

/-- The double nearest to `(-1) ^ sign * n * 2 ^ x * 2 ^ (-k)`, ties to even, for
`k ≥ 1074`; the infinity of that sign when the rounded value is out of range. -/
def fp_round (sign n x k : Nat) : Nat :=
  if n = 0 then sign * 2 ^ 63
  else
    -- the result is `q * 2 ^ t * 2 ^ (-k)` with `q < 2 ^ 53` and `t` as small as allowed
    let t := max (bit_length n n + x - 53) (k - 1074)
    let num := n * 2 ^ (x - t)
    let den := 2 ^ (t - x)
    let q := num / den
    let r := num % den
    let rounded := if den < 2 * r ∨ (2 * r = den ∧ q % 2 = 1) then q + 1 else q
    sign * 2 ^ 63 + min ((t + 1074 - k) * 2 ^ 52 + rounded) 0x7FF0000000000000

/-- Negation: the sign bit flipped. -/
def fp_neg (a : Nat) : Nat := a ^^^ 2 ^ 63

/-- Addition of two doubles. -/
def fp_add (a b : Nat) : Nat :=
  if fp_is_nan a || fp_is_nan b then fp_nan
  else if fp_is_inf a then (if fp_is_inf b && fp_sign a != fp_sign b then fp_nan else a)
  else if fp_is_inf b then b
  else
    let x := min (fp_scale a) (fp_scale b)
    let ma : Int := fp_mantissa a * 2 ^ (fp_scale a - x)
    let mb : Int := fp_mantissa b * 2 ^ (fp_scale b - x)
    let s : Int := (if fp_sign a = 1 then -ma else ma) + (if fp_sign b = 1 then -mb else mb)
    if s = 0 then (if fp_sign a = 1 ∧ fp_sign b = 1 then 2 ^ 63 else 0)
    else fp_round (if s < 0 then 1 else 0) s.natAbs x 1074

/-- Subtraction of two doubles. -/
def fp_sub (a b : Nat) : Nat := fp_add a (fp_neg b)

/-- Multiplication of two doubles. -/
def fp_mul (a b : Nat) : Nat :=
  let sign := (fp_sign a + fp_sign b) % 2
  if fp_is_nan a || fp_is_nan b then fp_nan
  else if fp_is_inf a || fp_is_inf b then
    (if (!fp_is_inf a && fp_mantissa a == 0) || (!fp_is_inf b && fp_mantissa b == 0) then fp_nan
     else sign * 2 ^ 63 + 0x7FF0000000000000)
  else fp_round sign (fp_mantissa a * fp_mantissa b) (fp_scale a + fp_scale b) 2148

/-- Division of a double by `2.0`. -/
def fp_half (a : Nat) : Nat :=
  if fp_is_nan a then fp_nan
  else if fp_is_inf a then a
  else fp_round (fp_sign a) (fp_mantissa a) (fp_scale a) 1075

/-- The comparison `a >= 0.0` of doubles. -/
def fp_nonneg (a : Nat) : Bool :=
  !fp_is_nan a && (fp_sign a == 0 || a % 2 ^ 63 == 0)

/-! ## The area algorithm of Boost.Geometry

`boost::geometry::area` in the Cartesian strategy, for the storage declared in the header:
`polygon_t` is `model::polygon<point_t>` with the default template arguments, that is,
rings stored clockwise and closed. The library does not reorder the points of a ring that
`read_wkt` has read.
-/

/-- The loop over the segments of a ring: `sum += (x1 + x2) * (y1 - y2)` for every pair of
consecutive points. -/
def segment_sum : List point_t → Nat → Nat
  | p1 :: p2 :: rest, sum =>
    segment_sum (p2 :: rest) (fp_add sum (fp_mul (fp_add p1.1 p2.1) (fp_sub p1.2 p2.2)))
  | _, sum => sum

/-- The area of a ring: zero for fewer than four points, else half the sum over the
segments; it is positive for a clockwise ring and negative for a counter-clockwise one. -/
def ring_area (ring : List point_t) : Nat :=
  if ring.length < 4 then 0 else fp_half (segment_sum ring 0)

/-- The area of a polygon: the area of the outer ring plus the sum of the areas of the
inner rings. -/
def polygon_area (p : polygon_t) : Nat :=
  fp_add (ring_area p.outer) (p.inners.foldl (fun sum r => fp_add sum (ring_area r)) 0)

/-- The area of a multipolygon: the sum of the areas of its polygons. -/
def multipolygon_area (m : multipolygon_t) : Nat :=
  m.foldl (fun sum p => fp_add sum (polygon_area p)) 0

/-! ## Comparison of doubles, `std::min` and `std::max` -/

/-- The position of a double that is not a NaN in the order of the doubles: the magnitude
bits with the sign; both zeros have the position 0. -/
def fp_key (a : Nat) : Int :=
  if fp_sign a = 1 then -((a % 2 ^ 63 : Nat) : Int) else ((a % 2 ^ 63 : Nat) : Int)

/-- The comparison `a < b` of doubles: false when either is a NaN. -/
def fp_lt (a b : Nat) : Bool :=
  !fp_is_nan a && !fp_is_nan b && decide (fp_key a < fp_key b)

/-- The function `std::min(a, b)` on doubles: `(b < a) ? b : a`. -/
def fp_min (a b : Nat) : Nat := if fp_lt b a then b else a

/-- The function `std::max(a, b)` on doubles: `(a < b) ? b : a`. -/
def fp_max (a b : Nat) : Nat := if fp_lt a b then b else a

/-- The constant `std::numeric_limits<double>::max()`. -/
def DBL_MAX : Nat := 0x7FEFFFFFFFFFFFFF

/-- The constant `std::numeric_limits<double>::lowest()`. -/
def DBL_LOWEST : Nat := 0xFFEFFFFFFFFFFFFF

/-! ## The aggregate `ST_Extent_Agg` (`geometry_aggregates.cpp`) -/

/-- The structure `ExtentContext`. -/
structure ExtentContext where
  /-- Field `min_x`. -/
  min_x : Nat
  /-- Field `min_y`. -/
  min_y : Nat
  /-- Field `max_x`. -/
  max_x : Nat
  /-- Field `max_y`. -/
  max_y : Nat
  /-- Field `has_data`. -/
  has_data : Bool
  deriving DecidableEq, Repr

/-- The value that the constructor `ExtentContext()` builds from the default member
initialisers. -/
def ExtentContext.constructed : ExtentContext := ⟨DBL_MAX, DBL_MAX, DBL_LOWEST, DBL_LOWEST, false⟩

/-- The region that `sqlite3_aggregate_context` hands out on the first call, every byte
zero, read as an `ExtentContext`. -/
def ExtentContext.zeroed : ExtentContext := ⟨0, 0, 0, 0, false⟩

/-- Function `st_extent_agg_step`. The argument `c` is the state of the group before the
call, `none` when no context has been allocated yet. -/
def st_extent_agg_step (B : Boost) (to_text : SqlValue → Str) (c : Option ExtentContext)
    (argv : List SqlValue) : Option ExtentContext :=
  match argv with
  | [a0] =>
    let c0 := c.getD ExtentContext.zeroed
    let c1 := if !c0.has_data then ExtentContext.constructed else c0
    if a0 = .null then some c1
    else
      match from_ewkt (value_text to_text a0) with
      | none => some c1
      | some geom =>
        match geom.x_min B, geom.x_max B, geom.y_min B, geom.y_max B with
        | some x_min, some x_max, some y_min, some y_max =>
          some ⟨fp_min c1.min_x x_min, fp_min c1.min_y y_min, fp_max c1.max_x x_max,
            fp_max c1.max_y y_max, true⟩
        | _, _, _, _ => some c1
  | _ => c

/-- Function `st_extent_agg_final`; `put` is the insertion `result << d` of a double into a
`std::ostringstream` in its default state. -/
def st_extent_agg_final (put : Nat → Str) (c : Option ExtentContext) : SqlResult :=
  match c with
  | none => .null
  | some c =>
    if !c.has_data then .null
    else
      .text (c_str ("BOX(".toList ++ put c.min_x ++ " ".toList ++ put c.min_y ++ ", ".toList
        ++ put c.max_x ++ " ".toList ++ put c.max_y ++ ")".toList))

/-! ## Coordinate transformation (`geometry_transform.cpp`) -/

/-- The library PROJ and the WKT writers of Boost.Geometry that `transform_geometry` calls;
they are parameters of the embedding. A `PJ*` is a natural number (a handle), `none` the
null pointer; a `PJ_COORD` is the four doubles x, y, z, t. -/
structure Proj where
  /-- Function `proj_create_crs_to_crs` on the two CRS names. -/
  create_crs_to_crs : Str → Str → Option Nat
  /-- Function `proj_normalize_for_visualization`. -/
  normalize_for_visualization : Nat → Option Nat
  /-- Function `proj_trans` in the direction `PJ_FWD`. -/
  trans : Nat → Nat × Nat × Nat × Nat → Nat × Nat × Nat × Nat
  /-- Writer `wkt` of a 2D geometry, inserted into a stream. -/
  wkt : geometry_variant → Str
  /-- Writer `wkt` of a 3D geometry, inserted into a stream. -/
  wkt_3d : geometry_3d_variant → Str

/-- The state of the singleton `ProjContext`: the map `cache_` as an association list
(`transforms_` owns the same handles). The list `requests` is not part of the class: it
records the calls of `get_transform`, latest first. -/
structure ProjContext where
  /-- Field `cache_`. -/
  cache : List ((Int × Int) × Nat)
  /-- The arguments of the calls of `get_transform` so far. -/
  requests : List (Int × Int)
  deriving DecidableEq, Repr

/-- Member `ProjContext::get_transform`: the handle and the state after the call. -/
def ProjContext.get_transform (P : Proj) (st : ProjContext) (source_srid target_srid : Int) :
    Option Nat × ProjContext :=
  let st1 : ProjContext := { st with requests := (source_srid, target_srid) :: st.requests }
  if source_srid = target_srid then (none, st1)
  else
    match st1.cache.lookup (source_srid, target_srid) with
    | some pj => (some pj, st1)
    | none =>
      let src := "EPSG:".toList ++ to_string_int source_srid
      let dst := "EPSG:".toList ++ to_string_int target_srid
      match P.create_crs_to_crs src dst with
      | none => (none, st1)
      | some pj0 =>
        let pj := (P.normalize_for_visualization pj0).getD pj0
        (some pj, { st1 with cache := ((source_srid, target_srid), pj) :: st1.cache })

/-- Function `transform_point_2d`. -/
def transform_point_2d (P : Proj) (pt : point_t) (transform : Nat) : point_t :=
  let out := P.trans transform (pt.1, pt.2, 0, 0)
  (out.1, out.2.1)

/-- Function `transform_point_3d`. -/
def transform_point_3d (P : Proj) (pt : point_3d_t) (transform : Nat) : point_3d_t :=
  let out := P.trans transform (pt.1, pt.2.1, pt.2.2, 0)
  (out.1, out.2.1, out.2.2.1)

/-- Function `transform_linestring`. -/
def transform_linestring (P : Proj) (line : linestring_t) (transform : Nat) : linestring_t :=
  line.map (fun pt => transform_point_2d P pt transform)

/-- Function `transform_linestring_3d`. -/
def transform_linestring_3d (P : Proj) (line : linestring_3d_t) (transform : Nat) :
    linestring_3d_t :=
  line.map (fun pt => transform_point_3d P pt transform)

/-- Function `transform_polygon`. -/
def transform_polygon (P : Proj) (poly : polygon_t) (transform : Nat) : polygon_t :=
  ⟨poly.outer.map (fun pt => transform_point_2d P pt transform),
    poly.inners.map (fun inner => inner.map (fun pt => transform_point_2d P pt transform))⟩

/-- Function `transform_polygon_3d`. -/
def transform_polygon_3d (P : Proj) (poly : polygon_3d_t) (transform : Nat) : polygon_3d_t :=
  ⟨poly.outer.map (fun pt => transform_point_3d P pt transform),
    poly.inners.map (fun inner => inner.map (fun pt => transform_point_3d P pt transform))⟩

/-- Function `transform_multipoint`. -/
def transform_multipoint (P : Proj) (mp : multipoint_t) (transform : Nat) : multipoint_t :=
  mp.map (fun pt => transform_point_2d P pt transform)

/-- Function `transform_multipoint_3d`. -/
def transform_multipoint_3d (P : Proj) (mp : multipoint_3d_t) (transform : Nat) :
    multipoint_3d_t :=
  mp.map (fun pt => transform_point_3d P pt transform)

/-- Function `transform_multilinestring`. -/
def transform_multilinestring (P : Proj) (ml : multilinestring_t) (transform : Nat) :
    multilinestring_t :=
  ml.map (fun line => transform_linestring P line transform)

/-- Function `transform_multilinestring_3d`. -/
def transform_multilinestring_3d (P : Proj) (ml : multilinestring_3d_t) (transform : Nat) :
    multilinestring_3d_t :=
  ml.map (fun line => transform_linestring_3d P line transform)

/-- Function `transform_multipolygon`. -/
def transform_multipolygon (P : Proj) (mp : multipolygon_t) (transform : Nat) :
    multipolygon_t :=
  mp.map (fun poly => transform_polygon P poly transform)

/-- Function `transform_multipolygon_3d`. -/
def transform_multipolygon_3d (P : Proj) (mp : multipolygon_3d_t) (transform : Nat) :
    multipolygon_3d_t :=
  mp.map (fun poly => transform_polygon_3d P poly transform)

/-- Function `transform_geometry`: the result and the state of the `ProjContext` after the
call. -/
def transform_geometry (P : Proj) (B : Boost) (st : ProjContext) (geom : GeometryWrapper)
    (target_srid : Int) : Option GeometryWrapper × ProjContext :=
  if geom.srid = target_srid then (some geom, st)
  else
    match st.get_transform P geom.srid target_srid with
    | (none, st1) => (none, st1)
    | (some transform, st1) =>
      if geom.is_3d then
        match geom.as_3d_variant B with
        | none => (none, st1)
        | some var =>
          let result_wkt : Str :=
            match var with
            | .point g => P.wkt_3d (.point (transform_point_3d P g transform))
            | .linestring g => P.wkt_3d (.linestring (transform_linestring_3d P g transform))
            | .polygon g => P.wkt_3d (.polygon (transform_polygon_3d P g transform))
            | .multipoint g => P.wkt_3d (.multipoint (transform_multipoint_3d P g transform))
            | .multilinestring g =>
              P.wkt_3d (.multilinestring (transform_multilinestring_3d P g transform))
            | .multipolygon g =>
              P.wkt_3d (.multipolygon (transform_multipolygon_3d P g transform))
          (some ⟨result_wkt, target_srid, geom.dimension⟩, st1)
      else
        match geom.as_variant B with
        | none => (none, st1)
        | some var =>
          let result_wkt : Str :=
            match var with
            | .point g => P.wkt (.point (transform_point_2d P g transform))
            | .linestring g => P.wkt (.linestring (transform_linestring P g transform))
            | .polygon g => P.wkt (.polygon (transform_polygon P g transform))
            | .multipoint g => P.wkt (.multipoint (transform_multipoint P g transform))
            | .multilinestring g =>
              P.wkt (.multilinestring (transform_multilinestring P g transform))
            | .multipolygon g => P.wkt (.multipolygon (transform_multipolygon P g transform))
          (some ⟨result_wkt, target_srid, geom.dimension⟩, st1)

/-- Function `sqlite3_value_int`: an integer value converted to `int`; `to_int` is the
conversion that SQLite applies to a value of another type. -/
def value_int (to_int : SqlValue → Int) (value : SqlValue) : Int :=
  match value with
  | .integer i => to_int32 (to_uint32 i)
  | v => to_int v

/-- Function `st_transform`, with the result and the state of the `ProjContext` after the
call; `have_proj` tells whether the file is compiled with `HAVE_PROJ` defined. -/
def st_transform (have_proj : Bool) (P : Proj) (B : Boost) (to_text : SqlValue → Str)
    (to_int : SqlValue → Int) (st : ProjContext) (argv : List SqlValue) :
    SqlResult × ProjContext :=
  if have_proj then
    match argv with
    | [a0, a1] =>
      if a0 = .null ∨ a1 = .null then (.null, st)
      else
        let ewkt := value_text to_text a0
        let target_srid := value_int to_int a1
        match from_ewkt ewkt with
        | none => (.error "Invalid geometry".toList, st)
        | some geom =>
          if geom.srid = -1 then
            (.error "Source geometry has undefined SRID (-1)".toList, st)
          else
            match transform_geometry P B st geom target_srid with
            | (none, st1) =>
              (.error "Transformation failed - invalid SRID or unsupported conversion".toList,
                st1)
            | (some transformed, st1) => (.text (c_str transformed.to_ewkt), st1)
    | _ => (.error "ST_Transform requires 2 arguments".toList, st)
  else (.error "ST_Transform not available - PROJ library not found".toList, st)

/-! ## The accessor `ST_AsEWKB` (`geometry_accessors.cpp`) -/

/-- Function `st_as_ewkb`. -/
def st_as_ewkb (R : WktReader) (argv : List SqlValue) : SqlResult :=
  match argv with
  | [a0] =>
    if a0 = .null then .null
    else
      match read_text_arg a0 with
      | none => .error "sqlitegis: ST_AsEWKB argument must be TEXT".toList
      | some geom_text =>
        match from_ewkt geom_text with
        | none => .error "sqlitegis: ST_AsEWKB invalid geometry format".toList
        | some geom =>
          let ewkb := geom.to_ewkb R
          if ewkb.isEmpty then .error "sqlitegis: ST_AsEWKB failed to generate EWKB".toList
          else .blob ewkb
  | _ => .error "sqlitegis: ST_AsEWKB expects exactly 1 argument".toList

/-! ## Definitions used to state the claims

These are not part of the source: they describe byte sequences and header words in
arithmetic terms, so that the theorems below can be read without the bit operations of
the code.
-/

/-- The `n` low-order bytes of `v`, least significant first. -/
def le_bytes : Nat → Nat → List Nat
  | 0, _ => []
  | n + 1, v => v % 256 :: le_bytes n (v / 256)

/-- The `n` low-order bytes of `v`, most significant first. -/
def be_bytes (n v : Nat) : List Nat := (le_bytes n v).reverse

/-- The `n` bytes of the value `v` in the byte order `order` (1 little-endian, otherwise
big-endian). -/
def field (order n v : Nat) : List Nat :=
  if order = LittleEndian then le_bytes n v else be_bytes n v

/-- The 32-bit word whose bytes are `b0 b1 b2 b3` in the byte order `order`. -/
def word32 (order b0 b1 b2 b3 : Nat) : Nat :=
  if order = 1 then b0 + 2 ^ 8 * b1 + 2 ^ 16 * b2 + 2 ^ 24 * b3
  else 2 ^ 24 * b0 + 2 ^ 16 * b1 + 2 ^ 8 * b2 + b3

/-- The 32-bit word held by the four bytes of a buffer from index `off` on, in the byte
order named by byte 0 of the buffer. -/
def header_word (ewkb : List Nat) (off : Nat) : Nat :=
  word32 (byte_at ewkb 0) (byte_at ewkb off) (byte_at ewkb (off + 1)) (byte_at ewkb (off + 2))
    (byte_at ewkb (off + 3))

/-- The EWKB of a point in the byte order `order`: the byte-order byte, the type word `t`,
the SRID word when there is one, and the ordinates as doubles. -/
def point_ewkb (order t : Nat) (srid : Option Nat) (ords : List Nat) : List Nat :=
  order :: (field order 4 t
    ++ (match srid with
        | some s => field order 4 s
        | none => [])
    ++ (ords.map (field order 8)).flatten)

/-- The length of the header of `point_ewkb`: byte order, type word and, when present, SRID. -/
def header_length (srid : Option Nat) : Nat :=
  match srid with
  | some _ => 9
  | none => 5

/-- The SRID that `from_ewkb` reads back from the SRID word of `point_ewkb`. -/
def srid_value (srid : Option Nat) : Int :=
  match srid with
  | some s => to_int32 (s % 2 ^ 32)
  | none => -1

/-- The WKB base type of a variant (0 for `Unknown`, which has none). -/
def base_type : GeometryType → Nat
  | .Point => 1
  | .LineString => 2
  | .Polygon => 3
  | .MultiPoint => 4
  | .MultiLineString => 5
  | .MultiPolygon => 6
  | .Unknown => 0

/-- The type word of a variant and a dimension: base type, SRID flag, Z and M flags. -/
def type_word (gt : GeometryType) (dim : DimensionType) : Nat :=
  base_type gt ||| 0x20000000
    ||| (if dim = .XYZ ∨ dim = .XYZM then 0x80000000 else 0)
    ||| (if dim = .XYM ∨ dim = .XYZM then 0x40000000 else 0)

/-- The ordinates that `to_ewkb` writes for a point: those that the WKT reader returns, and
0.0 in the place of M. -/
def point_ords (R : WktReader) (V : GeometryWrapper) : List Nat :=
  match V.dimension with
  | .XY =>
    match R.point_2d V.wkt with
    | some (x, y) => [x, y]
    | none => []
  | .XYM =>
    match R.point_2d V.wkt with
    | some (x, y) => [x, y, 0]
    | none => []
  | .XYZ =>
    match R.point_3d V.wkt with
    | some (x, y, z) => [x, y, z]
    | none => []
  | .XYZM =>
    match R.point_3d V.wkt with
    | some (x, y, z) => [x, y, z, 0]
    | none => []

/-- The number of ordinates that the Z and M flags of a type word declare. -/
def declared_coord_dimension (t : Nat) : Nat :=
  2 + (if t &&& 0x80000000 ≠ 0 then 1 else 0) + (if t &&& 0x40000000 ≠ 0 then 1 else 0)

/-- A text that consists of white space only. -/
abbrev blank (s : Str) : Prop := ∀ c ∈ s, isspace c = true

/-- The text `lead kw ws1 = ws2 ds ws3 ; w`: the parts of an EWKT with an SRID header. -/
def srid_text (lead kw ws1 ws2 ds ws3 w : Str) : Str :=
  lead ++ (kw ++ (ws1 ++ '=' :: (ws2 ++ (ds ++ (ws3 ++ ';' :: w)))))

/-- The parts of an SRID header: `lead`, `ws1`, `ws2`, `ws3` are white space, `kw` is the word
`SRID` in any letter case, `ds` is a non-empty string of decimal digits. -/
abbrev is_srid_header (lead kw ws1 ws2 ds ws3 : Str) : Prop :=
  blank lead ∧ kw.map tolower = "SRID".toList.map tolower ∧ blank ws1 ∧ blank ws2 ∧
    ds ≠ [] ∧ (∀ c ∈ ds, isdigit c = true) ∧ blank ws3

/-- A body on which the group `(.+)` of `ewkt_pattern` can match: trimmed, it is not empty
and holds no line terminator. -/
def is_body (w : Str) : Prop :=
  trim w ≠ [] ∧ ∀ c ∈ trim w, c ≠ '\n' ∧ c ≠ '\r'

/-- The text is an SRID header followed by a body. -/
def has_srid_header (s : Str) : Prop :=
  ∃ lead kw ws1 ws2 ds ws3 w, s = srid_text lead kw ws1 ws2 ds ws3 w ∧
    is_srid_header lead kw ws1 ws2 ds ws3 ∧ is_body w

/-- The text starts with an SRID header (followed by anything). -/
def has_srid_start (s : Str) : Prop :=
  ∃ lead kw ws1 ws2 ds ws3 w, s = srid_text lead kw ws1 ws2 ds ws3 w ∧
    is_srid_header lead kw ws1 ws2 ds ws3

/-- Whether a result is an error reported to the host. -/
def SqlResult.is_error : SqlResult → Bool
  | .error _ => true
  | _ => false

/-- The square with corners (0, 0) and (10, 10), its ring running counter-clockwise:
(0 0), (10 0), (10 10), (0 10), (0 0). The pattern of 10.0 is `0x4024000000000000`. -/
def square_ccw : polygon_t :=
  ⟨[(0, 0), (0x4024000000000000, 0), (0x4024000000000000, 0x4024000000000000),
    (0, 0x4024000000000000), (0, 0)], []⟩

/-- The same square, its ring running clockwise: (0 0), (0 10), (10 10), (10 0), (0 0). -/
def square_cw : polygon_t :=
  ⟨[(0, 0), (0, 0x4024000000000000), (0x4024000000000000, 0x4024000000000000),
    (0x4024000000000000, 0), (0, 0)], []⟩

/-- A fragment of Boost.Geometry, enough to evaluate the examples: the readers know the
texts `POINT(0 0)`, `POINT(3 4)`, `POINT(5 5)` and the two squares; the distance from
(0, 0) to (3, 4) is 5 (`0x4014000000000000`); the point (5, 5) is within either square;
the area is the algorithm above. Elsewhere the readers fail and the algorithms throw. -/
def boost_fragment : Boost where
  point_2d := fun s =>
    if s = "POINT(0 0)".toList then some (0, 0)
    else if s = "POINT(3 4)".toList then some (0x4008000000000000, 0x4010000000000000)
    else if s = "POINT(5 5)".toList then some (0x4014000000000000, 0x4014000000000000)
    else none
  point_3d := fun _ => none
  linestring := fun _ => none
  polygon := fun s =>
    if s = "POLYGON((0 0,10 0,10 10,0 10,0 0))".toList then some square_ccw
    else if s = "POLYGON((0 0,0 10,10 10,10 0,0 0))".toList then some square_cw
    else none
  multipoint := fun _ => none
  multilinestring := fun _ => none
  multipolygon := fun _ => none
  linestring_3d := fun _ => none
  polygon_3d := fun _ => none
  multipoint_3d := fun _ => none
  multilinestring_3d := fun _ => none
  multipolygon_3d := fun _ => none
  distance := fun g1 g2 =>
    if g1 = .point (0, 0) ∧ g2 = .point (0x4008000000000000, 0x4010000000000000) then
      .ok 0x4014000000000000
    else .error "outside the fragment".toList
  intersects := fun _ _ => .error "outside the fragment".toList
  within := fun g1 g2 =>
    if g1 = .point (0x4014000000000000, 0x4014000000000000)
        ∧ (g2 = .polygon square_ccw ∨ g2 = .polygon square_cw) then .ok true
    else .error "outside the fragment".toList
  area := fun p => .ok (polygon_area p)
  area_multi := fun m => .ok (multipolygon_area m)
  envelope := fun _ => ((0, 0), (0, 0))
  envelope_3d := fun _ => ((0, 0, 0), (0, 0, 0))
  union_ := fun _ _ => .error "outside the fragment".toList
  convex_hull := fun _ => .error "outside the fragment".toList
  wkt_polygon := fun _ => []
  wkt_multipolygon := fun _ => []
  put_double := fun _ => []

/-- The members of a collection, separated by a comma and a space. -/
def join_members (pieces : List Str) : Str :=
  ", ".toList.intercalate pieces

/-- The coordinate text of a member: what stands between its first `(` and its last `)`,
nothing when it has no such pair. -/
def coordinate_text (g : GeometryWrapper) : Str :=
  (inner_text g.to_wkt).getD []

/-- The coordinate text of a member in parentheses, as an element of a multi-geometry;
nothing when the member has no coordinate text. -/
def element_text (g : GeometryWrapper) : Str :=
  match inner_text g.to_wkt with
  | some t => "(".toList ++ t ++ ")".toList
  | none => []

/-- The reduction rule of ST_Collect as the specification words it: a MULTIPOINT when every
member is a Point, a MULTILINESTRING when every member is a LineString, a MULTIPOLYGON when
every member is a Polygon, otherwise a GEOMETRYCOLLECTION of the members' WKT; always in
input order. -/
def collect_reduction (gs : List GeometryWrapper) : Str :=
  if gs.all (fun g => g.geometry_type == .Point) then
    "MULTIPOINT(".toList ++ join_members (gs.map coordinate_text) ++ ")".toList
  else if gs.all (fun g => g.geometry_type == .LineString) then
    "MULTILINESTRING(".toList ++ join_members (gs.map element_text) ++ ")".toList
  else if gs.all (fun g => g.geometry_type == .Polygon) then
    "MULTIPOLYGON(".toList ++ join_members (gs.map element_text) ++ ")".toList
  else
    "GEOMETRYCOLLECTION(".toList ++ join_members (gs.map (fun g => g.to_wkt)) ++ ")".toList

/-- The text starts, in any letter case, with the keyword `kw` (written in capitals). -/
def starts_with_keyword (kw s : Str) : Prop :=
  ∃ rest, to_upper s = kw ++ rest

/-- The six keywords that `GeometryType` has a member for, each with its member. -/
def variant_keywords : List (Str × GeometryType) :=
  [("POINT".toList, .Point), ("LINESTRING".toList, .LineString),
   ("POLYGON".toList, .Polygon), ("MULTIPOINT".toList, .MultiPoint),
   ("MULTILINESTRING".toList, .MultiLineString), ("MULTIPOLYGON".toList, .MultiPolygon)]

/-- A sample of the insertion of a double into a stream: `0`, `-0`, `5`, `10`, `inf` and the
largest finite double as `1.79769e+308`; other values are not part of the sample. -/
def put_sample (d : Nat) : Str :=
  if d = 0 then "0".toList
  else if d = 0x8000000000000000 then "-0".toList
  else if d = 0x4014000000000000 then "5".toList
  else if d = 0x4024000000000000 then "10".toList
  else if d = 0x7FF0000000000000 then "inf".toList
  else if d = DBL_MAX then "1.79769e+308".toList
  else "?".toList

/-- Three unit squares side by side, disjoint: over [0,1], [2,3] and [4,5] on the x axis.
The patterns of 1.0 to 5.0 are `0x3FF0000000000000`, `0x4000000000000000`,
`0x4008000000000000`, `0x4010000000000000` and `0x4014000000000000`. -/
def unit_square (x0 x1 : Nat) : polygon_t :=
  ⟨[(x0, 0), (x0, 0x3FF0000000000000), (x1, 0x3FF0000000000000), (x1, 0), (x0, 0)], []⟩

/-- The square over [0,1]. -/
def square_a : polygon_t := unit_square 0 0x3FF0000000000000

/-- The square over [2,3]. -/
def square_b : polygon_t := unit_square 0x4000000000000000 0x4008000000000000

/-- The square over [4,5]. -/
def square_c : polygon_t := unit_square 0x4010000000000000 0x4014000000000000

/-- A second fragment of Boost.Geometry, for the examples on bounding boxes and aggregates.
The readers know `POINT(0 0)`, `POINT(-0 0)`, `POINT(5 5)`, `POINT(inf inf)`, the line
`MULTILINESTRING((0 0,10 10))` and the three unit squares; the envelope of a point is the
point itself; the union of two polygons is the two polygons (the squares are disjoint);
doubles are inserted as `put_sample` does. Elsewhere it is as `boost_fragment`. -/
def boost_second_fragment : Boost :=
  { boost_fragment with
    point_2d := fun s =>
      if s = "POINT(0 0)".toList then some (0, 0)
      else if s = "POINT(-0 0)".toList then some (0x8000000000000000, 0)
      else if s = "POINT(5 5)".toList then some (0x4014000000000000, 0x4014000000000000)
      else if s = "POINT(inf inf)".toList then some (0x7FF0000000000000, 0x7FF0000000000000)
      else none
    polygon := fun s =>
      if s = "POLYGON((0 0,0 1,1 1,1 0,0 0))".toList then some square_a
      else if s = "POLYGON((2 0,2 1,3 1,3 0,2 0))".toList then some square_b
      else if s = "POLYGON((4 0,4 1,5 1,5 0,4 0))".toList then some square_c
      else none
    multilinestring := fun s =>
      if s = "MULTILINESTRING((0 0,10 10))".toList then
        some [[(0, 0), (0x4024000000000000, 0x4024000000000000)]]
      else none
    envelope := fun v =>
      match v with
      | .point p => (p, p)
      | _ => ((0, 0), (0, 0))
    union_ := fun p q => .ok [p, q]
    put_double := put_sample }

/-- The aggregate `ST_Extent_Agg` evaluated over the rows of a group, one argument per row:
the step function on every row in order, then the final function. -/
def extent_aggregate (B : Boost) (to_text : SqlValue → Str) (put : Nat → Str)
    (rows : List SqlValue) : SqlResult :=
  st_extent_agg_final put (rows.foldl (fun c row => st_extent_agg_step B to_text c [row]) none)

/-- The exact value of a finite double. -/
def fp_value (a : Nat) : ℚ :=
  (if fp_sign a = 1 then -1 else 1) * ((fp_mantissa a * 2 ^ fp_scale a : Nat) : ℚ) / 2 ^ 1074

/-- Whether a double is finite: neither an infinity nor a NaN. -/
def fp_finite (a : Nat) : Bool := fp_exponent a != 2047

/-- Twice the signed area of a ring of points with exact coordinates, by the shoelace
formula: positive for a counter-clockwise ring. -/
def shoelace : List (ℚ × ℚ) → ℚ
  | p :: q :: rest => p.1 * q.2 - q.1 * p.2 + shoelace (q :: rest)
  | _ => 0

/-- The signed area of a ring: non-negative when the ring runs counter-clockwise. -/
def signed_area (ring : List (ℚ × ℚ)) : ℚ := shoelace ring / 2

/-- The ring of the rectangle with the corners (a, b) and (c, d), from (a, b) along the x
axis first: (a b), (c b), (c d), (a d), (a b). -/
def envelope_ring (a b c d : Nat) : List point_t :=
  [(a, b), (c, b), (c, d), (a, d), (a, b)]

/-- A tuple of a WKT text: the two coordinates separated by a space. -/
def tuple_text (put : Nat → Str) (p : point_t) : Str :=
  put p.1 ++ " ".toList ++ put p.2

/-- The WKT text of a polygon with the given rings: `POLYGON(`, the rings separated by
commas, each in parentheses with its tuples separated by commas, and `)`. -/
def polygon_text (put : Nat → Str) (rings : List (List point_t)) : Str :=
  "POLYGON(".toList
    ++ ",".toList.intercalate (rings.map (fun r =>
        "(".toList ++ ",".toList.intercalate (r.map (tuple_text put)) ++ ")".toList))
    ++ ")".toList

/-- The four bounds x_min, y_min, x_max, y_max that a row contributes to `ST_Extent_Agg`:
none for a NULL row, for a text that does not parse, and when one of the bounds is not
defined. -/
def row_bounds (B : Boost) (to_text : SqlValue → Str) (row : SqlValue) :
    Option (Nat × Nat × Nat × Nat) :=
  if row = .null then none
  else
    match from_ewkt (value_text to_text row) with
    | none => none
    | some geom =>
      match geom.x_min B, geom.x_max B, geom.y_min B, geom.y_max B with
      | some a, some c, some b, some d => some (a, b, c, d)
      | _, _, _, _ => none

/-- The fold of `std::min` and `std::max` over a list of bounds, from the largest finite
double and the lowest finite double. -/
def extent_of (ts : List (Nat × Nat × Nat × Nat)) : ExtentContext :=
  ⟨(ts.map (fun t => t.1)).foldl fp_min DBL_MAX,
   (ts.map (fun t => t.2.1)).foldl fp_min DBL_MAX,
   (ts.map (fun t => t.2.2.1)).foldl fp_max DBL_LOWEST,
   (ts.map (fun t => t.2.2.2)).foldl fp_max DBL_LOWEST,
   !ts.isEmpty⟩

/-- Two doubles are numbers and compare equal (`==`); the two zeros compare equal. -/
def same_number (a b : Nat) : Prop :=
  fp_is_nan a = false ∧ fp_is_nan b = false ∧ fp_key a = fp_key b

/-- The position of `std::min(a, x)` when `a` has the position `k`: a NaN `x` is passed
over. -/
def key_min (k : Int) (x : Nat) : Int :=
  if fp_is_nan x then k else min k (fp_key x)

/-- The position of `std::max(a, x)` when `a` has the position `k`: a NaN `x` is passed
over. -/
def key_max (k : Int) (x : Nat) : Int :=
  if fp_is_nan x then k else max k (fp_key x)

/-- The context of `ST_Extent_Agg` after the step function has run on every row of a group
in order, `none` when it never ran. -/
def extent_context (B : Boost) (to_text : SqlValue → Str) (rows : List SqlValue) :
    Option ExtentContext :=
  rows.foldl (fun c row => st_extent_agg_step B to_text c [row]) none

/-- The bounds of the rows that contribute to `ST_Extent_Agg`, in the order of the rows. -/
def contributions (B : Boost) (to_text : SqlValue → Str) (rows : List SqlValue) :
    List (Nat × Nat × Nat × Nat) :=
  rows.filterMap (row_bounds B to_text)

/-! # Theorems -/

/-! ## Auxiliary lemmas: bytes and words -/

theorem or_shl (x y n : Nat) (h : x < 2 ^ n) : x ||| (y <<< n) = x + 2 ^ n * y := by
  rw [Nat.shiftLeft_eq, Nat.lor_comm, Nat.mul_comm y, ← Nat.mul_add_lt_is_or h]
  omega

theorem and_ff (v : Nat) : v &&& 0xFF = v % 256 := by
  have := Nat.and_pow_two_sub_one_eq_mod v 8
  simpa using this

theorem le_or4 (a b c d : Nat) (ha : a < 256) (hb : b < 256) (hc : c < 256) :
    a ||| (b <<< 8) ||| (c <<< 16) ||| (d <<< 24) = a + 2 ^ 8 * b + 2 ^ 16 * c + 2 ^ 24 * d := by
  rw [or_shl a b 8 (by omega), or_shl _ c 16 (by omega), or_shl _ d 24 (by omega)]

theorem be_or4 (a b c d : Nat) (hb : b < 256) (hc : c < 256) (hd : d < 256) :
    (a <<< 24) ||| (b <<< 16) ||| (c <<< 8) ||| d = 2 ^ 24 * a + 2 ^ 16 * b + 2 ^ 8 * c + d := by
  have h := le_or4 d c b a hd hc hb
  rw [Nat.lor_comm ((a <<< 24) ||| (b <<< 16) ||| (c <<< 8)) d,
    Nat.lor_comm ((a <<< 24) ||| (b <<< 16)), Nat.lor_comm (a <<< 24), ← Nat.lor_assoc,
    ← Nat.lor_assoc, h]
  omega

theorem byte_at_lt (data : List Nat) (hb : ∀ b ∈ data, b < 256) (i : Nat) :
    byte_at data i < 256 := by
  unfold byte_at
  rw [List.getD_eq_getElem?_getD]
  cases h : data[i]? with
  | none => simp
  | some b => simpa using hb b (List.getElem?_mem h)

theorem read_uint32_eq (data : List Nat) (hb : ∀ b ∈ data, b < 256) (off order : Nat) :
    read_uint32 data off order
      = word32 order (byte_at data off) (byte_at data (off + 1)) (byte_at data (off + 2))
          (byte_at data (off + 3)) := by
  have h0 := byte_at_lt data hb off
  have h1 := byte_at_lt data hb (off + 1)
  have h2 := byte_at_lt data hb (off + 2)
  have h3 := byte_at_lt data hb (off + 3)
  unfold read_uint32 word32 LittleEndian
  split
  · rw [le_or4 _ _ _ _ h0 h1 h2]; omega
  · rw [be_or4 _ _ _ _ h1 h2 h3]; omega

theorem read_uint32_lt (data : List Nat) (off order : Nat) :
    read_uint32 data off order < 2 ^ 32 := by
  unfold read_uint32
  split <;> exact Nat.mod_lt _ (by norm_num)

theorem and_mask32 (t : Nat) (ht : t < 2 ^ 32) : t &&& 0xFFFFFFFF = t := by
  have := Nat.and_pow_two_sub_one_eq_mod t 32
  rw [Nat.mod_eq_of_lt ht] at this
  simpa using this

/-- Clearing a flag that is not set changes nothing. -/
theorem and_not32_of_clear (t f : Nat) (ht : t < 2 ^ 32)
    (hff : f ||| not32 f = 0xFFFFFFFF) (h : t &&& f = 0) : t &&& not32 f = t := by
  have h1 : t &&& (f ||| not32 f) = t := by rw [hff]; exact and_mask32 t ht
  rw [Nat.and_or_distrib_left, h, Nat.zero_or] at h1
  exact h1

/-! ### The parts of `from_ewkb` -/

theorem ewkb_flags_fields (order type : Nat) (srid : Int) (offset : Nat) :
    (ewkb_flags order type srid offset).order = order ∧
    (ewkb_flags order type srid offset).srid = srid ∧
    (ewkb_flags order type srid offset).offset = offset := by
  unfold ewkb_flags
  simp only
  split_ifs <;> simp

theorem ewkb_flags_dim (order type : Nat) (srid : Int) (offset : Nat) :
    (ewkb_flags order type srid offset).dim =
      if type &&& WKB_Z_FLAG ≠ 0 then (if type &&& WKB_M_FLAG ≠ 0 then .XYZM else .XYZ)
      else (if type &&& WKB_M_FLAG ≠ 0 then .XYM else .XY) := by
  unfold ewkb_flags
  by_cases hz : type &&& WKB_Z_FLAG = 0 <;> by_cases hm : type &&& WKB_M_FLAG = 0 <;>
    simp [hz, hm]

theorem ewkb_flags_type (order type : Nat) (srid : Int) (offset : Nat) (ht : type < 2 ^ 32) :
    (ewkb_flags order type srid offset).type = type &&& 0x3FFFFFFF := by
  have hzc : type &&& WKB_Z_FLAG = 0 → type &&& not32 WKB_Z_FLAG = type :=
    and_not32_of_clear type WKB_Z_FLAG ht (by decide)
  have hmc : type &&& WKB_M_FLAG = 0 → type &&& not32 WKB_M_FLAG = type :=
    and_not32_of_clear type WKB_M_FLAG ht (by decide)
  have e1 : (0x3FFFFFFF : Nat) = not32 WKB_Z_FLAG &&& not32 WKB_M_FLAG := by decide
  have e2 : not32 (WKB_Z_FLAG ||| WKB_M_FLAG) = not32 WKB_Z_FLAG &&& not32 WKB_M_FLAG := by
    decide
  rw [e1, ← Nat.and_assoc]
  unfold ewkb_flags
  by_cases hz : type &&& WKB_Z_FLAG = 0 <;> by_cases hm : type &&& WKB_M_FLAG = 0 <;>
    simp only [hz, hm, ne_eq, not_true_eq_false, not_false_eq_true, decide_True, decide_False,
      Bool.and_self, Bool.and_true, Bool.and_false, Bool.false_eq_true, if_true, if_false, e2]
  · rw [hzc hz, hmc hm]
  · rw [hzc hz]
  · rw [Nat.and_assoc, Nat.and_comm (not32 WKB_Z_FLAG), ← Nat.and_assoc, hmc hm]
  · rw [Nat.and_assoc]

theorem ewkb_header_some (ewkb : List Nat) (h : EwkbHeader) (rd : List Nat)
    (hh : ewkb_header ewkb = (some h, rd)) :
    (byte_at ewkb 0 = 0 ∨ byte_at ewkb 0 = 1) ∧ 5 ≤ ewkb.length ∧
    ((read_uint32 ewkb 1 (byte_at ewkb 0) &&& SRID_FLAG ≠ 0 ∧ 9 ≤ ewkb.length ∧
        h = ewkb_flags (byte_at ewkb 0) (read_uint32 ewkb 1 (byte_at ewkb 0) &&& not32 SRID_FLAG)
              (to_int32 (read_uint32 ewkb 5 (byte_at ewkb 0))) 9 ∧
        rd = 0 :: index_range 1 4 ++ index_range 5 4) ∨
     (read_uint32 ewkb 1 (byte_at ewkb 0) &&& SRID_FLAG = 0 ∧
        h = ewkb_flags (byte_at ewkb 0) (read_uint32 ewkb 1 (byte_at ewkb 0)) (-1) 5 ∧
        rd = 0 :: index_range 1 4)) := by
  unfold ewkb_header at hh
  simp only [BigEndian, LittleEndian] at hh
  split_ifs at hh with h1 h2 h3 h4 h5 <;>
    simp only [Prod.mk.injEq, Option.some.injEq, false_and, reduceCtorEq] at hh
  · exact ⟨by omega, by omega, Or.inl ⟨h4, by omega, hh.1.symm, hh.2.symm⟩⟩
  · exact ⟨by omega, by omega, Or.inr ⟨by simpa using h4, hh.1.symm, hh.2.symm⟩⟩

theorem ewkb_header_reads (ewkb : List Nat) (hlen : 5 ≤ ewkb.length) :
    ∀ i ∈ (ewkb_header ewkb).2, i < ewkb.length := by
  unfold ewkb_header
  simp only [BigEndian, LittleEndian]
  split_ifs with h1 h2 h3 h4 h5 <;>
    simp [index_range, List.range_succ] <;> omega

theorem index_range_lt (off n len : Nat) (h : off + n ≤ len) :
    ∀ i ∈ index_range off n, i < len := by
  intro i hi
  simp only [index_range, List.mem_map, List.mem_range] at hi
  obtain ⟨j, hj, rfl⟩ := hi
  omega

theorem ewkb_point_some (ewkb : List Nat) (h : EwkbHeader) :
    (ewkb.length < h.offset + 8 * (GeometryWrapper.coord_dimension ⟨[], 0, h.dim⟩) →
      (ewkb_point ewkb h).1 = none) ∧
    (∀ V, (ewkb_point ewkb h).1 = some V → V.srid = h.srid ∧ V.dimension = h.dim) ∧
    (∀ i ∈ (ewkb_point ewkb h).2, i < ewkb.length) := by
  obtain ⟨order, type, srid, dim, offset⟩ := h
  cases dim <;>
    simp only [ewkb_point, GeometryWrapper.coord_dimension, reduceCtorEq, or_false, false_or,
      or_true, true_or, if_true, if_false] <;>
    split_ifs with hl
  all_goals refine ⟨?_, ?_, ?_⟩
  all_goals first
    | (intro hlt; first | rfl | omega)
    | (intro V hV; cases hV <;> exact ⟨rfl, rfl⟩)
    | (intro i hi; first
        | exact absurd hi (List.not_mem_nil i)
        | exact index_range_lt _ _ _ (by omega) i hi)

theorem from_ewkb_some_inv (ewkb : List Nat) (V : GeometryWrapper)
    (h : from_ewkb ewkb = some V) :
    ∃ hd rd, ewkb_header ewkb = (some hd, rd) ∧ hd.type = WKBType_Point ∧
      (ewkb_point ewkb hd).1 = some V := by
  unfold from_ewkb from_ewkb_run at h
  by_cases h1 : ewkb.length < 5
  · rw [if_pos h1] at h; cases h
  · rw [if_neg h1] at h
    rcases hh : ewkb_header ewkb with ⟨_ | hd, rd⟩
    · rw [hh] at h; cases h
    · rw [hh] at h
      by_cases h2 : hd.type = WKBType_Point
      · exact ⟨hd, rd, rfl, h2, by simpa [h2] using h⟩
      · simp [h2] at h

theorem and_not_srid_z (t : Nat) : (t &&& not32 SRID_FLAG) &&& WKB_Z_FLAG = t &&& WKB_Z_FLAG := by
  rw [Nat.and_assoc]; rfl

theorem and_not_srid_m (t : Nat) : (t &&& not32 SRID_FLAG) &&& WKB_M_FLAG = t &&& WKB_M_FLAG := by
  rw [Nat.and_assoc]; rfl

/-- The SRID and the dimension of a decoded value, in terms of the type word and the SRID
word as `read_uint32` reads them. -/
theorem from_ewkb_fields (ewkb : List Nat) (V : GeometryWrapper)
    (h : from_ewkb ewkb = some V) :
    (byte_at ewkb 0 = 0 ∨ byte_at ewkb 0 = 1) ∧
    V.srid = (if read_uint32 ewkb 1 (byte_at ewkb 0) &&& SRID_FLAG ≠ 0
      then to_int32 (read_uint32 ewkb 5 (byte_at ewkb 0)) else -1) ∧
    V.dimension =
      (if read_uint32 ewkb 1 (byte_at ewkb 0) &&& WKB_Z_FLAG ≠ 0 then
        (if read_uint32 ewkb 1 (byte_at ewkb 0) &&& WKB_M_FLAG ≠ 0 then .XYZM else .XYZ)
       else (if read_uint32 ewkb 1 (byte_at ewkb 0) &&& WKB_M_FLAG ≠ 0 then .XYM else .XY)) := by
  obtain ⟨hd, rd, hh, _, hp⟩ := from_ewkb_some_inv ewkb V h
  obtain ⟨ho, _, hc⟩ := ewkb_header_some ewkb hd rd hh
  obtain ⟨hs, hdim⟩ := (ewkb_point_some ewkb hd).2.1 V hp
  refine ⟨ho, ?_⟩
  rcases hc with ⟨hf, _, rfl, _⟩ | ⟨hf, rfl, _⟩
  · rw [hs, hdim, (ewkb_flags_fields _ _ _ _).2.1, ewkb_flags_dim, and_not_srid_z,
      and_not_srid_m, if_pos hf]
    exact ⟨rfl, rfl⟩
  · rw [hs, hdim, (ewkb_flags_fields _ _ _ _).2.1, ewkb_flags_dim, if_neg (by simpa using hf)]
    exact ⟨rfl, rfl⟩

/-! ### Reading back a field written in either byte order -/

theorem le_bytes_length (n v : Nat) : (le_bytes n v).length = n := by
  induction n generalizing v with
  | zero => rfl
  | succ n ih => simp [le_bytes, ih]

theorem field_length (order n v : Nat) : (field order n v).length = n := by
  unfold field be_bytes
  split <;> simp [le_bytes_length]

theorem byte_at_append (pre l : List Nat) (i : Nat) :
    byte_at (pre ++ l) (pre.length + i) = byte_at l i := by
  unfold byte_at
  rw [List.getD_eq_getElem?_getD, List.getD_eq_getElem?_getD,
    List.getElem?_append_right (by omega)]
  simp

theorem read_uint32_append (pre l : List Nat) (i order : Nat) :
    read_uint32 (pre ++ l) (pre.length + i) order = read_uint32 l i order := by
  unfold read_uint32
  simp only [Nat.add_assoc, byte_at_append]

theorem read_double_append (pre l : List Nat) (i order : Nat) :
    read_double (pre ++ l) (pre.length + i) order = read_double l i order := by
  unfold read_double
  simp only [Nat.add_assoc, byte_at_append]

theorem le_or8 (a b c d e f g h : Nat) (ha : a < 256) (hb : b < 256) (hc : c < 256)
    (hd : d < 256) (he : e < 256) (hf : f < 256) (hg : g < 256) :
    a ||| (b <<< 8) ||| (c <<< 16) ||| (d <<< 24) ||| (e <<< 32) ||| (f <<< 40) ||| (g <<< 48)
        ||| (h <<< 56)
      = a + 2 ^ 8 * b + 2 ^ 16 * c + 2 ^ 24 * d + 2 ^ 32 * e + 2 ^ 40 * f + 2 ^ 48 * g
          + 2 ^ 56 * h := by
  rw [or_shl a b 8 (by omega), or_shl _ c 16 (by omega), or_shl _ d 24 (by omega),
    or_shl _ e 32 (by omega), or_shl _ f 40 (by omega), or_shl _ g 48 (by omega),
    or_shl _ h 56 (by omega)]

theorem or_rev8 (x1 x2 x3 x4 x5 x6 x7 x8 : Nat) :
    x1 ||| x2 ||| x3 ||| x4 ||| x5 ||| x6 ||| x7 ||| x8
      = x8 ||| x7 ||| x6 ||| x5 ||| x4 ||| x3 ||| x2 ||| x1 := by
  ac_rfl

theorem be_or8 (a b c d e f g h : Nat) (hb : b < 256) (hc : c < 256)
    (hd : d < 256) (he : e < 256) (hf : f < 256) (hg : g < 256) (hh : h < 256) :
    (a <<< 56) ||| (b <<< 48) ||| (c <<< 40) ||| (d <<< 32) ||| (e <<< 24) ||| (f <<< 16)
        ||| (g <<< 8) ||| h
      = 2 ^ 56 * a + 2 ^ 48 * b + 2 ^ 40 * c + 2 ^ 32 * d + 2 ^ 24 * e + 2 ^ 16 * f + 2 ^ 8 * g
          + h := by
  have key := le_or8 h g f e d c b a hh hg hf he hd hc hb
  rw [or_rev8, key]
  omega

theorem read_uint32_field (order v : Nat) (rest : List Nat) (ho : order = 0 ∨ order = 1) :
    read_uint32 (field order 4 v ++ rest) 0 order = v % 2 ^ 32 := by
  rcases ho with rfl | rfl
  · simp only [read_uint32, field, be_bytes, le_bytes, LittleEndian, byte_at, zero_ne_one,
      if_false]
    simp only [List.reverse_cons, List.reverse_nil, List.nil_append, List.cons_append,
      List.getD_cons_zero, List.getD_cons_succ, zero_add]
    rw [be_or4 _ _ _ _ (by omega) (by omega) (by omega)]
    omega
  · simp only [read_uint32, field, le_bytes, LittleEndian, byte_at, if_true]
    simp only [List.cons_append, List.getD_cons_zero, List.getD_cons_succ, zero_add, if_true]
    rw [le_or4 _ _ _ _ (by omega) (by omega) (by omega)]
    omega

theorem read_double_field (order v : Nat) (rest : List Nat) (ho : order = 0 ∨ order = 1) :
    read_double (field order 8 v ++ rest) 0 order = v % 2 ^ 64 := by
  rcases ho with rfl | rfl
  · simp only [read_double, field, be_bytes, le_bytes, LittleEndian, byte_at, zero_ne_one,
      if_false]
    simp only [List.reverse_cons, List.reverse_nil, List.nil_append, List.cons_append,
      List.getD_cons_zero, List.getD_cons_succ, zero_add]
    rw [be_or8 _ _ _ _ _ _ _ _ (by omega) (by omega) (by omega) (by omega) (by omega) (by omega)
      (by omega)]
    omega
  · simp only [read_double, field, le_bytes, LittleEndian, byte_at, if_true]
    simp only [List.cons_append, List.getD_cons_zero, List.getD_cons_succ, zero_add, if_true]
    rw [le_or8 _ _ _ _ _ _ _ _ (by omega) (by omega) (by omega) (by omega) (by omega) (by omega)
      (by omega)]
    omega

theorem read_double_flatten (order : Nat) (ho : order = 0 ∨ order = 1) (ords : List Nat)
    (j : Nat) (hj : j < ords.length) :
    read_double (ords.map (field order 8)).flatten (8 * j) order = ords.getD j 0 % 2 ^ 64 := by
  induction ords generalizing j with
  | nil => simp at hj
  | cons x xs ih =>
    simp only [List.map_cons, List.flatten_cons]
    cases j with
    | zero => simpa using read_double_field order x _ ho
    | succ j =>
      have h8 : 8 * (j + 1) = (field order 8 x).length + 8 * j := by
        rw [field_length]; omega
      rw [h8, read_double_append, ih j (by simpa using hj)]
      simp

theorem point_ewkb_split (order t : Nat) (srid : Option Nat) (ords : List Nat) :
    ∃ pre, pre.length = header_length srid ∧
      point_ewkb order t srid ords = pre ++ (ords.map (field order 8)).flatten := by
  cases srid with
  | none =>
    exact ⟨order :: field order 4 t, by simp [field_length, header_length],
      by simp [point_ewkb]⟩
  | some s =>
    exact ⟨order :: (field order 4 t ++ field order 4 s),
      by simp [field_length, header_length], by simp [point_ewkb]⟩

theorem flatten_fields_length (order : Nat) (ords : List Nat) :
    (ords.map (field order 8)).flatten.length = 8 * ords.length := by
  induction ords with
  | nil => rfl
  | cons x xs ih => simp [field_length, ih]; omega

theorem point_ewkb_length (order t : Nat) (srid : Option Nat) (ords : List Nat) :
    (point_ewkb order t srid ords).length = header_length srid + 8 * ords.length := by
  obtain ⟨pre, hp, he⟩ := point_ewkb_split order t srid ords
  rw [he, List.length_append, hp, flatten_fields_length]

theorem point_ewkb_double (order t : Nat) (ho : order = 0 ∨ order = 1) (srid : Option Nat)
    (ords : List Nat) (j : Nat) (hj : j < ords.length) :
    read_double (point_ewkb order t srid ords) (header_length srid + 8 * j) order
      = ords.getD j 0 % 2 ^ 64 := by
  obtain ⟨pre, hp, he⟩ := point_ewkb_split order t srid ords
  rw [he, ← hp, read_double_append, read_double_flatten order ho ords j hj]

theorem point_ewkb_type (order t : Nat) (ho : order = 0 ∨ order = 1) (srid : Option Nat)
    (ords : List Nat) :
    read_uint32 (point_ewkb order t srid ords) 1 order = t % 2 ^ 32 := by
  have h := read_uint32_append [order]
    (field order 4 t ++ ((match srid with
        | some s => field order 4 s
        | none => []) ++ (ords.map (field order 8)).flatten)) 0 order
  simp only [List.length_singleton, List.singleton_append] at h
  unfold point_ewkb
  rw [List.append_assoc, h, read_uint32_field order t _ ho]

theorem point_ewkb_srid (order t s : Nat) (ho : order = 0 ∨ order = 1) (ords : List Nat) :
    read_uint32 (point_ewkb order t (some s) ords) 5 order = s % 2 ^ 32 := by
  have h := read_uint32_append (order :: field order 4 t)
    (field order 4 s ++ (ords.map (field order 8)).flatten) 0 order
  simp only [List.length_cons, field_length] at h
  unfold point_ewkb
  simp only [List.append_assoc]
  rw [← List.cons_append, h, read_uint32_field order s _ ho]

theorem point_ewkb_doubles (order t : Nat) (ho : order = 0 ∨ order = 1) (srid : Option Nat)
    (ords : List Nat) :
    (0 < ords.length → read_double (point_ewkb order t srid ords) (header_length srid) order
      = ords.getD 0 0 % 2 ^ 64) ∧
    (1 < ords.length → read_double (point_ewkb order t srid ords) (header_length srid + 8) order
      = ords.getD 1 0 % 2 ^ 64) ∧
    (2 < ords.length → read_double (point_ewkb order t srid ords) (header_length srid + 16) order
      = ords.getD 2 0 % 2 ^ 64) ∧
    (3 < ords.length → read_double (point_ewkb order t srid ords) (header_length srid + 24) order
      = ords.getD 3 0 % 2 ^ 64) := by
  refine ⟨fun h => ?_, fun h => ?_, fun h => ?_, fun h => ?_⟩
  · simpa using point_ewkb_double order t ho srid ords 0 h
  · simpa using point_ewkb_double order t ho srid ords 1 h
  · simpa using point_ewkb_double order t ho srid ords 2 h
  · simpa using point_ewkb_double order t ho srid ords 3 h

theorem ewkb_flags_order (order type : Nat) (srid : Int) (offset : Nat) :
    ewkb_flags order type srid offset
      = ⟨order, (ewkb_flags 0 type srid offset).type, srid, (ewkb_flags 0 type srid offset).dim,
          offset⟩ := by
  unfold ewkb_flags
  simp only
  split_ifs <;> rfl

theorem ewkb_header_point (order t : Nat) (ho : order = 0 ∨ order = 1) (ht : t < 2 ^ 32)
    (srid : Option Nat) (ords : List Nat)
    (hflag : srid.isSome = true ↔ t &&& SRID_FLAG ≠ 0) :
    (ewkb_header (point_ewkb order t srid ords)).1 =
      some (ewkb_flags order (if srid.isSome then t &&& not32 SRID_FLAG else t)
        (srid_value srid) (header_length srid)) := by
  have hlen := point_ewkb_length order t srid ords
  have hty := point_ewkb_type order t ho srid ords
  rw [Nat.mod_eq_of_lt ht] at hty
  have hb0 : byte_at (point_ewkb order t srid ords) 0 = order := rfl
  unfold ewkb_header
  simp only [hb0, hty, BigEndian, LittleEndian]
  cases srid with
  | none =>
    have hf : t &&& SRID_FLAG = 0 := by
      by_contra hne
      exact absurd (hflag.mpr hne) (by simp)
    simp only [header_length] at hlen
    rw [if_neg (by omega), if_neg (by omega), if_neg (by omega), if_neg (by simp [hf])]
    simp [header_length, srid_value]
  | some s =>
    have hf : t &&& SRID_FLAG ≠ 0 := hflag.mp rfl
    have hs := point_ewkb_srid order t s ho ords
    simp only [header_length] at hlen
    rw [if_neg (by omega), if_neg (by omega), if_neg (by omega), if_pos hf, if_neg (by omega),
      hs]
    simp [header_length, srid_value]

theorem ewkb_point_agree (t : Nat) (srid : Option Nat) (ords : List Nat) (ty : Nat)
    (sv : Int) (dim : DimensionType) :
    (ewkb_point (point_ewkb 0 t srid ords) ⟨0, ty, sv, dim, header_length srid⟩).1
      = (ewkb_point (point_ewkb 1 t srid ords) ⟨1, ty, sv, dim, header_length srid⟩).1 := by
  have hl0 := point_ewkb_length 0 t srid ords
  have hl1 := point_ewkb_length 1 t srid ords
  obtain ⟨a0, a1, a2, a3⟩ := point_ewkb_doubles 0 t (Or.inl rfl) srid ords
  obtain ⟨b0, b1, b2, b3⟩ := point_ewkb_doubles 1 t (Or.inr rfl) srid ords
  cases dim <;>
    simp only [ewkb_point, hl0, hl1, reduceCtorEq, or_false, false_or, or_true, true_or,
      if_true, if_false] <;>
    split_ifs with hlt <;>
    first
    | (rw [a0 (by omega), a1 (by omega), a2 (by omega), a3 (by omega), b0 (by omega),
        b1 (by omega), b2 (by omega), b3 (by omega)])
    | (rw [a0 (by omega), a1 (by omega), a2 (by omega), b0 (by omega), b1 (by omega),
        b2 (by omega)])
    | (rw [a0 (by omega), a1 (by omega), b0 (by omega), b1 (by omega)])
    | rfl

theorem from_ewkb_point_ewkb (order t : Nat) (ho : order = 0 ∨ order = 1) (ht : t < 2 ^ 32)
    (srid : Option Nat) (ords : List Nat)
    (hflag : srid.isSome = true ↔ t &&& SRID_FLAG ≠ 0) :
    from_ewkb (point_ewkb order t srid ords) =
      if (ewkb_flags order (if srid.isSome then t &&& not32 SRID_FLAG else t)
            (srid_value srid) (header_length srid)).type = WKBType_Point then
        (ewkb_point (point_ewkb order t srid ords)
          (ewkb_flags order (if srid.isSome then t &&& not32 SRID_FLAG else t)
            (srid_value srid) (header_length srid))).1
      else none := by
  have hh := ewkb_header_point order t ho ht srid ords hflag
  have hlen := point_ewkb_length order t srid ords
  have h5 : ¬ (point_ewkb order t srid ords).length < 5 := by
    rw [hlen]
    cases srid <;> simp [header_length]
    omega
  unfold from_ewkb from_ewkb_run
  rw [if_neg h5]
  rcases he : ewkb_header (point_ewkb order t srid ords) with ⟨o, rd⟩
  rw [he] at hh
  simp only at hh
  subst hh
  simp only
  split_ifs <;> rfl

theorem from_ewkb_byte_order (t : Nat) (ht : t < 2 ^ 32) (srid : Option Nat) (ords : List Nat)
    (hflag : srid.isSome = true ↔ t &&& SRID_FLAG ≠ 0) :
    from_ewkb (point_ewkb 0 t srid ords) = from_ewkb (point_ewkb 1 t srid ords) := by
  rw [from_ewkb_point_ewkb 0 t (Or.inl rfl) ht srid ords hflag,
    from_ewkb_point_ewkb 1 t (Or.inr rfl) ht srid ords hflag,
    ewkb_flags_order 1, ewkb_flags_order 0]
  simp only
  rw [ewkb_point_agree]

/-! ### What a successful `from_ewkb` has checked -/

theorem base_type_of_flags (t : Nat) (ht : t < 2 ^ 32) (order : Nat) (srid : Int)
    (offset : Nat) :
    (ewkb_flags order (t &&& not32 SRID_FLAG) srid offset).type = t &&& 0x1FFFFFFF := by
  have hlt : t &&& not32 SRID_FLAG < 2 ^ 32 := lt_of_le_of_lt Nat.and_le_left ht
  rw [ewkb_flags_type _ _ _ _ hlt, Nat.and_assoc]
  rfl

theorem from_ewkb_checked (ewkb : List Nat) (V : GeometryWrapper)
    (h : from_ewkb ewkb = some V) :
    5 ≤ ewkb.length ∧ (byte_at ewkb 0 = 0 ∨ byte_at ewkb 0 = 1) ∧
    read_uint32 ewkb 1 (byte_at ewkb 0) &&& 0x1FFFFFFF = 1 ∧
    (read_uint32 ewkb 1 (byte_at ewkb 0) &&& SRID_FLAG ≠ 0 → 9 ≤ ewkb.length) ∧
    (if read_uint32 ewkb 1 (byte_at ewkb 0) &&& SRID_FLAG ≠ 0 then 9 else 5)
      + 8 * V.coord_dimension ≤ ewkb.length := by
  obtain ⟨hd, rd, hh, hty, hp⟩ := from_ewkb_some_inv ewkb V h
  obtain ⟨ho, h5, hc⟩ := ewkb_header_some ewkb hd rd hh
  obtain ⟨hlen, hfield, _⟩ := ewkb_point_some ewkb hd
  obtain ⟨_, hdim⟩ := hfield V hp
  have hlen' : hd.offset + 8 * V.coord_dimension ≤ ewkb.length := by
    by_contra hlt
    have hn := hlen (by
      have e : GeometryWrapper.coord_dimension ⟨[], 0, hd.dim⟩ = V.coord_dimension := by
        simp [GeometryWrapper.coord_dimension, hdim]
      rw [e]; omega)
    rw [hp] at hn
    cases hn
  have ht := read_uint32_lt ewkb 1 (byte_at ewkb 0)
  refine ⟨h5, ho, ?_, ?_, ?_⟩
  · rcases hc with ⟨_, _, rfl, _⟩ | ⟨hf, rfl, _⟩
    · rw [base_type_of_flags _ ht] at hty
      exact hty
    · have e := and_not32_of_clear _ SRID_FLAG ht (by decide) hf
      rw [← e, base_type_of_flags _ ht] at hty
      exact hty
  · rcases hc with ⟨_, h9, _, _⟩ | ⟨hf, _, _⟩
    · exact fun _ => h9
    · exact fun hne => absurd hf hne
  · rcases hc with ⟨hf, _, rfl, _⟩ | ⟨hf, rfl, _⟩
    · rw [if_pos hf]
      rw [(ewkb_flags_fields _ _ _ _).2.2] at hlen'
      exact hlen'
    · rw [if_neg (by simpa using hf)]
      rw [(ewkb_flags_fields _ _ _ _).2.2] at hlen'
      exact hlen'

theorem from_ewkb_run_reads (ewkb : List Nat) :
    ∀ i ∈ (from_ewkb_run ewkb).2, i < ewkb.length := by
  unfold from_ewkb_run
  by_cases h5 : ewkb.length < 5
  · rw [if_pos h5]; intro i hi; exact absurd hi (List.not_mem_nil i)
  · rw [if_neg h5]
    have hr := ewkb_header_reads ewkb (by omega)
    rcases hh : ewkb_header ewkb with ⟨_ | hd, rd⟩
    · rw [hh] at hr; exact hr
    · rw [hh] at hr
      simp only
      split_ifs
      · intro i hi
        rcases List.mem_append.mp hi with h1 | h2
        · exact hr i h1
        · exact (ewkb_point_some ewkb hd).2.2 i h2
      · exact hr

/-! ### `to_ewkb` followed by `from_ewkb` -/

theorem write_uint32_le (buffer : List Nat) (v : Nat) :
    write_uint32 buffer v LittleEndian = buffer ++ le_bytes 4 v := by
  simp only [write_uint32, if_true, and_ff, Nat.shiftRight_eq_div_pow, le_bytes]
  congr 1
  simp only [List.cons.injEq, and_true, true_and]
  refine ⟨?_, ?_⟩ <;> omega

theorem write_double_le (buffer : List Nat) (v : Nat) :
    write_double buffer v LittleEndian = buffer ++ le_bytes 8 v := by
  simp only [write_double, if_true, and_ff, Nat.shiftRight_eq_div_pow, le_bytes]
  congr 1
  simp only [List.cons.injEq, and_true, true_and]
  refine ⟨?_, ?_, ?_, ?_, ?_, ?_⟩ <;> omega

theorem field_one (n v : Nat) : field 1 n v = le_bytes n v := by
  simp [field, LittleEndian]

theorem to_ewkb_eq (R : WktReader) (V : GeometryWrapper) (h : V.geometry_type ≠ .Unknown) :
    V.to_ewkb R = point_ewkb 1 (type_word V.geometry_type V.dimension)
      (some (to_uint32 V.srid)) (if V.geometry_type = .Point then point_ords R V else []) := by
  obtain ⟨wkt, srid, dim⟩ := V
  rcases h2 : R.point_2d wkt with _ | ⟨x, y⟩ <;>
  rcases h3 : R.point_3d wkt with _ | ⟨x3, y3, z3⟩ <;>
  cases hgt : GeometryWrapper.geometry_type ⟨wkt, srid, dim⟩ <;>
    first
    | exact absurd hgt h
    | (cases dim <;>
        simp only [GeometryWrapper.to_ewkb, hgt, h2, h3, write_uint32_le, write_double_le,
          point_ewkb, point_ords, field, if_true] <;>
        simp [LittleEndian, base_type, type_word, field_one,
          WKBType_Point, WKBType_LineString, WKBType_Polygon, WKBType_MultiPoint,
          WKBType_MultiLineString, WKBType_MultiPolygon, SRID_FLAG, WKB_Z_FLAG, WKB_M_FLAG])

theorem type_word_facts (gt : GeometryType) (dim : DimensionType) :
    type_word gt dim < 2 ^ 32 ∧ type_word gt dim &&& SRID_FLAG ≠ 0 ∧
    type_word gt dim &&& 0x1FFFFFFF = base_type gt ∧
    (if (type_word gt dim &&& not32 SRID_FLAG) &&& WKB_Z_FLAG ≠ 0 then
        (if (type_word gt dim &&& not32 SRID_FLAG) &&& WKB_M_FLAG ≠ 0
          then DimensionType.XYZM else .XYZ)
      else (if (type_word gt dim &&& not32 SRID_FLAG) &&& WKB_M_FLAG ≠ 0 then .XYM else .XY))
      = dim := by
  cases gt <;> cases dim <;> decide

theorem to_int32_to_uint32 (i : Int) (h1 : -2147483648 ≤ i) (h2 : i ≤ 2147483647) :
    to_int32 (to_uint32 i % 2 ^ 32) = i := by
  unfold to_int32 to_uint32
  have hnn : (0 : Int) ≤ i % 2 ^ 32 := Int.emod_nonneg _ (by norm_num)
  have hlt : i % 2 ^ 32 < 2 ^ 32 := Int.emod_lt_of_pos _ (by norm_num)
  have hcast : ((i % 2 ^ 32).toNat : Int) = i % 2 ^ 32 := Int.toNat_of_nonneg hnn
  have hm : (i % 2 ^ 32).toNat % 2 ^ 32 % 2 ^ 32 = (i % 2 ^ 32).toNat := by
    have : (i % 2 ^ 32).toNat < 2 ^ 32 := by omega
    omega
  rw [hm]
  split_ifs with hc <;> omega

theorem ewkb_flags_type_word (order : Nat) (gt : GeometryType) (dim : DimensionType)
    (srid : Int) (offset : Nat) :
    ewkb_flags order (type_word gt dim &&& not32 SRID_FLAG) srid offset
      = ⟨order, base_type gt, srid, dim, offset⟩ := by
  obtain ⟨_, _, hb, hd⟩ := type_word_facts gt dim
  have ht : (ewkb_flags order (type_word gt dim &&& not32 SRID_FLAG) srid offset).type
      = base_type gt := by
    rw [base_type_of_flags _ (type_word_facts gt dim).1, hb]
  have hdim := ewkb_flags_dim order (type_word gt dim &&& not32 SRID_FLAG) srid offset
  rw [hd] at hdim
  obtain ⟨h1, h2, h3⟩ := ewkb_flags_fields order (type_word gt dim &&& not32 SRID_FLAG) srid
    offset
  generalize ewkb_flags order (type_word gt dim &&& not32 SRID_FLAG) srid offset = hdr at *
  obtain ⟨o, t, s, d, off⟩ := hdr
  simp only at ht hdim h1 h2 h3
  subst ht hdim h1 h2 h3
  rfl

theorem geometry_type_point_text (rest : Str) (srid : Int) (dim : DimensionType) :
    GeometryWrapper.geometry_type ⟨'P' :: 'O' :: 'I' :: 'N' :: 'T' :: rest, srid, dim⟩
      = .Point := by
  simp [GeometryWrapper.geometry_type, to_upper, find_at_zero, toupper]

theorem from_ewkb_to_ewkb (R : WktReader) (V : GeometryWrapper)
    (h1 : -2147483648 ≤ V.srid) (h2 : V.srid ≤ 2147483647) :
    (V.geometry_type ≠ .Point → from_ewkb (V.to_ewkb R) = none) ∧
    (V.geometry_type = .Point →
      (V.is_3d = true → (R.point_3d V.wkt).isSome = true) →
      (V.is_3d = false → (R.point_2d V.wkt).isSome = true) →
      ∃ V2, from_ewkb (V.to_ewkb R) = some V2 ∧ V2.srid = V.srid ∧
        V2.dimension = V.dimension ∧ V2.geometry_type = .Point) := by
  by_cases hu : V.geometry_type = .Unknown
  · refine ⟨fun _ => ?_, fun hp => absurd (hp.symm.trans hu) (by decide)⟩
    simp [GeometryWrapper.to_ewkb, hu, from_ewkb, from_ewkb_run]
  · obtain ⟨hlt, hflag, _, _⟩ := type_word_facts V.geometry_type V.dimension
    have key := from_ewkb_point_ewkb 1 (type_word V.geometry_type V.dimension) (Or.inr rfl) hlt
      (some (to_uint32 V.srid)) (if V.geometry_type = .Point then point_ords R V else [])
      (by simpa using hflag)
    rw [← to_ewkb_eq R V hu] at key
    simp only [Option.isSome_some, if_true, ewkb_flags_type_word, srid_value,
      to_int32_to_uint32 V.srid h1 h2, header_length] at key
    rw [key]
    refine ⟨fun hne => ?_, fun hp h3 h2d => ?_⟩
    · rw [if_neg]
      revert hne hu
      cases V.geometry_type <;> simp [base_type, WKBType_Point]
    · have hlen := point_ewkb_length 1 (type_word V.geometry_type V.dimension)
        (some (to_uint32 V.srid)) (if V.geometry_type = .Point then point_ords R V else [])
      rw [← to_ewkb_eq R V hu] at hlen
      rw [if_pos (by rw [hp]; rfl)]
      simp only [hp, if_true, header_length] at hlen
      obtain ⟨wkt, srid, dim⟩ := V
      cases dim
      · obtain ⟨⟨x, y⟩, hr⟩ := Option.isSome_iff_exists.mp (h2d rfl)
        simp only [point_ords, hr, List.length_cons, List.length_nil] at hlen
        simp only [ewkb_point, hlen, reduceCtorEq, or_false, if_false]
        rw [if_neg (by omega)]
        exact ⟨_, rfl, rfl, rfl, geometry_type_point_text _ _ _⟩
      · obtain ⟨⟨x, y, z⟩, hr⟩ := Option.isSome_iff_exists.mp (h3 rfl)
        simp only [point_ords, hr, List.length_cons, List.length_nil] at hlen
        simp only [ewkb_point, hlen, true_or, if_true]
        rw [if_neg (by omega)]
        exact ⟨_, rfl, rfl, rfl, geometry_type_point_text _ _ _⟩
      · obtain ⟨⟨x, y⟩, hr⟩ := Option.isSome_iff_exists.mp (h2d rfl)
        simp only [point_ords, hr, List.length_cons, List.length_nil] at hlen
        simp only [ewkb_point, hlen, or_true, if_true]
        rw [if_neg (by omega)]
        exact ⟨_, rfl, rfl, rfl, geometry_type_point_text _ _ _⟩
      · obtain ⟨⟨x, y, z⟩, hr⟩ := Option.isSome_iff_exists.mp (h3 rfl)
        simp only [point_ords, hr, List.length_cons, List.length_nil] at hlen
        simp only [ewkb_point, hlen, reduceCtorEq, or_false, if_false, if_true]
        rw [if_neg (by omega)]
        exact ⟨_, rfl, rfl, rfl, geometry_type_point_text _ _ _⟩

theorem stoi_range (s : Str) (v : Int) (h : stoi s = some v) :
    -2147483648 ≤ v ∧ v ≤ 2147483647 := by
  unfold stoi at h
  simp only at h
  split_ifs at h with h1 h2 h3 h4 <;> (cases h; assumption)

theorem from_ewkt_srid_range (s : Str) (V : GeometryWrapper) (h : from_ewkt s = some V) :
    -2147483648 ≤ V.srid ∧ V.srid ≤ 2147483647 := by
  unfold from_ewkt at h
  split_ifs at h with h0
  simp only at h
  split at h
  · split at h
    · cases h
    · rename_i srid hs
      split_ifs at h
      cases h
      exact stoi_range _ _ hs
  · cases h
    exact ⟨by norm_num, by norm_num⟩

/-! ## Auxiliary lemmas: characters -/

theorem char_toNat_inj (c d : Char) : c = d ↔ c.toNat = d.toNat := by
  constructor
  · intro h; rw [h]
  · intro h
    have := congrArg Char.ofNat h
    simpa using this

theorem char_toNat_ofNat (n : Nat) (h : n < 55296) : (Char.ofNat n).toNat = n := by
  unfold Char.ofNat
  have hv : n.isValidChar := Or.inl h
  rw [dif_pos hv]
  simp [Char.ofNatAux, Char.toNat, UInt32.toNat]

theorem isspace_iff (c : Char) : isspace c = true ↔ c.toNat = 32 ∨ (9 ≤ c.toNat ∧ c.toNat ≤ 13) := by
  simp [isspace]

theorem isdigit_iff (c : Char) : isdigit c = true ↔ 48 ≤ c.toNat ∧ c.toNat ≤ 57 := by
  simp [isdigit]

theorem not_isspace_of_isdigit (c : Char) (h : isdigit c = true) : isspace c = false := by
  rw [isdigit_iff] at h
  rw [Bool.eq_false_iff]
  intro hs
  rw [isspace_iff] at hs
  omega

theorem not_isdigit_of_isspace (c : Char) (h : isspace c = true) : isdigit c = false := by
  rw [isspace_iff] at h
  rw [Bool.eq_false_iff]
  intro hs
  rw [isdigit_iff] at hs
  omega

theorem tolower_toNat (c : Char) :
    (tolower c).toNat = if 65 ≤ c.toNat ∧ c.toNat ≤ 90 then c.toNat + 32 else c.toNat := by
  unfold tolower
  by_cases h : 65 ≤ c.toNat ∧ c.toNat ≤ 90
  · rw [if_pos h, if_pos (by simpa using h), char_toNat_ofNat _ (by omega)]
  · rw [if_neg h, if_neg (by simpa using h)]

/-- A character that equals a letter up to case is neither white space nor a digit. -/
theorem not_isspace_of_tolower (c p : Char) (hp : 97 ≤ (tolower p).toNat)
    (h : tolower c = tolower p) : isspace c = false ∧ isdigit c = false := by
  have h1 := congrArg Char.toNat h
  rw [tolower_toNat c] at h1
  refine ⟨?_, ?_⟩
  · rw [Bool.eq_false_iff]
    intro hs
    rw [isspace_iff] at hs
    split_ifs at h1 <;> omega
  · rw [Bool.eq_false_iff]
    intro hs
    rw [isdigit_iff] at hs
    split_ifs at h1 <;> omega

/-! ## Auxiliary lemmas: the matcher -/

/-- Greedy repetition: when the run `ws` of class characters is followed by a character
outside the class (or by nothing) and the continuation succeeds there, that is the result. -/
theorem star_match_greedy (p : Char → Bool) (ws rest : Str) (pos : Nat) (m : Caps)
    (k : Nat → Str → Caps → Option Caps) (r : Caps)
    (hws : ∀ c ∈ ws, p c = true) (hrest : ∀ c ∈ rest.head?, p c = false)
    (hk : k (pos + ws.length) rest m = some r) :
    star_match p (ws ++ rest) pos m k = some r := by
  induction ws generalizing pos with
  | nil =>
    simp only [List.nil_append, List.length_nil, Nat.add_zero] at hk ⊢
    cases rest with
    | nil => simpa [star_match] using hk
    | cons c cs =>
      have hc : p c = false := hrest c (by simp)
      simp [star_match, hc, hk]
  | cons c cs ih =>
    have hc : p c = true := hws c (by simp)
    have ih' := ih (pos + 1) (fun d hd => hws d (by simp [hd]))
      (by simpa [Nat.add_assoc, Nat.add_comm 1] using hk)
    simp [star_match, hc, ih']

/-- Any successful repetition consumed a run of class characters. -/
theorem star_match_inv (p : Char → Bool) (s : Str) (pos : Nat) (m : Caps)
    (k : Nat → Str → Caps → Option Caps) (r : Caps)
    (h : star_match p s pos m k = some r) :
    ∃ ws rest, s = ws ++ rest ∧ (∀ c ∈ ws, p c = true) ∧
      k (pos + ws.length) rest m = some r := by
  induction s generalizing pos with
  | nil => exact ⟨[], [], rfl, by simp, by simpa [star_match] using h⟩
  | cons c cs ih =>
    unfold star_match at h
    by_cases hc : p c = true
    · rw [if_pos hc] at h
      cases hrec : star_match p cs (pos + 1) m k with
      | some r2 =>
        rw [hrec] at h
        simp only [Option.some.injEq] at h
        subst h
        obtain ⟨ws, rest, hs, hws, hk⟩ := ih (pos + 1) hrec
        refine ⟨c :: ws, rest, by simp [hs], ?_, ?_⟩
        · intro d hd
          rcases List.mem_cons.mp hd with rfl | hd
          · exact hc
          · exact hws d hd
        · simpa [Nat.add_assoc, Nat.add_comm 1] using hk
      | none =>
        rw [hrec] at h
        exact ⟨[], c :: cs, rfl, by simp, by simpa using h⟩
    · rw [if_neg hc] at h
      exact ⟨[], c :: cs, rfl, by simp, by simpa using h⟩

theorem run_seq_seq (icase : Bool) (a x b : Regex) (pos : Nat) (s : Str) (m : Caps)
    (k : Nat → Str → Caps → Option Caps) :
    (Regex.seq (.seq a x) b).run icase pos s m k = (Regex.seq a (.seq x b)).run icase pos s m k :=
  rfl

theorem run_seq_eps (icase : Bool) (b : Regex) (pos : Nat) (s : Str) (m : Caps)
    (k : Nat → Str → Caps → Option Caps) :
    (Regex.seq .eps b).run icase pos s m k = b.run icase pos s m k :=
  rfl

theorem run_eps (icase : Bool) (pos : Nat) (s : Str) (m : Caps)
    (k : Nat → Str → Caps → Option Caps) :
    Regex.eps.run icase pos s m k = k pos s m :=
  rfl

theorem run_seq_bol (icase : Bool) (b : Regex) (s : Str) (m : Caps)
    (k : Nat → Str → Caps → Option Caps) :
    (Regex.seq .bol b).run icase 0 s m k = b.run icase 0 s m k := by
  simp [Regex.run]

theorem run_seq_eol (icase : Bool) (b : Regex) (pos : Nat) (m : Caps)
    (k : Nat → Str → Caps → Option Caps) :
    (Regex.seq .eol b).run icase pos [] m k = b.run icase pos [] m k := by
  simp [Regex.run]

theorem run_seq_chr (icase : Bool) (p d : Char) (b : Regex) (pos : Nat) (rest : Str) (m : Caps)
    (k : Nat → Str → Caps → Option Caps) (h : chr_eq icase p d = true) :
    (Regex.seq (.chr p) b).run icase pos (d :: rest) m k = b.run icase (pos + 1) rest m k := by
  simp [Regex.run, h]

theorem run_seq_star (icase : Bool) (c : CharClass) (b : Regex) (ws rest : Str) (pos : Nat)
    (m : Caps) (k : Nat → Str → Caps → Option Caps) (r : Caps)
    (hws : ∀ d ∈ ws, c.test d = true) (hrest : ∀ d ∈ rest.head?, c.test d = false)
    (h : b.run icase (pos + ws.length) rest m k = some r) :
    (Regex.seq (.star c) b).run icase pos (ws ++ rest) m k = some r := by
  simp only [Regex.run]
  exact star_match_greedy c.test ws rest pos m _ r hws hrest h

theorem run_seq_group_plus (icase : Bool) (i : Nat) (c : CharClass) (b : Regex) (ws rest : Str)
    (pos : Nat) (m : Caps) (k : Nat → Str → Caps → Option Caps) (r : Caps)
    (hne : ws ≠ []) (hws : ∀ d ∈ ws, c.test d = true)
    (hrest : ∀ d ∈ rest.head?, c.test d = false)
    (h : b.run icase (pos + ws.length) rest ((i, ws) :: m) k = some r) :
    (Regex.seq (.group i (.plus c)) b).run icase pos (ws ++ rest) m k = some r := by
  cases ws with
  | nil => exact absurd rfl hne
  | cons d ds =>
    have hd : c.test d = true := hws d (by simp)
    simp only [Regex.run, List.cons_append, hd, if_true]
    refine star_match_greedy c.test ds rest (pos + 1) m _ r
      (fun e he => hws e (by simp [he])) hrest ?_
    have e2 : pos + 1 + ds.length = pos + (d :: ds).length := by simp; omega
    have e1 : pos + (d :: ds).length - pos = (d :: ds).length := by omega
    have e3 : List.take (d :: ds).length (d :: (ds ++ rest)) = d :: ds :=
      List.take_left (d :: ds) rest
    simp only [e2, e1, e3]
    exact h

theorem run_seq_star_nil (icase : Bool) (c : CharClass) (b : Regex) (rest : Str) (pos : Nat)
    (m : Caps) (k : Nat → Str → Caps → Option Caps) (r : Caps)
    (hrest : ∀ d ∈ rest.head?, c.test d = false)
    (h : b.run icase pos rest m k = some r) :
    (Regex.seq (.star c) b).run icase pos rest m k = some r :=
  run_seq_star icase c b [] rest pos m k r (by simp) hrest h

theorem chr_eq_of_tolower (p c : Char) (l : Char) (hp : tolower p = l) (hc : tolower c = l) :
    chr_eq true p c = true := by
  simp [chr_eq, hp, hc]

/-- The pattern `ewkt_pattern` on a text made of the keyword, `=`, digits, `;` and a body
without line terminator: the match succeeds, group 1 is the digits and group 2 the body. -/
theorem ewkt_pattern_match (kw ws1 ws2 ds ws3 ws4 body : Str)
    (hkw : kw.map tolower = "SRID".toList.map tolower)
    (h1 : ∀ c ∈ ws1, isspace c = true) (h2 : ∀ c ∈ ws2, isspace c = true)
    (hds : ds ≠ []) (hdd : ∀ c ∈ ds, isdigit c = true)
    (h3 : ∀ c ∈ ws3, isspace c = true) (h4 : ∀ c ∈ ws4, isspace c = true)
    (hb : body ≠ []) (hbh : ∀ c ∈ body.head?, isspace c = false)
    (hba : ∀ c ∈ body, CharClass.any.test c = true) :
    regex_match true ewkt_pattern
        (kw ++ (ws1 ++ '=' :: (ws2 ++ (ds ++ (ws3 ++ ';' :: (ws4 ++ body))))))
      = some [(2, body), (1, ds)] := by
  have hw : "SRID".toList.map tolower = ['s', 'r', 'i', 'd'] := by decide
  rw [hw] at hkw
  rcases kw with _ | ⟨c1, _ | ⟨c2, _ | ⟨c3, _ | ⟨c4, _ | ⟨c5, t⟩⟩⟩⟩⟩ <;>
    simp only [List.map_cons, List.map_nil, List.cons.injEq, and_true, reduceCtorEq,
      and_false] at hkw
  obtain ⟨e1, e2, e3, e4⟩ := hkw
  have hs1 := (not_isspace_of_tolower c1 's' (by decide) (by rw [e1]; decide)).1
  have q1 : ∀ d ∈ ('=' :: (ws2 ++ (ds ++ (ws3 ++ ';' :: (ws4 ++ body))))).head?,
      CharClass.space.test d = false := by
    intro d hd; simp at hd; subst hd; decide
  have q2 : ∀ d ∈ (ds ++ (ws3 ++ ';' :: (ws4 ++ body))).head?,
      CharClass.space.test d = false := by
    intro d hd
    cases ds with
    | nil => exact absurd rfl hds
    | cons x xs =>
      simp at hd; subst hd
      exact not_isspace_of_isdigit _ (hdd _ (by simp))
  have q3 : ∀ d ∈ (ws3 ++ ';' :: (ws4 ++ body)).head?, CharClass.digit.test d = false := by
    intro d hd
    cases ws3 with
    | nil => simp at hd; subst hd; decide
    | cons x xs =>
      simp at hd; subst hd
      exact not_isdigit_of_isspace _ (h3 _ (by simp))
  have q4 : ∀ d ∈ (';' :: (ws4 ++ body)).head?, CharClass.space.test d = false := by
    intro d hd; simp at hd; subst hd; decide
  have q6 : ∀ d ∈ ([] : Str).head?, CharClass.any.test d = false := by simp
  unfold regex_match ewkt_pattern
  have hword : "SRID".toList = ['S', 'R', 'I', 'D'] := rfl
  simp only [Regex.cat, List.foldr, Regex.word, hword]
  rw [run_seq_bol]
  refine run_seq_star_nil _ _ _ _ _ _ _ _ (by intro d hd; simp at hd; subst hd; exact hs1) ?_
  rw [run_seq_seq, List.cons_append, run_seq_chr _ _ _ _ _ _ _ _
      (chr_eq_of_tolower 'S' c1 's' (by decide) e1),
    run_seq_seq, List.cons_append, run_seq_chr _ _ _ _ _ _ _ _
      (chr_eq_of_tolower 'R' c2 'r' (by decide) e2),
    run_seq_seq, List.cons_append, run_seq_chr _ _ _ _ _ _ _ _
      (chr_eq_of_tolower 'I' c3 'i' (by decide) e3),
    run_seq_seq, List.cons_append, run_seq_chr _ _ _ _ _ _ _ _
      (chr_eq_of_tolower 'D' c4 'd' (by decide) e4),
    run_seq_eps, List.nil_append]
  refine run_seq_star _ _ _ ws1 _ _ _ _ _ h1 q1 ?_
  rw [run_seq_chr _ _ _ _ _ _ _ _ (by decide)]
  refine run_seq_star _ _ _ ws2 _ _ _ _ _ h2 q2 ?_
  refine run_seq_group_plus _ _ _ _ ds _ _ _ _ _ hds hdd q3 ?_
  refine run_seq_star _ _ _ ws3 _ _ _ _ _ h3 q4 ?_
  rw [run_seq_chr _ _ _ _ _ _ _ _ (by decide)]
  refine run_seq_star _ _ _ ws4 _ _ _ _ _ h4 hbh ?_
  have hbody : body = body ++ [] := by simp
  rw [hbody]
  refine run_seq_group_plus _ _ _ _ body _ _ _ _ _ hb hba q6 ?_
  rw [run_seq_eol, run_eps]
  simp

/-! ## Auxiliary lemmas: `trim` -/

theorem dropWhile_of_head (p : Char → Bool) (x : Str) (h : ∀ c ∈ x.head?, p c = false) :
    x.dropWhile p = x := by
  cases x with
  | nil => rfl
  | cons c cs =>
    have hc : p c = false := h c (by simp)
    simp [List.dropWhile_cons, hc]

/-- The text between white space on both sides is what `trim` returns. -/
theorem trim_eq_of (l t r : Str) (hl : ∀ c ∈ l, isspace c = true)
    (hr : ∀ c ∈ r, isspace c = true) (hh : ∀ c ∈ t.head?, isspace c = false)
    (ht : ∀ c ∈ t.getLast?, isspace c = false) :
    trim (l ++ (t ++ r)) = t := by
  unfold trim
  rw [List.dropWhile_append_of_pos hl]
  cases t with
  | nil =>
    simp only [List.nil_append]
    have : r.dropWhile isspace = [] := List.dropWhile_eq_nil_iff.mpr (by simpa using hr)
    rw [this]
    rfl
  | cons c cs =>
    rw [dropWhile_of_head isspace ((c :: cs) ++ r) (by simpa using hh), List.reverse_append,
      List.dropWhile_append_of_pos (by simpa using hr),
      dropWhile_of_head isspace (c :: cs).reverse (by rw [List.head?_reverse]; exact ht),
      List.reverse_reverse]

/-- Every text is white space, then its trimmed part, then white space; the trimmed part
neither starts nor ends with white space. -/
theorem trim_decomp (s : Str) :
    ∃ l r, s = l ++ (trim s ++ r) ∧ (∀ c ∈ l, isspace c = true) ∧
      (∀ c ∈ r, isspace c = true) ∧ (∀ c ∈ (trim s).head?, isspace c = false) ∧
      (∀ c ∈ (trim s).getLast?, isspace c = false) := by
  have h1 := List.takeWhile_append_dropWhile isspace s
  have h2 := List.takeWhile_append_dropWhile isspace (s.dropWhile isspace).reverse
  have hlast : ∀ c ∈ (trim s).getLast?, isspace c = false := by
    intro c hc
    unfold trim at hc
    rw [List.getLast?_reverse] at hc
    have := List.head?_dropWhile_not isspace (s.dropWhile isspace).reverse
    rw [Option.mem_def.mp hc] at this
    exact this
  refine ⟨s.takeWhile isspace, ((s.dropWhile isspace).reverse.takeWhile isspace).reverse,
    ?_, fun c hc => List.mem_takeWhile_imp hc,
    fun c hc => List.mem_takeWhile_imp (List.mem_reverse.mp hc), ?_, hlast⟩
  · have h3 : trim s ++ ((s.dropWhile isspace).reverse.takeWhile isspace).reverse
        = s.dropWhile isspace := by
      unfold trim
      rw [← List.reverse_append, h2, List.reverse_reverse]
    rw [h3, h1]
  · intro c hc
    have h3 : trim s ++ ((s.dropWhile isspace).reverse.takeWhile isspace).reverse
        = s.dropWhile isspace := by
      unfold trim
      rw [← List.reverse_append, h2, List.reverse_reverse]
    have hne : trim s ≠ [] := by
      intro he; rw [he] at hc; simp at hc
    have hd := List.head?_dropWhile_not isspace s
    rw [← h3, List.head?_append_of_ne_nil _ hne, Option.mem_def.mp hc] at hd
    exact hd

theorem trim_trim (s : Str) : trim (trim s) = trim s := by
  obtain ⟨_, _, _, _, _, hh, ht⟩ := trim_decomp s
  have := trim_eq_of [] (trim s) [] (by simp) (by simp) hh ht
  simpa using this

/-! ## Auxiliary lemmas: `stoi` and `from_ewkt` -/

theorem takeWhile_of_all (p : Char → Bool) (l : Str) (h : ∀ c ∈ l, p c = true) :
    l.takeWhile p = l := by
  induction l with
  | nil => rfl
  | cons c cs ih =>
    have hc : p c = true := h c (by simp)
    simp [List.takeWhile_cons, hc, ih (fun d hd => h d (by simp [hd]))]

theorem stoi_digits (ds : Str) (hds : ds ≠ []) (hdd : ∀ c ∈ ds, isdigit c = true) :
    stoi ds = if decimal_value ds ≤ 2147483647 then some (decimal_value ds : Int) else none := by
  cases ds with
  | nil => exact absurd rfl hds
  | cons x xs =>
    have hx : isdigit x = true := hdd x (by simp)
    have hsp : isspace x = false := not_isspace_of_isdigit x hx
    have hm : x ≠ '-' := by rintro rfl; exact absurd hx (by decide)
    have hp : x ≠ '+' := by rintro rfl; exact absurd hx (by decide)
    have hdrop : (x :: xs).dropWhile isspace = x :: xs := by
      simp [List.dropWhile_cons, hsp]
    unfold stoi
    simp only [hdrop]
    have hmatch : (match x :: xs with
        | '-' :: r => (true, r)
        | '+' :: r => (false, r)
        | _ => (false, x :: xs)) = (false, x :: xs) := by
      split
      · rename_i heq; simp only [List.cons.injEq] at heq; exact absurd heq.1 hm
      · rename_i heq; simp only [List.cons.injEq] at heq; exact absurd heq.1 hp
      · rfl
    rw [hmatch]
    simp only [takeWhile_of_all isdigit (x :: xs) hdd, List.isEmpty_cons, Bool.false_eq_true,
      if_false]
    have hnn : (0 : Int) ≤ (decimal_value (x :: xs) : Int) := Int.ofNat_nonneg _
    split_ifs with h1 h2 h2 <;> first | rfl | omega

theorem any_test_iff (c : Char) : CharClass.any.test c = true ↔ c ≠ '\n' ∧ c ≠ '\r' := by
  have e1 : ('\n' : Char).toNat = 10 := by decide
  have e2 : ('\r' : Char).toNat = 13 := by decide
  simp only [CharClass.test, ne_eq, char_toNat_inj, e1, e2]
  simp

theorem kw_shape (kw : Str) (hkw : kw.map tolower = "SRID".toList.map tolower) :
    kw ≠ [] ∧ ∀ c ∈ kw.head?, isspace c = false := by
  have hw : "SRID".toList.map tolower = ['s', 'r', 'i', 'd'] := by decide
  rw [hw] at hkw
  cases kw with
  | nil => simp at hkw
  | cons c cs =>
    simp only [List.map_cons, List.cons.injEq] at hkw
    refine ⟨by simp, ?_⟩
    intro d hd
    simp at hd; subst hd
    exact (not_isspace_of_tolower c 's' (by decide) (by rw [hkw.1]; decide)).1

/-- The result of `from_ewkt` on a text with an SRID header and a body. -/
theorem from_ewkt_of_header (lead kw ws1 ws2 ds ws3 w : Str)
    (hh : is_srid_header lead kw ws1 ws2 ds ws3) (hw : is_body w) :
    from_ewkt (srid_text lead kw ws1 ws2 ds ws3 w) =
      if decimal_value ds ≤ 2147483647 then
        some ⟨trim w, (decimal_value ds : Int), detect_dimension (trim w)⟩
      else none := by
  obtain ⟨hlead, hkw, h1, h2, hds, hdd, h3⟩ := hh
  obtain ⟨hne, hnl⟩ := hw
  obtain ⟨hkne, hkh⟩ := kw_shape kw hkw
  obtain ⟨wl, wr, hwd, hwl, hwr, hth, htl⟩ := trim_decomp w
  have hs : srid_text lead kw ws1 ws2 ds ws3 w
      = lead ++ ((kw ++ (ws1 ++ '=' :: (ws2 ++ (ds ++ (ws3 ++ ';' :: (wl ++ trim w)))))) ++ wr) := by
    unfold srid_text
    conv_lhs => rw [hwd]
    simp only [List.append_assoc, List.cons_append]
  have hT : kw ++ (ws1 ++ '=' :: (ws2 ++ (ds ++ (ws3 ++ ';' :: (wl ++ trim w)))))
      = (kw ++ (ws1 ++ '=' :: (ws2 ++ (ds ++ (ws3 ++ ';' :: wl))))) ++ trim w := by
    simp only [List.append_assoc, List.cons_append]
  have htrim : trim (srid_text lead kw ws1 ws2 ds ws3 w)
      = kw ++ (ws1 ++ '=' :: (ws2 ++ (ds ++ (ws3 ++ ';' :: (wl ++ trim w))))) := by
    rw [hs]
    refine trim_eq_of lead _ wr hlead hwr ?_ ?_
    · rw [List.head?_append_of_ne_nil _ hkne]; exact hkh
    · rw [hT, List.getLast?_append_of_ne_nil _ hne]; exact htl
  have hmatch := ewkt_pattern_match kw ws1 ws2 ds ws3 wl (trim w) hkw h1 h2 hds hdd h3 hwl hne
    hth (fun c hc => (any_test_iff c).mpr (hnl c hc))
  have hnonempty : (srid_text lead kw ws1 ws2 ds ws3 w).isEmpty = false := by
    cases kw with
    | nil => exact absurd rfl hkne
    | cons c cs => cases lead <;> rfl
  unfold from_ewkt
  have g1 : Caps.get [(2, trim w), (1, ds)] 1 = ds := by simp [Caps.get, List.find?]
  have g2 : Caps.get [(2, trim w), (1, ds)] 2 = trim w := by simp [Caps.get, List.find?]
  have hemp : (trim w).isEmpty = false := by
    cases h : trim w with
    | nil => exact absurd h hne
    | cons _ _ => rfl
  simp only [hnonempty, htrim, hmatch, Bool.false_eq_true, if_false, g1, g2,
    stoi_digits ds hds hdd, trim_trim, hemp]
  split_ifs <;> rfl

/-! ## Auxiliary lemmas: what a match of `ewkt_pattern` implies -/

theorem inv_seq_bol (icase : Bool) (b : Regex) (pos : Nat) (s : Str) (m : Caps)
    (k : Nat → Str → Caps → Option Caps) (r : Caps)
    (h : (Regex.seq .bol b).run icase pos s m k = some r) :
    pos = 0 ∧ b.run icase pos s m k = some r := by
  simp only [Regex.run] at h
  split_ifs at h with hp
  exact ⟨hp, h⟩

theorem inv_seq_eol (icase : Bool) (b : Regex) (pos : Nat) (s : Str) (m : Caps)
    (k : Nat → Str → Caps → Option Caps) (r : Caps)
    (h : (Regex.seq .eol b).run icase pos s m k = some r) :
    s = [] ∧ b.run icase pos s m k = some r := by
  simp only [Regex.run] at h
  split_ifs at h with hp
  exact ⟨List.isEmpty_iff.mp hp, h⟩

theorem inv_seq_chr (icase : Bool) (p : Char) (b : Regex) (pos : Nat) (s : Str) (m : Caps)
    (k : Nat → Str → Caps → Option Caps) (r : Caps)
    (h : (Regex.seq (.chr p) b).run icase pos s m k = some r) :
    ∃ d rest, s = d :: rest ∧ chr_eq icase p d = true ∧
      b.run icase (pos + 1) rest m k = some r := by
  cases s with
  | nil => simp [Regex.run] at h
  | cons d rest =>
    simp only [Regex.run] at h
    split_ifs at h with hp
    exact ⟨d, rest, rfl, hp, h⟩

theorem inv_seq_star (icase : Bool) (c : CharClass) (b : Regex) (pos : Nat) (s : Str)
    (m : Caps) (k : Nat → Str → Caps → Option Caps) (r : Caps)
    (h : (Regex.seq (.star c) b).run icase pos s m k = some r) :
    ∃ ws rest, s = ws ++ rest ∧ (∀ d ∈ ws, c.test d = true) ∧
      b.run icase (pos + ws.length) rest m k = some r := by
  simp only [Regex.run] at h
  exact star_match_inv c.test s pos m _ r h

theorem inv_seq_group_plus (icase : Bool) (i : Nat) (c : CharClass) (b : Regex) (pos : Nat)
    (s : Str) (m : Caps) (k : Nat → Str → Caps → Option Caps) (r : Caps)
    (h : (Regex.seq (.group i (.plus c)) b).run icase pos s m k = some r) :
    ∃ ws rest, s = ws ++ rest ∧ ws ≠ [] ∧ (∀ d ∈ ws, c.test d = true) ∧
      b.run icase (pos + ws.length) rest ((i, ws) :: m) k = some r := by
  cases s with
  | nil => simp [Regex.run] at h
  | cons d cs =>
    simp only [Regex.run] at h
    split_ifs at h with hd
    obtain ⟨ws, rest, hs, hws, hk⟩ := star_match_inv c.test cs (pos + 1) m _ r h
    refine ⟨d :: ws, rest, by simp [hs], by simp, ?_, ?_⟩
    · intro e he
      rcases List.mem_cons.mp he with rfl | he
      · exact hd
      · exact hws e he
    · have e2 : pos + 1 + ws.length = pos + (d :: ws).length := by simp; omega
      have e1 : pos + (d :: ws).length - pos = (d :: ws).length := by omega
      have e3 : List.take (d :: ws).length (d :: cs) = d :: ws := by
        rw [hs]; exact List.take_left (d :: ws) rest
      simp only [e2, e1, e3] at hk
      exact hk

theorem chr_eq_nonletter (p d : Char) (hp : p.toNat < 65) (h : chr_eq true p d = true) :
    d = p := by
  simp only [chr_eq, if_true, beq_iff_eq] at h
  have h1 := congrArg Char.toNat h
  rw [tolower_toNat, tolower_toNat] at h1
  rw [char_toNat_inj]
  split_ifs at h1 <;> omega

theorem ewkt_pattern_inv (t : Str) (caps : Caps)
    (h : regex_match true ewkt_pattern t = some caps) :
    ∃ ws0 kw ws1 ws2 ds ws3 ws4 body,
      t = ws0 ++ (kw ++ (ws1 ++ '=' :: (ws2 ++ (ds ++ (ws3 ++ ';' :: (ws4 ++ body)))))) ∧
      blank ws0 ∧ kw.map tolower = "SRID".toList.map tolower ∧ blank ws1 ∧ blank ws2 ∧
      ds ≠ [] ∧ (∀ c ∈ ds, isdigit c = true) ∧ blank ws3 ∧ blank ws4 ∧
      body ≠ [] ∧ (∀ c ∈ body, CharClass.any.test c = true) := by
  unfold regex_match ewkt_pattern at h
  have hword : "SRID".toList = ['S', 'R', 'I', 'D'] := rfl
  simp only [Regex.cat, List.foldr, Regex.word, hword] at h
  obtain ⟨_, h⟩ := inv_seq_bol _ _ _ _ _ _ _ h
  obtain ⟨ws0, r0, rfl, hws0, h⟩ := inv_seq_star _ _ _ _ _ _ _ _ h
  rw [run_seq_seq] at h
  obtain ⟨c1, r1, rfl, hc1, h⟩ := inv_seq_chr _ _ _ _ _ _ _ _ h
  rw [run_seq_seq] at h
  obtain ⟨c2, r2, rfl, hc2, h⟩ := inv_seq_chr _ _ _ _ _ _ _ _ h
  rw [run_seq_seq] at h
  obtain ⟨c3, r3, rfl, hc3, h⟩ := inv_seq_chr _ _ _ _ _ _ _ _ h
  rw [run_seq_seq] at h
  obtain ⟨c4, r4, rfl, hc4, h⟩ := inv_seq_chr _ _ _ _ _ _ _ _ h
  rw [run_seq_eps] at h
  obtain ⟨ws1, r5, rfl, hws1, h⟩ := inv_seq_star _ _ _ _ _ _ _ _ h
  obtain ⟨e, r6, rfl, he, h⟩ := inv_seq_chr _ _ _ _ _ _ _ _ h
  obtain ⟨ws2, r7, rfl, hws2, h⟩ := inv_seq_star _ _ _ _ _ _ _ _ h
  obtain ⟨ds, r8, rfl, hds, hdd, h⟩ := inv_seq_group_plus _ _ _ _ _ _ _ _ _ h
  obtain ⟨ws3, r9, rfl, hws3, h⟩ := inv_seq_star _ _ _ _ _ _ _ _ h
  obtain ⟨sc, r10, rfl, hsc, h⟩ := inv_seq_chr _ _ _ _ _ _ _ _ h
  obtain ⟨ws4, r11, rfl, hws4, h⟩ := inv_seq_star _ _ _ _ _ _ _ _ h
  obtain ⟨body, r12, rfl, hb, hba, h⟩ := inv_seq_group_plus _ _ _ _ _ _ _ _ _ h
  obtain ⟨rfl, h⟩ := inv_seq_eol _ _ _ _ _ _ _ h
  have e1 := chr_eq_nonletter '=' e (by decide) he
  have e2 := chr_eq_nonletter ';' sc (by decide) hsc
  subst e1 e2
  refine ⟨ws0, [c1, c2, c3, c4], ws1, ws2, ds, ws3, ws4, body, by simp, hws0, ?_, hws1, hws2,
    hds, hdd, hws3, hws4, hb, hba⟩
  simp only [chr_eq, if_true, beq_iff_eq] at hc1 hc2 hc3 hc4
  simp [hword, hc1, hc2, hc3, hc4]

theorem trim_eq_nil_of_blank (x : Str) (h : blank x) : trim x = [] := by
  have := trim_eq_of x [] [] h (by simp) (by simp) (by simp)
  simpa using this

/-- The result of `from_ewkt` on a text without SRID header and body. -/
theorem from_ewkt_of_no_header (s : Str) (hs : s ≠ []) (hno : ¬ has_srid_header s) :
    from_ewkt s = some ⟨trim s, -1, detect_dimension (trim s)⟩ := by
  have hemp : s.isEmpty = false := by
    cases s with
    | nil => exact absurd rfl hs
    | cons _ _ => rfl
  unfold from_ewkt
  simp only [hemp, Bool.false_eq_true, if_false]
  cases hm : regex_match true ewkt_pattern (trim s) with
  | none => rfl
  | some caps =>
    exfalso
    apply hno
    obtain ⟨ws0, kw, ws1, ws2, ds, ws3, ws4, body, ht, hws0, hkw, hws1, hws2, hds, hdd, hws3,
      hws4, hb, hba⟩ := ewkt_pattern_inv (trim s) caps hm
    obtain ⟨l, r, hsd, hl, hr, _, htl⟩ := trim_decomp s
    obtain ⟨bl, br, hbd, hbl, hbr, hbh, hbt⟩ := trim_decomp body
    -- the last character of the body is the last character of the trimmed text
    have hlast : ∀ c ∈ body.getLast?, isspace c = false := by
      have e : trim s
          = (ws0 ++ (kw ++ (ws1 ++ '=' :: (ws2 ++ (ds ++ (ws3 ++ ';' :: ws4)))))) ++ body := by
        rw [ht]; simp only [List.append_assoc, List.cons_append]
      rw [e, List.getLast?_append_of_ne_nil _ hb] at htl
      exact htl
    have htb : trim body ≠ [] := by
      intro he
      rw [he] at hbd
      simp only [List.nil_append] at hbd
      have hblank : blank body := by
        intro c hc
        rw [hbd] at hc
        rcases List.mem_append.mp hc with h | h
        · exact hbl c h
        · exact hbr c h
      obtain ⟨c, hc⟩ : ∃ c, body.getLast? = some c := by
        cases h : body.getLast? with
        | none => exact absurd (List.getLast?_eq_none_iff.mp h) hb
        | some c => exact ⟨c, rfl⟩
      have h1 := hlast c hc
      have h2 := hblank c (List.mem_of_getLast?_eq_some hc)
      rw [h1] at h2
      exact absurd h2 (by decide)
    have hw : trim (ws4 ++ (body ++ r)) = trim body := by
      have e : ws4 ++ (body ++ r) = (ws4 ++ bl) ++ (trim body ++ (br ++ r)) := by
        conv_lhs => rw [hbd]
        simp only [List.append_assoc]
      rw [e]
      refine trim_eq_of _ _ _ ?_ ?_ hbh hbt
      · intro c hc
        rcases List.mem_append.mp hc with h | h
        · exact hws4 c h
        · exact hbl c h
      · intro c hc
        rcases List.mem_append.mp hc with h | h
        · exact hbr c h
        · exact hr c h
    refine ⟨l ++ ws0, kw, ws1, ws2, ds, ws3, ws4 ++ (body ++ r), ?_,
      ⟨?_, hkw, hws1, hws2, hds, hdd, hws3⟩, ?_, ?_⟩
    · unfold srid_text
      conv_lhs => rw [hsd, ht]
      simp only [List.append_assoc, List.cons_append]
    · intro c hc
      rcases List.mem_append.mp hc with h | h
      · exact hl c h
      · exact hws0 c h
    · rw [hw]; exact htb
    · rw [hw]
      intro c hc
      have hcb : c ∈ body := by
        rw [hbd]
        exact List.mem_append_right _ (List.mem_append_left _ hc)
      exact (any_test_iff c).mp (hba c hcb)

theorem is_body_of (w : Str) (h1 : ¬ blank w) (h2 : ∀ c ∈ w, c ≠ '\n' ∧ c ≠ '\r') :
    is_body w := by
  obtain ⟨l, r, hd, hl, hr, _, _⟩ := trim_decomp w
  refine ⟨?_, ?_⟩
  · intro he
    apply h1
    rw [he] at hd
    intro c hc
    rw [hd] at hc
    rcases List.mem_append.mp hc with h | h
    · exact hl c h
    · exact hr c (by simpa using h)
  · intro c hc
    apply h2
    rw [hd]
    exact List.mem_append_right _ (List.mem_append_left _ hc)

/-! ## Auxiliary lemmas: decimal digits -/

theorem digit_char_toNat (d : Nat) (h : d < 10) : (digit_char d).toNat = 48 + d := by
  unfold digit_char
  exact char_toNat_ofNat _ (by omega)

theorem decimal_value_append (xs : Str) (c : Char) :
    decimal_value (xs ++ [c]) = 10 * decimal_value xs + digit_value c := by
  simp [decimal_value, List.foldl_append]

theorem nat_digits_spec (fuel n : Nat) (h : n < 10 ^ (fuel + 1)) :
    nat_digits (fuel + 1) n ≠ [] ∧ (∀ c ∈ nat_digits (fuel + 1) n, isdigit c = true) ∧
      decimal_value (nat_digits (fuel + 1) n) = n := by
  induction fuel generalizing n with
  | zero =>
    have hn : n < 10 := by simpa using h
    unfold nat_digits
    rw [if_pos hn]
    refine ⟨by simp, ?_, ?_⟩
    · intro c hc
      simp only [List.mem_singleton] at hc
      subst hc
      rw [isdigit_iff, digit_char_toNat n hn]
      omega
    · simp [decimal_value, digit_value, digit_char_toNat n hn]
  | succ fuel ih =>
    unfold nat_digits
    by_cases hn : n < 10
    · rw [if_pos hn]
      refine ⟨by simp, ?_, ?_⟩
      · intro c hc
        simp only [List.mem_singleton] at hc
        subst hc
        rw [isdigit_iff, digit_char_toNat n hn]
        omega
      · simp [decimal_value, digit_value, digit_char_toNat n hn]
    · rw [if_neg hn]
      have hlt : n / 10 < 10 ^ (fuel + 1) := by
        rw [Nat.div_lt_iff_lt_mul (by norm_num)]
        rw [pow_succ] at h
        exact h
      obtain ⟨_, hd, hv⟩ := ih (n / 10) hlt
      refine ⟨by simp, ?_, ?_⟩
      · intro c hc
        rcases List.mem_append.mp hc with h1 | h1
        · exact hd c h1
        · simp only [List.mem_singleton] at h1
          subst h1
          rw [isdigit_iff, digit_char_toNat _ (Nat.mod_lt _ (by norm_num))]
          omega
      · rw [decimal_value_append, hv, digit_value,
          digit_char_toNat _ (Nat.mod_lt _ (by norm_num))]
        omega

theorem to_string_nat_spec (n : Nat) :
    to_string_nat n ≠ [] ∧ (∀ c ∈ to_string_nat n, isdigit c = true) ∧
      decimal_value (to_string_nat n) = n :=
  nat_digits_spec n n (Nat.lt_of_lt_of_le (Nat.lt_pow_self (by norm_num) n)
    (Nat.pow_le_pow_right (by norm_num) (Nat.le_succ n)))

/-! ## Auxiliary lemmas: the two outcomes of `from_ewkt` -/

theorem from_ewkt_nil : from_ewkt [] = none := rfl

/-- Every value that `from_ewkt` returns comes from one of its two branches. -/
theorem from_ewkt_some_cases (s : Str) (V : GeometryWrapper) (h : from_ewkt s = some V) :
    (∃ lead kw ws1 ws2 ds ws3 w, s = srid_text lead kw ws1 ws2 ds ws3 w ∧
        is_srid_header lead kw ws1 ws2 ds ws3 ∧ is_body w ∧ decimal_value ds ≤ 2147483647 ∧
        V = ⟨trim w, (decimal_value ds : Int), detect_dimension (trim w)⟩) ∨
    (s ≠ [] ∧ ¬ has_srid_header s ∧ V = ⟨trim s, -1, detect_dimension (trim s)⟩) := by
  by_cases hh : has_srid_header s
  · left
    obtain ⟨lead, kw, ws1, ws2, ds, ws3, w, hs, hd, hb⟩ := hh
    refine ⟨lead, kw, ws1, ws2, ds, ws3, w, hs, hd, hb, ?_⟩
    rw [hs, from_ewkt_of_header lead kw ws1 ws2 ds ws3 w hd hb] at h
    split_ifs at h with hv
    exact ⟨hv, (Option.some.inj h).symm⟩
  · right
    have hne : s ≠ [] := by
      rintro rfl
      rw [from_ewkt_nil] at h
      cases h
    rw [from_ewkt_of_no_header s hne hh] at h
    exact ⟨hne, hh, (Option.some.inj h).symm⟩

/-- The failures of `from_ewkt`: the empty text, and an SRID header whose digits do not fit
an `int`. -/
theorem from_ewkt_none_iff (s : Str) :
    from_ewkt s = none ↔
      s = [] ∨ ∃ lead kw ws1 ws2 ds ws3 w, s = srid_text lead kw ws1 ws2 ds ws3 w ∧
        is_srid_header lead kw ws1 ws2 ds ws3 ∧ is_body w ∧ 2147483647 < decimal_value ds := by
  constructor
  · intro h
    by_cases hs : s = []
    · exact Or.inl hs
    · right
      by_cases hh : has_srid_header s
      · obtain ⟨lead, kw, ws1, ws2, ds, ws3, w, hs, hd, hb⟩ := hh
        refine ⟨lead, kw, ws1, ws2, ds, ws3, w, hs, hd, hb, ?_⟩
        rw [hs, from_ewkt_of_header lead kw ws1 ws2 ds ws3 w hd hb] at h
        split_ifs at h with hv
        omega
      · rw [from_ewkt_of_no_header s hs hh] at h
        cases h
  · rintro (rfl | ⟨lead, kw, ws1, ws2, ds, ws3, w, hs, hd, hb, hv⟩)
    · rfl
    · rw [hs, from_ewkt_of_header lead kw ws1 ws2 ds ws3 w hd hb, if_neg (by omega)]

theorem ewkt_pattern_minus (rest : Str) :
    regex_match true ewkt_pattern ('S' :: 'R' :: 'I' :: 'D' :: '=' :: '-' :: rest) = none := by
  have hword : "SRID".toList = ['S', 'R', 'I', 'D'] := rfl
  simp +decide [regex_match, ewkt_pattern, Regex.cat, Regex.word, hword, Regex.run, star_match,
    chr_eq, CharClass.test]

theorem blank_nil : blank [] := fun c hc => absurd hc (List.not_mem_nil c)

theorem to_ewkt_of_nat (t : Str) (n : Nat) (dim : DimensionType) (ht : t ≠ []) :
    GeometryWrapper.to_ewkt ⟨t, (n : Int), dim⟩
      = srid_text [] "SRID".toList [] [] (to_string_nat n) [] t := by
  have hemp : t.isEmpty = false := by
    cases t with
    | nil => exact absurd rfl ht
    | cons _ _ => rfl
  have hs : "SRID=".toList = "SRID".toList ++ ['='] := rfl
  have hsc : ";".toList = [';'] := rfl
  have hnn : ¬ ((n : Int) < 0) := by omega
  simp only [GeometryWrapper.to_ewkt, hemp, Bool.false_eq_true, if_false, to_string_int,
    if_neg hnn, Int.natAbs_ofNat, srid_text, hs, hsc, List.nil_append, List.append_assoc,
    List.singleton_append, List.cons_append]

/-- Parsing what `to_ewkt` wrote for a value with a non-negative SRID and a trimmed WKT
without line terminator gives the value back. -/
theorem from_ewkt_to_ewkt_of_nat (t : Str) (n : Nat) (hn : n ≤ 2147483647) (ht : trim t = t)
    (hne : t ≠ []) (hnl : ∀ c ∈ t, c ≠ '\n' ∧ c ≠ '\r') :
    from_ewkt (GeometryWrapper.to_ewkt ⟨t, (n : Int), detect_dimension t⟩)
      = some ⟨t, (n : Int), detect_dimension t⟩ := by
  obtain ⟨hdne, hdd, hdv⟩ := to_string_nat_spec n
  have hb : is_body t := by
    unfold is_body
    rw [ht]
    exact ⟨hne, hnl⟩
  rw [to_ewkt_of_nat t n _ hne,
    from_ewkt_of_header [] "SRID".toList [] [] (to_string_nat n) [] t
      ⟨blank_nil, rfl, blank_nil, blank_nil, hdne, hdd, blank_nil⟩ hb,
    hdv, if_pos hn, ht]

theorem to_ewkt_undefined (t : Str) (dim : DimensionType) (ht : t ≠ []) :
    GeometryWrapper.to_ewkt ⟨t, -1, dim⟩
      = 'S' :: 'R' :: 'I' :: 'D' :: '=' :: '-' :: '1' :: ';' :: t := by
  have hemp : t.isEmpty = false := by
    cases t with
    | nil => exact absurd rfl ht
    | cons _ _ => rfl
  have hs : "SRID=".toList ++ to_string_int (-1) ++ ";".toList
      = ['S', 'R', 'I', 'D', '=', '-', '1', ';'] := by decide
  simp only [GeometryWrapper.to_ewkt, hemp, Bool.false_eq_true, if_false, hs]
  rfl

/-- Parsing what `to_ewkt` wrote for a value with SRID -1 gives a value whose WKT is the
whole text, `SRID=-1;` included. -/
theorem from_ewkt_to_ewkt_undefined (t : Str) (dim : DimensionType) (ht : trim t = t)
    (hne : t ≠ []) :
    from_ewkt (GeometryWrapper.to_ewkt ⟨t, -1, dim⟩)
      = some ⟨'S' :: 'R' :: 'I' :: 'D' :: '=' :: '-' :: '1' :: ';' :: t, -1,
          detect_dimension ('S' :: 'R' :: 'I' :: 'D' :: '=' :: '-' :: '1' :: ';' :: t)⟩ := by
  obtain ⟨_, _, _, _, _, _, htl⟩ := trim_decomp t
  rw [ht] at htl
  have htrim : trim ('S' :: 'R' :: 'I' :: 'D' :: '=' :: '-' :: '1' :: ';' :: t)
      = 'S' :: 'R' :: 'I' :: 'D' :: '=' :: '-' :: '1' :: ';' :: t := by
    have := trim_eq_of [] ('S' :: 'R' :: 'I' :: 'D' :: '=' :: '-' :: '1' :: ';' :: t) []
      (by simp) (by simp) (by intro c hc; simp at hc; subst hc; decide)
      (by
        have e : 'S' :: 'R' :: 'I' :: 'D' :: '=' :: '-' :: '1' :: ';' :: t
            = ['S', 'R', 'I', 'D', '=', '-', '1', ';'] ++ t := rfl
        rw [e, List.getLast?_append_of_ne_nil _ hne]
        exact htl)
    simpa using this
  rw [to_ewkt_undefined t dim hne]
  unfold from_ewkt
  simp only [List.isEmpty_cons, Bool.false_eq_true, if_false, htrim, ewkt_pattern_minus]

/-- The EWKT round trip holds exactly for the values with an SRID: when `from_ewkt s = V`,
parsing `to_ewkt V` gives `V` back if `V.srid` is not -1 and gives something else (or
nothing) if it is -1, that is, for every `s` without SRID header. -/
theorem from_ewkt_round_trip_iff (s : Str) (V : GeometryWrapper) (h : from_ewkt s = some V) :
    from_ewkt V.to_ewkt = some V ↔ V.srid ≠ -1 := by
  rcases from_ewkt_some_cases s V h with
    ⟨lead, kw, ws1, ws2, ds, ws3, w, _, _, hb, hv, rfl⟩ | ⟨hne, _, rfl⟩
  · have hnl : ∀ c ∈ trim w, c ≠ '\n' ∧ c ≠ '\r' := hb.2
    have key := from_ewkt_to_ewkt_of_nat (trim w) (decimal_value ds) hv (trim_trim w) hb.1 hnl
    constructor
    · intro _
      simp only [ne_eq]
      omega
    · intro _
      exact key
  · constructor
    · intro hrt
      exfalso
      by_cases he : trim s = []
      · have : GeometryWrapper.to_ewkt ⟨trim s, -1, detect_dimension (trim s)⟩ = [] := by
          simp [GeometryWrapper.to_ewkt, he]
        rw [this, from_ewkt_nil] at hrt
        cases hrt
      · rw [from_ewkt_to_ewkt_undefined (trim s) _ (trim_trim s) he] at hrt
        have hw := congrArg (fun g => g.wkt.length) (Option.some.inj hrt)
        simp at hw
        omega
    · intro hsr
      exact absurd rfl hsr

/-! ## EWKT parsing -/

/-- Claim C1 (EWKT parse-emit round trip). Evaluated on the text `POINT(1 2)`, which has no
SRID prefix: `from_ewkt` accepts it with SRID -1, `to_ewkt` writes `SRID=-1;POINT(1 2)`, and
parsing that text again does not give the value back: the pattern of `from_ewkt` asks for
digits after `SRID=`, so the whole text, prefix included, becomes the WKT. In general, for
every value `V` that `from_ewkt` returns, the second parse yields `V` exactly when `V.srid`
is not -1: the round trip holds for the texts with an SRID prefix and fails for every text
without one. -/
theorem from_ewkt_to_ewkt_undefined_srid :
    (from_ewkt "POINT(1 2)".toList = some ⟨"POINT(1 2)".toList, -1, .XY⟩ ∧
      GeometryWrapper.to_ewkt ⟨"POINT(1 2)".toList, -1, .XY⟩ = "SRID=-1;POINT(1 2)".toList ∧
      from_ewkt "SRID=-1;POINT(1 2)".toList
        = some ⟨"SRID=-1;POINT(1 2)".toList, -1, .XY⟩ ∧
      from_ewkt (GeometryWrapper.to_ewkt ⟨"POINT(1 2)".toList, -1, .XY⟩)
        ≠ some ⟨"POINT(1 2)".toList, -1, .XY⟩) ∧
    (∀ (s : Str) (V : GeometryWrapper), from_ewkt s = some V →
      (from_ewkt V.to_ewkt = some V ↔ V.srid ≠ -1)) :=
  ⟨by decide, from_ewkt_round_trip_iff⟩

/-- Claim C2 (SRID extraction by `from_ewkt`). First half: on a text made of optional
white space, `SRID` in any letter case, `=`, a non-empty string of decimal digits whose value
is at most `2 ^ 31 - 1`, `;` (white space allowed around `=` and before `;`) and a body `w`
that is not blank and has no line break, `from_ewkt` returns the value whose SRID is the
number written by the digits and whose WKT is `w` trimmed. Second half: on every non-empty
text that does not start with such an SRID header, `from_ewkt` returns the value with
SRID -1 whose WKT is the trimmed text. -/
theorem from_ewkt_srid_extraction :
    (∀ lead kw ws1 ws2 ds ws3 w : Str, is_srid_header lead kw ws1 ws2 ds ws3 →
      ¬ blank w → (∀ c ∈ w, c ≠ '\n' ∧ c ≠ '\r') → decimal_value ds ≤ 2 ^ 31 - 1 →
      from_ewkt (srid_text lead kw ws1 ws2 ds ws3 w)
        = some ⟨trim w, (decimal_value ds : Int), detect_dimension (trim w)⟩) ∧
    (∀ s : Str, s ≠ [] → ¬ has_srid_start s →
      from_ewkt s = some ⟨trim s, -1, detect_dimension (trim s)⟩) := by
  refine ⟨fun lead kw ws1 ws2 ds ws3 w hh hb hnl hv => ?_, fun s hs hno => ?_⟩
  · rw [from_ewkt_of_header lead kw ws1 ws2 ds ws3 w hh (is_body_of w hb hnl),
      if_pos (by norm_num at hv; exact hv)]
  · refine from_ewkt_of_no_header s hs (fun hh => hno ?_)
    obtain ⟨lead, kw, ws1, ws2, ds, ws3, w, hs, hh, _⟩ := hh
    exact ⟨lead, kw, ws1, ws2, ds, ws3, w, hs, hh⟩

/-- Claim C2 applied to `srid = 4326 ;  POINT(1 2) ` (SRID 4326, WKT `POINT(1 2)`) and to
`POINT(1 2)`, which has no `=` and therefore no SRID header. -/
theorem from_ewkt_srid_extraction_witness :
    from_ewkt "srid = 4326 ;  POINT(1 2) ".toList = some ⟨"POINT(1 2)".toList, 4326, .XY⟩ ∧
    from_ewkt "POINT(1 2)".toList = some ⟨"POINT(1 2)".toList, -1, .XY⟩ := by
  refine ⟨?_, ?_⟩
  · have h := from_ewkt_srid_extraction.1 [] "srid".toList " ".toList " ".toList
      "4326".toList " ".toList "  POINT(1 2) ".toList (by decide) (by decide) (by decide)
      (by decide)
    rw [show srid_text [] "srid".toList " ".toList " ".toList "4326".toList " ".toList
        "  POINT(1 2) ".toList = "srid = 4326 ;  POINT(1 2) ".toList from by decide] at h
    rw [h]
    decide
  · have h := from_ewkt_srid_extraction.2 "POINT(1 2)".toList (by decide) (by
      rintro ⟨lead, kw, ws1, ws2, ds, ws3, w, hs, _⟩
      have hmem : '=' ∈ srid_text lead kw ws1 ws2 ds ws3 w := by simp [srid_text]
      rw [← hs] at hmem
      exact absurd hmem (by decide))
    rw [h]
    decide

/-- Claim C3 (unknown keyword). Evaluated on `FOO(1 2)`: `from_ewkt` returns a value whose
WKT is `FOO(1 2)` instead of the failure value, while `from_wkt`, which checks the keyword,
rejects the same text. In general `from_ewkt` fails on two kinds of text only, the empty
text and an SRID header whose digits do not fit an `int`: the keyword plays no part. -/
theorem from_ewkt_unknown_keyword :
    (from_ewkt "FOO(1 2)".toList = some ⟨"FOO(1 2)".toList, -1, .XY⟩ ∧
      from_ewkt "SRID=4326;FOO(1 2)".toList = some ⟨"FOO(1 2)".toList, 4326, .XY⟩ ∧
      from_wkt "FOO(1 2)".toList (-1) = none) ∧
    (∀ s : Str, from_ewkt s = none ↔
      s = [] ∨ ∃ lead kw ws1 ws2 ds ws3 w, s = srid_text lead kw ws1 ws2 ds ws3 w ∧
        is_srid_header lead kw ws1 ws2 ds ws3 ∧ is_body w ∧ 2147483647 < decimal_value ds) :=
  ⟨by decide, from_ewkt_none_iff⟩

/-- Claim C4 (malformed SRID), evaluated on `SRID=abc;POINT(0 0)` and `SRID=;POINT(0 0)`:
`from_ewkt` returns a value with SRID -1 whose WKT is the whole text, SRID prefix
included, instead of the failure value. -/
theorem from_ewkt_malformed_srid :
    from_ewkt "SRID=abc;POINT(0 0)".toList
      = some ⟨"SRID=abc;POINT(0 0)".toList, -1, .XY⟩ ∧
    from_ewkt "SRID=;POINT(0 0)".toList
      = some ⟨"SRID=;POINT(0 0)".toList, -1, .XY⟩ := by
  decide

/-- Claim C5 (dimension detection), evaluated on texts with no white space between the
dimension tag and the parenthesis: `from_ewkt` and `from_wkt` give dimension XY for
`POINT Z(1 2 3)`, `POINT M(1 2 3)` and `POINT ZM(1 2 3 4)` (and for the other keywords, in
either letter case) and dimension XYZ for `POINT Z M(1 2 3 4)`, while the same texts with one
space before the parenthesis give XYZ, XYM and XYZM; a keyword followed directly by `(`
gives XY. -/
theorem dimension_tag_without_space :
    from_ewkt "POINT Z(1 2 3)".toList = some ⟨"POINT Z(1 2 3)".toList, -1, .XY⟩ ∧
    from_wkt "POINT Z(1 2 3)".toList (-1) = some ⟨"POINT Z(1 2 3)".toList, -1, .XY⟩ ∧
    from_ewkt "SRID=4326;POINT Z(1 2 3)".toList = some ⟨"POINT Z(1 2 3)".toList, 4326, .XY⟩ ∧
    from_ewkt "POINT M(1 2 3)".toList = some ⟨"POINT M(1 2 3)".toList, -1, .XY⟩ ∧
    from_ewkt "POINT ZM(1 2 3 4)".toList = some ⟨"POINT ZM(1 2 3 4)".toList, -1, .XY⟩ ∧
    from_ewkt "POINT Z M(1 2 3 4)".toList = some ⟨"POINT Z M(1 2 3 4)".toList, -1, .XYZ⟩ ∧
    from_ewkt "linestring z(0 0 0,1 1 1)".toList
      = some ⟨"linestring z(0 0 0,1 1 1)".toList, -1, .XY⟩ ∧
    from_ewkt "MULTIPOINT M((0 0 0))".toList = some ⟨"MULTIPOINT M((0 0 0))".toList, -1, .XY⟩ ∧
    from_ewkt "POINT Z (1 2 3)".toList = some ⟨"POINT Z (1 2 3)".toList, -1, .XYZ⟩ ∧
    from_ewkt "POINT M (1 2 3)".toList = some ⟨"POINT M (1 2 3)".toList, -1, .XYM⟩ ∧
    from_ewkt "POINT ZM (1 2 3 4)".toList = some ⟨"POINT ZM (1 2 3 4)".toList, -1, .XYZM⟩ ∧
    from_ewkt "POINT Z M (1 2 3 4)".toList
      = some ⟨"POINT Z M (1 2 3 4)".toList, -1, .XYZM⟩ ∧
    from_ewkt "POINT(1 2)".toList = some ⟨"POINT(1 2)".toList, -1, .XY⟩ := by
  decide

/-! ## EWKB -/

/-- Claim C6 (EWKB round trip), evaluated on the value that `from_ewkt` returns for
`LINESTRING(0 0,1 1)`: whatever the WKT reader, `to_ewkb` writes only the nine header bytes
(byte order, type word 2 with the SRID flag, SRID -1) and `from_ewkb` rejects them, so the
round trip does not succeed. -/
theorem ewkb_round_trip_linestring :
    from_ewkt "LINESTRING(0 0,1 1)".toList = some ⟨"LINESTRING(0 0,1 1)".toList, -1, .XY⟩ ∧
    ∀ R : WktReader,
      GeometryWrapper.to_ewkb R ⟨"LINESTRING(0 0,1 1)".toList, -1, .XY⟩
        = [1, 2, 0, 0, 32, 255, 255, 255, 255] ∧
      from_ewkb (GeometryWrapper.to_ewkb R ⟨"LINESTRING(0 0,1 1)".toList, -1, .XY⟩) = none :=
  ⟨by decide, fun _ => ⟨rfl, (by decide : from_ewkb [1, 2, 0, 0, 32, 255, 255, 255, 255] = none)⟩⟩

/-- Claim C6 as amended (EWKB round trip of points only): for every value `V` obtained from
`from_ewkt`, if `V` is not a Point then `from_ewkb (to_ewkb V)` is the failure value; if `V`
is a Point whose WKT the reader of Boost.Geometry accepts (as a 3D point when `V` has Z, as
a 2D point otherwise) then `from_ewkb (to_ewkb V)` succeeds with a Point of the same SRID
and the same dimension. -/
theorem ewkb_round_trip_point (R : WktReader) (s : Str) (V : GeometryWrapper)
    (h : from_ewkt s = some V) :
    (V.geometry_type ≠ .Point → from_ewkb (V.to_ewkb R) = none) ∧
    (V.geometry_type = .Point →
      (V.is_3d = true → (R.point_3d V.wkt).isSome = true) →
      (V.is_3d = false → (R.point_2d V.wkt).isSome = true) →
      ∃ V2, from_ewkb (V.to_ewkb R) = some V2 ∧ V2.srid = V.srid ∧
        V2.dimension = V.dimension ∧ V2.geometry_type = .Point) :=
  from_ewkb_to_ewkb R V (from_ewkt_srid_range s V h).1 (from_ewkt_srid_range s V h).2

/-- Claim C6 as amended, applied to `SRID=4326;POINT(1 2)` with a reader that returns the
coordinates 1.0 and 2.0. -/
theorem ewkb_round_trip_point_witness :
    from_ewkt "SRID=4326;POINT(1 2)".toList = some ⟨"POINT(1 2)".toList, 4326, .XY⟩ ∧
    ∃ V2, from_ewkb (GeometryWrapper.to_ewkb
          ⟨fun _ => some (0x3FF0000000000000, 0x4000000000000000), fun _ => none⟩
          ⟨"POINT(1 2)".toList, 4326, .XY⟩) = some V2 ∧
      V2.srid = 4326 ∧ V2.dimension = .XY ∧ V2.geometry_type = .Point :=
  ⟨by decide,
    (ewkb_round_trip_point
      ⟨fun _ => some (0x3FF0000000000000, 0x4000000000000000), fun _ => none⟩
      "SRID=4326;POINT(1 2)".toList ⟨"POINT(1 2)".toList, 4326, .XY⟩ (by decide)).2
      (by decide) (by decide) (fun _ => rfl)⟩

/-- Claim C7 (EWKB header decoding). First part: when `from_ewkb` succeeds on a buffer of
bytes, byte 0 is 0 or 1 and, with `t` the word in bytes 1..4 read in the byte order that
byte 0 names, the SRID of the result is the word in bytes 5..8 (same byte order) as a
two's-complement `int32` when `t & 0x20000000` is set and -1 otherwise, and the dimension is
XYZM, XYZ, XYM or XY according to the bits `0x80000000` and `0x40000000` of `t`. Second
part: the big-endian and the little-endian encoding of the same type word, SRID and
ordinates decode to the same result. -/
theorem from_ewkb_header_decoding :
    (∀ (ewkb : List Nat) (V : GeometryWrapper), (∀ b ∈ ewkb, b < 256) →
      from_ewkb ewkb = some V →
      (byte_at ewkb 0 = 0 ∨ byte_at ewkb 0 = 1) ∧
      V.srid = (if header_word ewkb 1 &&& 0x20000000 ≠ 0
        then to_int32 (header_word ewkb 5) else -1) ∧
      V.dimension =
        (if header_word ewkb 1 &&& 0x80000000 ≠ 0 then
          (if header_word ewkb 1 &&& 0x40000000 ≠ 0 then .XYZM else .XYZ)
         else (if header_word ewkb 1 &&& 0x40000000 ≠ 0 then .XYM else .XY))) ∧
    (∀ (t : Nat) (srid : Option Nat) (ords : List Nat), t < 2 ^ 32 →
      (srid.isSome = true ↔ t &&& 0x20000000 ≠ 0) →
      from_ewkb (point_ewkb 0 t srid ords) = from_ewkb (point_ewkb 1 t srid ords)) := by
  refine ⟨fun ewkb V hb h => ?_, fun t srid ords ht hflag =>
    from_ewkb_byte_order t ht srid ords hflag⟩
  have key := from_ewkb_fields ewkb V h
  rw [read_uint32_eq ewkb hb 1, read_uint32_eq ewkb hb 5] at key
  exact key

/-- Claim C7 applied to the big-endian EWKB of `SRID=4326;POINT(1 2)` and to the pair of
encodings of that point. -/
theorem from_ewkb_header_decoding_witness :
    from_ewkb [0, 32, 0, 0, 1, 0, 0, 16, 230, 63, 240, 0, 0, 0, 0, 0, 0, 64, 0, 0, 0, 0, 0, 0, 0]
      = some ⟨"POINT(1.000000 2.000000)".toList, 4326, .XY⟩ ∧
    header_word
      [0, 32, 0, 0, 1, 0, 0, 16, 230, 63, 240, 0, 0, 0, 0, 0, 0, 64, 0, 0, 0, 0, 0, 0, 0] 1
      = 0x20000001 ∧
    (4326 : Int) = (if header_word
        [0, 32, 0, 0, 1, 0, 0, 16, 230, 63, 240, 0, 0, 0, 0, 0, 0, 64, 0, 0, 0, 0, 0, 0, 0] 1
          &&& 0x20000000 ≠ 0
      then to_int32 (header_word
        [0, 32, 0, 0, 1, 0, 0, 16, 230, 63, 240, 0, 0, 0, 0, 0, 0, 64, 0, 0, 0, 0, 0, 0, 0] 5)
      else -1) ∧
    from_ewkb (point_ewkb 0 0x20000001 (some 4326) [0x3FF0000000000000, 0x4000000000000000])
      = from_ewkb
          (point_ewkb 1 0x20000001 (some 4326) [0x3FF0000000000000, 0x4000000000000000]) ∧
    from_ewkb (point_ewkb 1 0x20000001 (some 4326) [0x3FF0000000000000, 0x4000000000000000])
      = some ⟨"POINT(1.000000 2.000000)".toList, 4326, .XY⟩ :=
  ⟨by decide, by decide,
    (from_ewkb_header_decoding.1
      [0, 32, 0, 0, 1, 0, 0, 16, 230, 63, 240, 0, 0, 0, 0, 0, 0, 64, 0, 0, 0, 0, 0, 0, 0]
      ⟨"POINT(1.000000 2.000000)".toList, 4326, .XY⟩ (by decide) (by decide)).2.1,
    from_ewkb_header_decoding.2 0x20000001 (some 4326)
      [0x3FF0000000000000, 0x4000000000000000] (by decide) (by decide),
    by decide⟩

/-- Claim C8 (EWKB rejection). For every buffer, `from_ewkb` returns the failure value when
the buffer has fewer than 5 bytes, when byte 0 is neither 0 nor 1, when the base type (the
type word with the SRID, Z and M flags cleared) is not in 1..7, when the SRID flag is set
and the buffer has fewer than 9 bytes, and when the buffer ends before the
`8 * coord_dimension` coordinate bytes that follow the header; and every index that
`from_ewkb` reads lies inside the buffer. -/
theorem from_ewkb_rejects (ewkb : List Nat) :
    (ewkb.length < 5 → from_ewkb ewkb = none) ∧
    (byte_at ewkb 0 ≠ 0 ∧ byte_at ewkb 0 ≠ 1 → from_ewkb ewkb = none) ∧
    (¬ (1 ≤ read_uint32 ewkb 1 (byte_at ewkb 0) &&& 0x1FFFFFFF ∧
        read_uint32 ewkb 1 (byte_at ewkb 0) &&& 0x1FFFFFFF ≤ 7) → from_ewkb ewkb = none) ∧
    (read_uint32 ewkb 1 (byte_at ewkb 0) &&& 0x20000000 ≠ 0 ∧ ewkb.length < 5 + 4 →
      from_ewkb ewkb = none) ∧
    (ewkb.length < (if read_uint32 ewkb 1 (byte_at ewkb 0) &&& 0x20000000 ≠ 0 then 9 else 5)
        + 8 * declared_coord_dimension (read_uint32 ewkb 1 (byte_at ewkb 0)) →
      from_ewkb ewkb = none) ∧
    (∀ i ∈ (from_ewkb_run ewkb).2, i < ewkb.length) := by
  have inv : ∀ V, from_ewkb ewkb = some V → _ := fun V h => from_ewkb_checked ewkb V h
  have dimv : ∀ V, from_ewkb ewkb = some V → _ := fun V h => (from_ewkb_fields ewkb V h).2.2
  refine ⟨?_, ?_, ?_, ?_, ?_, from_ewkb_run_reads ewkb⟩
  · intro hlt
    by_contra hne
    obtain ⟨V, hV⟩ := Option.ne_none_iff_exists'.mp hne
    have := (inv V hV).1
    omega
  · intro hbo
    by_contra hne
    obtain ⟨V, hV⟩ := Option.ne_none_iff_exists'.mp hne
    have := (inv V hV).2.1
    omega
  · intro hbt
    by_contra hne
    obtain ⟨V, hV⟩ := Option.ne_none_iff_exists'.mp hne
    have := (inv V hV).2.2.1
    omega
  · intro hs
    by_contra hne
    obtain ⟨V, hV⟩ := Option.ne_none_iff_exists'.mp hne
    have := (inv V hV).2.2.2.1 hs.1
    omega
  · intro hlt
    by_contra hne
    obtain ⟨V, hV⟩ := Option.ne_none_iff_exists'.mp hne
    have hlen := (inv V hV).2.2.2.2
    have hd := dimv V hV
    have hcd : V.coord_dimension
        = declared_coord_dimension (read_uint32 ewkb 1 (byte_at ewkb 0)) := by
      unfold GeometryWrapper.coord_dimension declared_coord_dimension
      rw [hd]
      simp only [WKB_Z_FLAG, WKB_M_FLAG]
      split_ifs <;> rfl
    rw [hcd] at hlen
    exact absurd hlt (by simp only [SRID_FLAG] at hlen; omega)

/-- Claim C8 applied to four buffers: a 4-byte buffer, a buffer whose byte 0 is 2, a
little-endian LineString header, and a Point header with the SRID flag cut after the
type word. -/
theorem from_ewkb_rejects_witness :
    from_ewkb [1, 1, 0, 0] = none ∧
    from_ewkb [2, 1, 0, 0, 0, 0, 0, 0, 0, 0, 0, 0, 0, 0, 0, 0, 0, 0, 0, 0, 0] = none ∧
    from_ewkb [1, 1, 0, 0, 32, 230, 16] = none :=
  ⟨(from_ewkb_rejects [1, 1, 0, 0]).1 (by decide),
    (from_ewkb_rejects [2, 1, 0, 0, 0, 0, 0, 0, 0, 0, 0, 0, 0, 0, 0, 0, 0, 0, 0, 0, 0]).2.1
      (by decide),
    (from_ewkb_rejects [1, 1, 0, 0, 32, 230, 16]).2.2.2.1 (by decide)⟩

/-- Claim C9 (EWKB emission header). For every value `V` whose variant is one of the six
supported ones, `to_ewkb V` is the byte 1, then the four little-endian bytes of
`base_type | 0x20000000 | (0x80000000 if V has Z) | (0x40000000 if V has M)`, then the four
little-endian bytes of the SRID taken modulo `2 ^ 32` (two's complement), then the rest. -/
theorem to_ewkb_header (R : WktReader) (V : GeometryWrapper)
    (h : V.geometry_type ≠ .Unknown) :
    ∃ body : List Nat, V.to_ewkb R =
      1 :: (le_bytes 4 (base_type V.geometry_type ||| 0x20000000
              ||| (if V.is_3d then 0x80000000 else 0) ||| (if V.has_m then 0x40000000 else 0))
            ++ le_bytes 4 (V.srid % 2 ^ 32).toNat ++ body) := by
  refine ⟨(if V.geometry_type = .Point then point_ords R V else []).map (field 1 8)
    |>.flatten, ?_⟩
  rw [to_ewkb_eq R V h]
  obtain ⟨wkt, srid, dim⟩ := V
  cases dim <;>
    simp [point_ewkb, field_one, type_word, GeometryWrapper.is_3d, GeometryWrapper.has_m,
      to_uint32]

/-- Claim C9 applied to an XYZ point with SRID -1: the header is
`01 | 01 00 00 A0 | FF FF FF FF`. -/
theorem to_ewkb_header_witness :
    ∃ body : List Nat,
      GeometryWrapper.to_ewkb ⟨fun _ => none, fun _ => none⟩
          ⟨"POINT Z (1 2 3)".toList, -1, .XYZ⟩
        = 1 :: ([1, 0, 0, 160] ++ [255, 255, 255, 255] ++ body) :=
  to_ewkb_header ⟨fun _ => none, fun _ => none⟩ ⟨"POINT Z (1 2 3)".toList, -1, .XYZ⟩
    (by decide)

set_option exponentiation.threshold 2048 in
/-- Claim C10 (lossless coordinate text), evaluated on little-endian Point EWKBs: the
doubles 0.0000001 (pattern `3E7AD7F29ABCAF48`) and 0.0 are both printed as `0.000000`, and
the doubles 139.6917064 (`406176227575CDE2`) and 139.691706 (`40617622749F0E4E`) are both
printed as `139.691706`, so the WKT that `from_ewkb` produces is the same for different
coordinates and no reading of the printed number can give back both. -/
theorem from_ewkb_text_loses_precision :
    read_double [1, 1, 0, 0, 0, 72, 175, 188, 154, 242, 215, 122, 62, 0, 0, 0, 0, 0, 0, 0, 0] 5 1
      = 0x3E7AD7F29ABCAF48 ∧
    from_ewkb [1, 1, 0, 0, 0, 72, 175, 188, 154, 242, 215, 122, 62, 0, 0, 0, 0, 0, 0, 0, 0]
      = some ⟨"POINT(0.000000 0.000000)".toList, -1, .XY⟩ ∧
    from_ewkb [1, 1, 0, 0, 0, 0, 0, 0, 0, 0, 0, 0, 0, 0, 0, 0, 0, 0, 0, 0, 0]
      = some ⟨"POINT(0.000000 0.000000)".toList, -1, .XY⟩ ∧
    read_double [1, 1, 0, 0, 0, 226, 205, 117, 117, 34, 118, 97, 64, 0, 0, 0, 0, 0, 0, 0, 0] 5 1
      = 0x406176227575CDE2 ∧
    from_ewkb [1, 1, 0, 0, 0, 226, 205, 117, 117, 34, 118, 97, 64, 0, 0, 0, 0, 0, 0, 0, 0]
      = some ⟨"POINT(139.691706 0.000000)".toList, -1, .XY⟩ ∧
    from_ewkb [1, 1, 0, 0, 0, 78, 14, 159, 116, 34, 118, 97, 64, 0, 0, 0, 0, 0, 0, 0, 0]
      = some ⟨"POINT(139.691706 0.000000)".toList, -1, .XY⟩ ∧
    (∀ parse : Str → Nat,
      ¬ (parse (to_string_double 0x3E7AD7F29ABCAF48) = 0x3E7AD7F29ABCAF48 ∧
         parse (to_string_double 0) = 0)) := by
  refine ⟨by decide, by decide, by decide, by decide, by decide,
    by decide, ?_⟩
  intro parse hp
  have e : to_string_double 0x3E7AD7F29ABCAF48 = to_string_double 0 := by decide
  rw [e] at hp
  omega

/-! ## Scalar functions: NULL, SRIDs, containment, area -/

theorem as_variant_congr (B : Boost) (g g2 : GeometryWrapper) (h : g.wkt = g2.wkt) :
    g.as_variant B = g2.as_variant B := by
  simp only [GeometryWrapper.as_variant, GeometryWrapper.geometry_type, GeometryWrapper.as, h]

theorem binary_relation_variants (B : Boost) (name a b : Str) (ga gb : GeometryWrapper)
    (va vb : geometry_variant)
    (compute : geometry_variant → geometry_variant → SqlResult)
    (ha : from_ewkt (c_str a) = some ga) (hb : from_ewkt (c_str b) = some gb)
    (hva : ga.as_variant B = some va) (hvb : gb.as_variant B = some vb) :
    binary_relation B name [.text a, .text b] compute = compute va vb := by
  simp [binary_relation, read_text_arg, ha, hb, hva, hvb]

theorem binary_relation_congr (B : Boost) (name a a2 b b2 : Str)
    (ga ga2 gb gb2 : GeometryWrapper)
    (compute : geometry_variant → geometry_variant → SqlResult)
    (ha : from_ewkt (c_str a) = some ga) (ha2 : from_ewkt (c_str a2) = some ga2)
    (hb : from_ewkt (c_str b) = some gb) (hb2 : from_ewkt (c_str b2) = some gb2)
    (hwa : ga.wkt = ga2.wkt) (hwb : gb.wkt = gb2.wkt) :
    binary_relation B name [.text a, .text b] compute
      = binary_relation B name [.text a2, .text b2] compute := by
  simp [binary_relation, read_text_arg, ha, hb, ha2, hb2, as_variant_congr B ga ga2 hwa,
    as_variant_congr B gb gb2 hwb]

theorem as_variant_is_areal (B : Boost) (g : GeometryWrapper) (v : geometry_variant)
    (h : g.as_variant B = some v) (h1 : g.geometry_type ≠ .Polygon)
    (h2 : g.geometry_type ≠ .MultiPolygon) : v.is_areal = false := by
  unfold GeometryWrapper.as_variant at h
  split at h
  · simp at h
  · cases hgt : g.geometry_type <;> simp only [hgt] at h
    · simp at h
    · simp only [Option.map_eq_some'] at h
      obtain ⟨x, -, rfl⟩ := h
      rfl
    · simp only [Option.map_eq_some'] at h
      obtain ⟨x, -, rfl⟩ := h
      rfl
    · exact absurd hgt h1
    · simp only [Option.map_eq_some'] at h
      obtain ⟨x, -, rfl⟩ := h
      rfl
    · simp only [Option.map_eq_some'] at h
      obtain ⟨x, -, rfl⟩ := h
      rfl
    · exact absurd hgt h2

/-- Claim C11, the claim as stated fails. The two points have the different non-negative
SRIDs 4326 and 3857, and `ST_Distance` returns the number 5 (`0x4014000000000000`),
`ST_Contains` and `ST_Within` return 0: none reports an error. -/
theorem relations_srid_mismatch_example :
    st_distance boost_fragment
        [.text "SRID=4326;POINT(0 0)".toList, .text "SRID=3857;POINT(3 4)".toList]
      = .double 0x4014000000000000 ∧
    st_contains boost_fragment
        [.text "SRID=4326;POINT(0 0)".toList, .text "SRID=3857;POINT(3 4)".toList] = .int 0 ∧
    st_within boost_fragment
        [.text "SRID=4326;POINT(0 0)".toList, .text "SRID=3857;POINT(3 4)".toList] = .int 0 ∧
    st_contains boost_fragment
        [.text "SRID=4326;POLYGON((0 0,10 0,10 10,0 10,0 0))".toList,
         .text "SRID=3857;POINT(5 5)".toList] = .int 1 := by
  decide

/-- Claim C11, amended. The binary functions never compare SRIDs: when the two arguments
parse, the result is computed from the two variants alone (for `ST_Distance`: the number
that the library returns, or the error of the handler when the library throws), and it is
the same for any other pair of arguments with the same WKT texts, whatever their SRIDs. -/
theorem relations_ignore_srid (B : Boost) (a a2 b b2 : Str) (ga ga2 gb gb2 : GeometryWrapper)
    (ha : from_ewkt (c_str a) = some ga) (ha2 : from_ewkt (c_str a2) = some ga2)
    (hb : from_ewkt (c_str b) = some gb) (hb2 : from_ewkt (c_str b2) = some gb2)
    (hwa : ga.wkt = ga2.wkt) (hwb : gb.wkt = gb2.wkt) :
    st_distance B [.text a, .text b] = st_distance B [.text a2, .text b2] ∧
    st_intersects B [.text a, .text b] = st_intersects B [.text a2, .text b2] ∧
    st_contains B [.text a, .text b] = st_contains B [.text a2, .text b2] ∧
    st_within B [.text a, .text b] = st_within B [.text a2, .text b2] ∧
    (∀ va vb, ga.as_variant B = some va → gb.as_variant B = some vb →
      st_distance B [.text a, .text b]
        = match B.distance va vb with
          | .ok distance => .double distance
          | .error what =>
            .error ("sqlitegis: ST_Distance calculation failed: ".toList ++ what)) := by
  refine ⟨?_, ?_, ?_, ?_, ?_⟩
  · exact binary_relation_congr B _ a a2 b b2 ga ga2 gb gb2 _ ha ha2 hb hb2 hwa hwb
  · exact binary_relation_congr B _ a a2 b b2 ga ga2 gb gb2 _ ha ha2 hb hb2 hwa hwb
  · exact binary_relation_congr B _ a a2 b b2 ga ga2 gb gb2 _ ha ha2 hb hb2 hwa hwb
  · exact binary_relation_congr B _ a a2 b b2 ga ga2 gb gb2 _ ha ha2 hb hb2 hwa hwb
  · intro va vb hva hvb
    rw [st_distance, binary_relation_variants B _ a b ga gb va vb _ ha hb hva hvb]

/-- Claim C11, amended, applied to the two points with and without their SRIDs: the
distance is the same, 5. -/
theorem relations_ignore_srid_witness :
    st_distance boost_fragment
        [.text "SRID=4326;POINT(0 0)".toList, .text "SRID=3857;POINT(3 4)".toList]
      = st_distance boost_fragment [.text "POINT(0 0)".toList, .text "POINT(3 4)".toList] ∧
    st_distance boost_fragment [.text "POINT(0 0)".toList, .text "POINT(3 4)".toList]
      = .double 0x4014000000000000 :=
  ⟨(relations_ignore_srid boost_fragment "SRID=4326;POINT(0 0)".toList "POINT(0 0)".toList
      "SRID=3857;POINT(3 4)".toList "POINT(3 4)".toList
      ⟨"POINT(0 0)".toList, 4326, .XY⟩ ⟨"POINT(0 0)".toList, -1, .XY⟩
      ⟨"POINT(3 4)".toList, 3857, .XY⟩ ⟨"POINT(3 4)".toList, -1, .XY⟩
      (by decide) (by decide) (by decide) (by decide) rfl rfl).1,
    by decide⟩

/-- Claim C12. A NULL argument makes every function of the bounding-box family report the
error `Expected TEXT argument`: their helper `read_text_arg` tests for `SQLITE_TEXT` only.
The accessors, the measures, the relations and the operations test for `SQLITE_NULL`
first and return NULL. -/
theorem null_argument_results (B : Boost) (f : Int → Nat) (v : SqlValue) :
    (st_envelope B [.null] = .error "Expected TEXT argument".toList ∧
     st_extent B [.null] = .error "Expected TEXT argument".toList ∧
     st_xmin B [.null] = .error "Expected TEXT argument".toList ∧
     st_xmax B [.null] = .error "Expected TEXT argument".toList ∧
     st_ymin B [.null] = .error "Expected TEXT argument".toList ∧
     st_ymax B [.null] = .error "Expected TEXT argument".toList ∧
     st_zmin B [.null] = .error "Expected TEXT argument".toList ∧
     st_zmax B [.null] = .error "Expected TEXT argument".toList) ∧
    (st_as_text [.null] = .null ∧ st_as_ewkt [.null] = .null ∧ st_srid [.null] = .null ∧
     st_is_3d [.null] = .null ∧ st_coord_dim [.null] = .null ∧
     st_area B [.null] = .null ∧
     st_distance B [.null, v] = .null ∧ st_distance B [v, .null] = .null ∧
     st_intersects B [.null, v] = .null ∧ st_intersects B [v, .null] = .null ∧
     st_contains B [.null, v] = .null ∧ st_contains B [v, .null] = .null ∧
     st_within B [.null, v] = .null ∧ st_within B [v, .null] = .null ∧
     st_force_2d [.null] = .null ∧ st_force_3d f [.null] = .null ∧
     st_force_3d f [.null, v] = .null) := by
  refine ⟨⟨rfl, rfl, rfl, rfl, rfl, rfl, rfl, rfl⟩, ?_⟩
  simp [st_as_text, st_as_ewkt, st_srid, st_is_3d, st_coord_dim, st_area, st_distance,
    st_intersects, st_contains, st_within, binary_relation, st_force_2d, st_force_3d]

theorem result_of_bool_int (name : Str) (r : Except Str Bool) (v : Int) :
    result_of_bool name r = .int v ↔ r = .ok (decide (v = 1)) ∧ (v = 0 ∨ v = 1) := by
  cases r with
  | error e => simp [result_of_bool]
  | ok b =>
    cases b
    · simp only [result_of_bool, Bool.false_eq_true, if_false, SqlResult.int.injEq,
        Except.ok.injEq]
      constructor
      · rintro rfl
        simp
      · rintro ⟨h, h0 | h1⟩
        · exact h0.symm
        · simp [h1] at h
    · simp only [result_of_bool, if_true, SqlResult.int.injEq, Except.ok.injEq]
      constructor
      · rintro rfl
        simp
      · rintro ⟨h, h0 | h1⟩
        · simp [h0] at h
        · exact h1.symm

/-- Claim C13. When both arguments parse into variants, `ST_Contains(a, b)` and
`ST_Within(b, a)` evaluate the same call `within(b, a)` of the library when `a` is a
polygon or a multipolygon, and the constant false otherwise: they return the same integer
0 or 1, and they report an error only together, when that call throws. When `a` is neither
a Polygon nor a MultiPolygon, both return 0. -/
theorem st_contains_converse_of_st_within (B : Boost) (a b : Str) (ga gb : GeometryWrapper)
    (va vb : geometry_variant)
    (ha : from_ewkt (c_str a) = some ga) (hb : from_ewkt (c_str b) = some gb)
    (hva : ga.as_variant B = some va) (hvb : gb.as_variant B = some vb) :
    (∀ v : Int, st_contains B [.text a, .text b] = .int v
      ↔ st_within B [.text b, .text a] = .int v) ∧
    ((st_contains B [.text a, .text b]).is_error
      = (st_within B [.text b, .text a]).is_error) ∧
    ((∀ what, B.within vb va ≠ .error what) →
      st_contains B [.text a, .text b] = .int 0 ∨ st_contains B [.text a, .text b] = .int 1) ∧
    (ga.geometry_type ≠ .Polygon → ga.geometry_type ≠ .MultiPolygon →
      st_contains B [.text a, .text b] = .int 0 ∧ st_within B [.text b, .text a] = .int 0) := by
  have ec : st_contains B [.text a, .text b] = result_of_bool "ST_Contains".toList
      (if va.is_areal then B.within vb va else .ok false) := by
    simp only [st_contains, binary_relation_variants B _ a b ga gb va vb _ ha hb hva hvb]
  have ew : st_within B [.text b, .text a] = result_of_bool "ST_Within".toList
      (if va.is_areal then B.within vb va else .ok false) := by
    simp only [st_within, binary_relation_variants B _ b a gb ga vb va _ hb ha hvb hva]
  rw [ec, ew]
  refine ⟨fun v => ?_, ?_, ?_, ?_⟩
  · rw [result_of_bool_int, result_of_bool_int]
  · cases (if va.is_areal then B.within vb va else .ok false) <;> rfl
  · intro hno
    cases hr : (if va.is_areal = true then B.within vb va else Except.ok false) with
    | error e =>
      split at hr
      · exact absurd hr (hno e)
      · exact absurd hr (by simp)
    | ok r => cases r <;> simp [result_of_bool]
  · intro h1 h2
    rw [as_variant_is_areal B ga va hva h1 h2]
    exact ⟨rfl, rfl⟩

/-- Claim C13 applied to the square and the point (5, 5): `ST_Contains(square, point)` and
`ST_Within(point, square)` agree, and the value is 1. -/
theorem st_contains_converse_of_st_within_witness :
    (∀ v : Int,
      st_contains boost_fragment
          [.text "POLYGON((0 0,10 0,10 10,0 10,0 0))".toList, .text "POINT(5 5)".toList]
        = .int v
      ↔ st_within boost_fragment
          [.text "POINT(5 5)".toList, .text "POLYGON((0 0,10 0,10 10,0 10,0 0))".toList]
        = .int v) ∧
    st_contains boost_fragment
        [.text "POLYGON((0 0,10 0,10 10,0 10,0 0))".toList, .text "POINT(5 5)".toList]
      = .int 1 :=
  ⟨(st_contains_converse_of_st_within boost_fragment
      "POLYGON((0 0,10 0,10 10,0 10,0 0))".toList "POINT(5 5)".toList
      ⟨"POLYGON((0 0,10 0,10 10,0 10,0 0))".toList, -1, .XY⟩ ⟨"POINT(5 5)".toList, -1, .XY⟩
      (.polygon square_ccw) (.point (0x4014000000000000, 0x4014000000000000))
      (by decide) (by decide) (by decide) (by decide)).1,
    by decide⟩

theorem st_area_polygon (B : Boost) (text : Str) (geom : GeometryWrapper) (p : polygon_t)
    (v : Nat) (hparse : from_ewkt (c_str text) = some geom)
    (htype : geom.geometry_type = .Polygon) (hread : geom.as B.polygon = some p)
    (harea : B.area p = .ok v) : st_area B [.text text] = .double v := by
  simp [st_area, read_text_arg, hparse, htype, hread, harea]

theorem polygon_area_square_ccw : polygon_area square_ccw = 0xC059000000000000 := by
  decide!

theorem polygon_area_square_cw : polygon_area square_cw = 0x4059000000000000 := by
  decide!

/-- Claim C14. `ST_Area` returns the number that `boost::geometry::area` returns for the
polygon as read, without any correction of the ring order: for a library that reads the
two texts as the two squares and whose area is the algorithm of Boost.Geometry, the
counter-clockwise square `POLYGON((0 0,10 0,10 10,0 10,0 0))` has the area -100
(`0xC059000000000000`), which is not `>= 0`, and the clockwise square has the area 100. -/
theorem st_area_counter_clockwise (B : Boost)
    (hccw : B.polygon "POLYGON((0 0,10 0,10 10,0 10,0 0))".toList = some square_ccw)
    (hcw : B.polygon "POLYGON((0 0,0 10,10 10,10 0,0 0))".toList = some square_cw)
    (harea : ∀ p, B.area p = .ok (polygon_area p)) :
    st_area B [.text "POLYGON((0 0,10 0,10 10,0 10,0 0))".toList]
      = .double 0xC059000000000000 ∧
    fp_nonneg 0xC059000000000000 = false ∧
    st_area B [.text "POLYGON((0 0,0 10,10 10,10 0,0 0))".toList]
      = .double 0x4059000000000000 := by
  refine ⟨?_, by decide, ?_⟩
  · refine st_area_polygon B _ ⟨"POLYGON((0 0,10 0,10 10,0 10,0 0))".toList, -1, .XY⟩
      square_ccw _ (by decide) (by decide) ?_ ?_
    · rw [GeometryWrapper.as, if_neg (by decide)]
      exact hccw
    · rw [harea, polygon_area_square_ccw]
  · refine st_area_polygon B _ ⟨"POLYGON((0 0,0 10,10 10,10 0,0 0))".toList, -1, .XY⟩
      square_cw _ (by decide) (by decide) ?_ ?_
    · rw [GeometryWrapper.as, if_neg (by decide)]
      exact hcw
    · rw [harea, polygon_area_square_cw]

/-- Claim C14 applied to the fragment of the library. -/
theorem st_area_counter_clockwise_witness :
    st_area boost_fragment [.text "POLYGON((0 0,10 0,10 10,0 10,0 0))".toList]
      = .double 0xC059000000000000 :=
  (st_area_counter_clockwise boost_fragment (by decide) (by decide) (fun _ => rfl)).1

/-! ## Aggregates -/

theorem collect_step_reset (c : CollectContext)
    (hc : c.geometries ≠ [] ∨ c.srid ≠ -1 ∨ c = CollectContext.constructed) :
    (if (aggregate_context (some c)).geometries.isEmpty
        ∧ (aggregate_context (some c)).srid = -1
      then CollectContext.constructed else aggregate_context (some c)) = c := by
  rcases hc with hc | hc | hc
  · simp [aggregate_context, hc]
  · simp [aggregate_context, hc]
  · subst hc
    simp [aggregate_context]

theorem collect_step_rejected (name : Str) (to_text : SqlValue → Str) (c : CollectContext)
    (text : Str) (hc : c.geometries ≠ [] ∨ c.srid ≠ -1 ∨ c = CollectContext.constructed)
    (hp : from_ewkt (c_str text) = none) :
    collect_step name to_text (some c) [.text text]
      = some { c with has_error := true,
                      error_message := "Invalid geometry in ".toList ++ name } := by
  simp only [collect_step, collect_step_reset c hc, value_text, hp]
  simp

theorem collect_step_parsed (name : Str) (to_text : SqlValue → Str) (c : CollectContext)
    (text : Str) (geom : GeometryWrapper)
    (hc : c.geometries ≠ [] ∨ c.srid ≠ -1 ∨ c = CollectContext.constructed)
    (hp : from_ewkt (c_str text) = some geom) :
    collect_step name to_text (some c) [.text text]
      = if c.srid = -1 then
          some { c with srid := geom.srid, geometries := c.geometries ++ [geom] }
        else if c.srid ≠ geom.srid then
          some { c with has_error := true,
                        error_message := "Mixed SRIDs in ".toList ++ name }
        else some { c with geometries := c.geometries ++ [geom] } := by
  simp only [collect_step, collect_step_reset c hc, value_text, hp]
  simp

/-- Claim C15. From a context whose group SRID is a value other than -1, a step with a
geometry whose SRID is -1 marks the context failed with `Mixed SRIDs in ...` and does not
accumulate the geometry. The failure depends on the order of the rows: from a context as
the constructor builds it, the rows `POINT(1 1)`, `SRID=4326;POINT(0 0)` are both
accumulated, and the same rows in the other order leave the context failed. -/
theorem collect_step_undefined_srid :
    (∀ (name : Str) (to_text : SqlValue → Str) (c : CollectContext) (text : Str)
        (geom : GeometryWrapper),
      c.srid ≠ -1 → from_ewkt (c_str text) = some geom → geom.srid = -1 →
      collect_step name to_text (some c) [.text text]
        = some { c with has_error := true,
                        error_message := "Mixed SRIDs in ".toList ++ name }) ∧
    (∀ to_text : SqlValue → Str,
      st_collect_step to_text
          (st_collect_step to_text (some CollectContext.constructed)
            [.text "POINT(1 1)".toList])
          [.text "SRID=4326;POINT(0 0)".toList]
        = some ⟨[⟨"POINT(1 1)".toList, -1, .XY⟩, ⟨"POINT(0 0)".toList, 4326, .XY⟩],
            4326, false, []⟩ ∧
      st_collect_step to_text
          (st_collect_step to_text (some CollectContext.constructed)
            [.text "SRID=4326;POINT(0 0)".toList])
          [.text "POINT(1 1)".toList]
        = some ⟨[⟨"POINT(0 0)".toList, 4326, .XY⟩], 4326, true,
            "Mixed SRIDs in ST_Collect".toList⟩) := by
  have p1 : from_ewkt (c_str "POINT(1 1)".toList) = some ⟨"POINT(1 1)".toList, -1, .XY⟩ := by
    decide
  have p2 : from_ewkt (c_str "SRID=4326;POINT(0 0)".toList)
      = some ⟨"POINT(0 0)".toList, 4326, .XY⟩ := by decide
  refine ⟨?_, fun to_text => ⟨?_, ?_⟩⟩
  · intro name to_text c text geom hc hg hs
    rw [collect_step_parsed name to_text c text geom (Or.inr (Or.inl hc)) hg, if_neg hc,
      if_pos (by rw [hs]; exact hc)]
  · rw [st_collect_step, st_collect_step,
      collect_step_parsed _ to_text _ _ _ (Or.inr (Or.inr rfl)) p1]
    simp only [CollectContext.constructed, if_true]
    rw [collect_step_parsed _ to_text _ _ _ (Or.inl (by decide)) p2]
    rfl
  · rw [st_collect_step, st_collect_step,
      collect_step_parsed _ to_text _ _ _ (Or.inr (Or.inr rfl)) p2]
    simp only [CollectContext.constructed, if_true]
    rw [collect_step_parsed _ to_text _ _ _ (Or.inl (by decide)) p1]
    rfl

theorem collect_step_keeps_failure (name : Str) (to_text : SqlValue → Str)
    (c : CollectContext) (argv : List SqlValue)
    (herr : c.has_error = true) (hne : c.geometries ≠ []) :
    ∃ c2, collect_step name to_text (some c) argv = some c2 ∧ c2.has_error = true ∧
      c2.geometries ≠ [] := by
  have hreset : (if (aggregate_context (some c)).geometries.isEmpty
        ∧ (aggregate_context (some c)).srid = -1
      then CollectContext.constructed else aggregate_context (some c)) = c := by
    simp [aggregate_context, hne]
  unfold collect_step
  split
  · simp only [hreset]
    split
    · exact ⟨c, rfl, herr, hne⟩
    · split
      · exact ⟨_, rfl, rfl, hne⟩
      · split
        · exact ⟨_, rfl, herr, by simp⟩
        · split
          · exact ⟨_, rfl, rfl, hne⟩
          · exact ⟨_, rfl, herr, by simp⟩
  · exact ⟨c, rfl, herr, hne⟩

theorem final_of_failure (B : Boost) (c : CollectContext)
    (herr : c.has_error = true) (hne : c.geometries ≠ []) :
    st_collect_final (some c) = .error (c_str c.error_message) ∧
    st_union_final B (some c) = .error (c_str c.error_message) ∧
    st_convexhull_agg_final B (some c) = .error (c_str c.error_message) := by
  cases hg : c.geometries with
  | nil => exact absurd hg hne
  | cons g gs => simp [st_collect_final, st_union_final, st_convexhull_agg_final, hg, herr]

/-- Claim C16. A group whose only row is a text that `from_ewkt` rejects: the step sets the
failure flag, and each of the three final functions emits NULL, because it tests for an
empty geometry list before it tests the flag. The flag is not sticky either: from a context
as the constructor builds it, the step after a rejected first row runs the constructor
again, the flag is cleared and the final function returns a geometry. The flag does stay
set, and the final functions do report the stored error, once a geometry has been
accumulated. -/
theorem aggregate_failure_lost :
    (∀ (to_text : SqlValue → Str) (B : Boost),
      (st_collect_step to_text none [.text "SRID=99999999999;POINT(0 0)".toList]).map
          (fun c => (c.has_error, c.geometries)) = some (true, []) ∧
      aggregate (st_collect_step to_text) st_collect_final
          [.text "SRID=99999999999;POINT(0 0)".toList] = .null ∧
      aggregate (st_union_step to_text) (st_union_final B)
          [.text "SRID=99999999999;POINT(0 0)".toList] = .null ∧
      aggregate (st_convexhull_agg_step to_text) (st_convexhull_agg_final B)
          [.text "SRID=99999999999;POINT(0 0)".toList] = .null) ∧
    (∀ to_text : SqlValue → Str,
      st_collect_step to_text (some CollectContext.constructed)
          [.text "SRID=99999999999;POINT(0 0)".toList]
        = some ⟨[], -1, true, "Invalid geometry in ST_Collect".toList⟩ ∧
      st_collect_step to_text (some ⟨[], -1, true, "Invalid geometry in ST_Collect".toList⟩)
          [.text "POINT(1 2)".toList]
        = some ⟨[⟨"POINT(1 2)".toList, -1, .XY⟩], -1, false, []⟩ ∧
      st_collect_final (some ⟨[⟨"POINT(1 2)".toList, -1, .XY⟩], -1, false, []⟩)
        = .text "SRID=-1;MULTIPOINT(1 2)".toList) ∧
    (∀ (name : Str) (to_text : SqlValue → Str) (B : Boost) (c : CollectContext)
        (argv : List SqlValue),
      c.has_error = true → c.geometries ≠ [] →
      (∃ c2, collect_step name to_text (some c) argv = some c2 ∧ c2.has_error = true ∧
        c2.geometries ≠ []) ∧
      st_collect_final (some c) = .error (c_str c.error_message) ∧
      st_union_final B (some c) = .error (c_str c.error_message) ∧
      st_convexhull_agg_final B (some c) = .error (c_str c.error_message)) := by
  have bad : from_ewkt (c_str "SRID=99999999999;POINT(0 0)".toList) = none := by decide
  have good : from_ewkt (c_str "POINT(1 2)".toList) = some ⟨"POINT(1 2)".toList, -1, .XY⟩ := by
    decide
  have step0 : ∀ (name : Str) (to_text : SqlValue → Str),
      collect_step name to_text none [.text "SRID=99999999999;POINT(0 0)".toList]
        = some ⟨[], 0, true, "Invalid geometry in ".toList ++ name⟩ := by
    intro name to_text
    exact collect_step_rejected name to_text CollectContext.zeroed
      "SRID=99999999999;POINT(0 0)".toList (Or.inr (Or.inl (by decide))) bad
  refine ⟨fun to_text B => ⟨?_, ?_, ?_, ?_⟩, fun to_text => ⟨?_, ?_, by decide⟩,
    fun name to_text B c argv herr hne =>
      ⟨collect_step_keeps_failure name to_text c argv herr hne, final_of_failure B c herr hne⟩⟩
  · rw [st_collect_step, step0]
    rfl
  · simp only [aggregate, List.foldl, st_collect_step, step0]
    rfl
  · simp only [aggregate, List.foldl, st_union_step, step0]
    rfl
  · simp only [aggregate, List.foldl, st_convexhull_agg_step, step0]
    rfl
  · rw [st_collect_step, collect_step_rejected _ to_text _ _ (Or.inr (Or.inr rfl)) bad]
    rfl
  · have h : ∀ c : CollectContext, c.geometries = [] → c.srid = -1 →
        collect_step "ST_Collect".toList to_text (some c) [.text "POINT(1 2)".toList]
          = some ⟨[⟨"POINT(1 2)".toList, -1, .XY⟩], -1, false, []⟩ := by
      intro c hg hs
      simp only [collect_step, aggregate_context, Option.getD_some, hg, hs, List.isEmpty_nil,
        and_self, if_true, value_text, good]
      simp [CollectContext.constructed]
    exact h _ rfl rfl

theorem members_loop_succ (piece : GeometryWrapper → Str) (gs : List GeometryWrapper)
    (i : Nat) :
    members_loop piece (i + 1) gs = (gs.map (fun g => ", ".toList ++ piece g)).flatten := by
  induction gs generalizing i with
  | nil => rfl
  | cons g gs ih =>
    rw [members_loop, if_pos (Nat.succ_pos i), ih (i + 1)]
    simp

theorem intercalate_cons (sep x : Str) (xs : List Str) :
    sep.intercalate (x :: xs) = x ++ (xs.map (fun y => sep ++ y)).flatten := by
  induction xs generalizing x with
  | nil => simp [List.intercalate]
  | cons y ys ih =>
    have h := ih y
    simp only [List.intercalate, List.intersperse, List.flatten_cons, List.map_cons] at h ⊢
    rw [h, List.append_assoc]

theorem members_loop_zero (piece : GeometryWrapper → Str) (gs : List GeometryWrapper) :
    members_loop piece 0 gs = join_members (gs.map piece) := by
  cases gs with
  | nil => rfl
  | cons g gs =>
    rw [members_loop, if_neg (by decide), members_loop_succ, join_members, List.map_cons,
      intercalate_cons, List.map_map]
    rfl

theorem all_same_type (T : GeometryType) (first : GeometryWrapper)
    (rest : List GeometryWrapper) :
    (first :: rest).all (fun g => g.geometry_type == T)
      = ((first :: rest).all (fun g => g.geometry_type == first.geometry_type)
          && first.geometry_type == T) := by
  by_cases h : first.geometry_type = T
  · subst h
    simp
  · have h2 : (first.geometry_type == T) = false := by simpa using h
    simp [h2]

/-- Claim C17. For a context with at least one geometry and no failure, `st_collect_final`
returns the text `SRID=<srid>;` followed by the reduction of the members in input order:
a MULTIPOINT of the coordinate texts when every member is a Point, a MULTILINESTRING or a
MULTIPOLYGON of the parenthesised coordinate texts when every member is a LineString or a
Polygon, and otherwise a GEOMETRYCOLLECTION of the members' WKT. (The text is handed to the
host as a C string.) -/
theorem st_collect_final_reduction (c : CollectContext) (hne : c.geometries ≠ [])
    (hok : c.has_error = false) :
    st_collect_final (some c)
      = .text (c_str ("SRID=".toList ++ to_string_int c.srid ++ ";".toList
          ++ collect_reduction c.geometries)) := by
  cases hg : c.geometries with
  | nil => exact absurd hg hne
  | cons first rest =>
    have hP := all_same_type .Point first rest
    have hL := all_same_type .LineString first rest
    have hG := all_same_type .Polygon first rest
    simp only [st_collect_final, hg, hok, members_loop_zero, collect_reduction, hP, hL, hG]
    cases hs : (first :: rest).all (fun g => g.geometry_type == first.geometry_type) <;>
      cases ht : first.geometry_type <;>
      simp [GeometryWrapper.to_ewkt, hs, ht] <;> rfl

/-- Claim C17 applied to two points, and the results for two line strings and for a point
with a line string. -/
theorem st_collect_final_reduction_witness :
    st_collect_final (some ⟨[⟨"POINT(1 2)".toList, 4326, .XY⟩,
        ⟨"POINT(3 4)".toList, 4326, .XY⟩], 4326, false, []⟩)
      = .text "SRID=4326;MULTIPOINT(1 2, 3 4)".toList ∧
    st_collect_final (some ⟨[⟨"LINESTRING(0 0, 1 1)".toList, 4326, .XY⟩,
        ⟨"LINESTRING(2 2, 3 3)".toList, 4326, .XY⟩], 4326, false, []⟩)
      = .text "SRID=4326;MULTILINESTRING((0 0, 1 1), (2 2, 3 3))".toList ∧
    st_collect_final (some ⟨[⟨"POINT(1 2)".toList, 4326, .XY⟩,
        ⟨"LINESTRING(2 2, 3 3)".toList, 4326, .XY⟩], 4326, false, []⟩)
      = .text "SRID=4326;GEOMETRYCOLLECTION(POINT(1 2), LINESTRING(2 2, 3 3))".toList :=
  ⟨(st_collect_final_reduction ⟨[⟨"POINT(1 2)".toList, 4326, .XY⟩,
      ⟨"POINT(3 4)".toList, 4326, .XY⟩], 4326, false, []⟩ (by decide) rfl).trans (by decide),
    by decide, by decide⟩

/-! ## Forcing the dimension -/

theorem force_2d_frame (V : GeometryWrapper) :
    V.force_2d.dimension = .XY ∧ V.force_2d.srid = V.srid ∧
      (V.dimension = .XY → V.force_2d = V) := by
  cases V with
  | mk w s d => cases d <;> simp [GeometryWrapper.force_2d]

/-- Claim C18. `force_2d` yields dimension XY and keeps the SRID, and returns an XY value
unchanged; for `POINT Z (1 2 3)` its text is `POINT (1 2)`. But for `POINT Z (1 2 3e5)`,
which `from_ewkt` reads as an XYZ value, the text that it yields is `POINT (1 2e5)`: the
coordinate pattern matches `1 2 3` and leaves the exponent behind, so y changes from 2 to
200000. -/
theorem force_2d_exponent :
    (∀ V : GeometryWrapper, V.force_2d.dimension = .XY ∧ V.force_2d.srid = V.srid ∧
      (V.dimension = .XY → V.force_2d = V)) ∧
    GeometryWrapper.force_2d ⟨"POINT Z (1 2 3)".toList, -1, .XYZ⟩
      = ⟨"POINT (1 2)".toList, -1, .XY⟩ ∧
    from_ewkt "POINT Z (1 2 3e5)".toList = some ⟨"POINT Z (1 2 3e5)".toList, -1, .XYZ⟩ ∧
    GeometryWrapper.force_2d ⟨"POINT Z (1 2 3e5)".toList, -1, .XYZ⟩
      = ⟨"POINT (1 2e5)".toList, -1, .XY⟩ ∧
    st_force_2d [.text "POINT Z (1 2 3e5)".toList] = .text "SRID=-1;POINT (1 2e5)".toList :=
  ⟨force_2d_frame, by decide, by decide, by decide, by decide⟩

/-- Claim C19. `force_3d` returns a value that has Z unchanged; from an XY value it yields
dimension XYZ and from an XYM value dimension XYZM, with the SRID kept; applying it a
second time, with any default, changes nothing. -/
theorem force_3d_frame (V : GeometryWrapper) (z z2 : Nat) :
    (V.is_3d = true → V.force_3d z = V) ∧
    (V.dimension = .XY → (V.force_3d z).srid = V.srid ∧ (V.force_3d z).dimension = .XYZ) ∧
    (V.dimension = .XYM → (V.force_3d z).srid = V.srid ∧ (V.force_3d z).dimension = .XYZM) ∧
    (V.force_3d z).force_3d z2 = V.force_3d z := by
  cases V with
  | mk w s d => cases d <;> simp [GeometryWrapper.force_3d, GeometryWrapper.is_3d]

set_option exponentiation.threshold 2048 in
/-- Claim C19 applied to an XY point, an XYM point and an XYZ point, with the default 5. -/
theorem force_3d_frame_witness :
    (GeometryWrapper.force_3d ⟨"POINT (1 2)".toList, 4326, .XY⟩ 0x4014000000000000
        = ⟨"POINT Z (1 2 5.000000)".toList, 4326, .XYZ⟩) ∧
    (GeometryWrapper.force_3d ⟨"POINT M (1 2 3)".toList, 4326, .XYM⟩ 0x4014000000000000
        = ⟨"POINT ZM (1 2 5.000000 3)".toList, 4326, .XYZM⟩) ∧
    (GeometryWrapper.is_3d ⟨"POINT Z (1 2 3)".toList, 4326, .XYZ⟩ = true →
      GeometryWrapper.force_3d ⟨"POINT Z (1 2 3)".toList, 4326, .XYZ⟩ 0
        = ⟨"POINT Z (1 2 3)".toList, 4326, .XYZ⟩) ∧
    (GeometryWrapper.force_3d ⟨"POINT (1 2)".toList, 4326, .XY⟩ 0x4014000000000000).force_3d 0
      = GeometryWrapper.force_3d ⟨"POINT (1 2)".toList, 4326, .XY⟩ 0x4014000000000000 :=
  ⟨by decide, by decide,
    (force_3d_frame ⟨"POINT Z (1 2 3)".toList, 4326, .XYZ⟩ 0 0).1,
    (force_3d_frame ⟨"POINT (1 2)".toList, 4326, .XY⟩ 0x4014000000000000 0).2.2.2⟩

set_option exponentiation.threshold 2048 in
/-- Claim C20. `ST_Force3D` of `SRID=4326;POINT(1 2)` returns the text
`SRID=4326;POINT Z(1 2 0.000000)`, with no white space between the tag and the
parenthesis; `from_ewkt` reads that text as an XY value, so `ST_Is3D` of it is 0 and
`ST_CoordDim` of it is 2. With white space before the parenthesis in the input the tag is
followed by white space and the value read back is XYZ. -/
theorem force_3d_text_loses_dimension :
    (∀ f : Int → Nat, st_force_3d f [.text "SRID=4326;POINT(1 2)".toList]
      = .text "SRID=4326;POINT Z(1 2 0.000000)".toList) ∧
    from_ewkt "SRID=4326;POINT(1 2)".toList = some ⟨"POINT(1 2)".toList, 4326, .XY⟩ ∧
    GeometryWrapper.force_3d ⟨"POINT(1 2)".toList, 4326, .XY⟩ 0
      = ⟨"POINT Z(1 2 0.000000)".toList, 4326, .XYZ⟩ ∧
    from_ewkt "SRID=4326;POINT Z(1 2 0.000000)".toList
      = some ⟨"POINT Z(1 2 0.000000)".toList, 4326, .XY⟩ ∧
    st_is_3d [.text "SRID=4326;POINT Z(1 2 0.000000)".toList] = .int 0 ∧
    st_coord_dim [.text "SRID=4326;POINT Z(1 2 0.000000)".toList] = .int 2 ∧
    (from_ewkt (GeometryWrapper.force_3d ⟨"POINT (1 2)".toList, 4326, .XY⟩ 0).to_ewkt).map
      (fun g => g.dimension) = some .XYZ := by
  refine ⟨fun f => ?_, by decide, by decide, by decide, by decide, by decide, by decide⟩
  have e : st_force_3d_with "SRID=4326;POINT(1 2)".toList 0
      = .text "SRID=4326;POINT Z(1 2 0.000000)".toList := by decide
  have e2 : read_text_arg (.text "SRID=4326;POINT(1 2)".toList)
      = some "SRID=4326;POINT(1 2)".toList := by decide
  simp only [st_force_3d, e2, e]
  rfl

/-! ## Variant identification and emission -/

theorem find_at_zero_iff (s p : Str) : find_at_zero s p = true ↔ ∃ rest, s = p ++ rest := by
  induction p generalizing s with
  | nil => cases s <;> simp [find_at_zero]
  | cons d p ih =>
    cases s with
    | nil => simp [find_at_zero]
    | cons c s =>
      simp only [find_at_zero, Bool.and_eq_true, beq_iff_eq, ih, List.cons_append,
        List.cons.injEq]
      constructor
      · rintro ⟨h, rest, hr⟩
        exact ⟨rest, h, hr⟩
      · rintro ⟨rest, h, hr⟩
        exact ⟨h, rest, hr⟩

theorem geometry_type_of_keyword (V : GeometryWrapper) (kw : Str) (T : GeometryType)
    (hk : (kw, T) ∈ variant_keywords) (hs : starts_with_keyword kw V.wkt) :
    V.geometry_type = T := by
  obtain ⟨rest, hr⟩ := hs
  have hne : V.wkt.isEmpty = false := by
    cases hw : V.wkt with
    | nil =>
      rw [hw] at hr
      simp only [variant_keywords, List.mem_cons, Prod.mk.injEq, List.mem_singleton,
        List.not_mem_nil, or_false] at hk
      rcases hk with ⟨rfl, -⟩ | ⟨rfl, -⟩ | ⟨rfl, -⟩ | ⟨rfl, -⟩ | ⟨rfl, -⟩ | ⟨rfl, -⟩ <;>
        simp [to_upper] at hr
    | cons _ _ => rfl
  simp only [variant_keywords, List.mem_cons, Prod.mk.injEq, List.mem_singleton,
    List.not_mem_nil, or_false] at hk
  rcases hk with ⟨rfl, rfl⟩ | ⟨rfl, rfl⟩ | ⟨rfl, rfl⟩ | ⟨rfl, rfl⟩ | ⟨rfl, rfl⟩ | ⟨rfl, rfl⟩ <;>
    simp [GeometryWrapper.geometry_type, hne, hr, find_at_zero]

theorem geometry_type_unknown_iff (V : GeometryWrapper) :
    V.geometry_type = .Unknown
      ↔ ∀ kw T, (kw, T) ∈ variant_keywords → ¬ starts_with_keyword kw V.wkt := by
  constructor
  · intro hu kw T hk hs
    have h := geometry_type_of_keyword V kw T hk hs
    rw [hu] at h
    subst h
    simp [variant_keywords] at hk
  · intro hno
    have h1 := hno _ _ (show ("MULTIPOLYGON".toList, GeometryType.MultiPolygon)
      ∈ variant_keywords by simp [variant_keywords])
    have h2 := hno _ _ (show ("MULTILINESTRING".toList, GeometryType.MultiLineString)
      ∈ variant_keywords by simp [variant_keywords])
    have h3 := hno _ _ (show ("MULTIPOINT".toList, GeometryType.MultiPoint)
      ∈ variant_keywords by simp [variant_keywords])
    have h4 := hno _ _ (show ("POLYGON".toList, GeometryType.Polygon)
      ∈ variant_keywords by simp [variant_keywords])
    have h5 := hno _ _ (show ("LINESTRING".toList, GeometryType.LineString)
      ∈ variant_keywords by simp [variant_keywords])
    have h6 := hno _ _ (show ("POINT".toList, GeometryType.Point)
      ∈ variant_keywords by simp [variant_keywords])
    simp only [starts_with_keyword, ← find_at_zero_iff, Bool.not_eq_true] at h1 h2 h3 h4 h5 h6
    simp only [GeometryWrapper.geometry_type, h1, h2, h3, h4, h5, h6]
    simp

/-- Claim C25, the claim as stated fails. A text that begins with `GEOMETRYCOLLECTION` is
classified as Unknown. -/
theorem geometry_type_collection_unknown :
    GeometryWrapper.geometry_type ⟨"GEOMETRYCOLLECTION(POINT(1 2))".toList, -1, .XY⟩
      = .Unknown := by
  decide

/-- Claim C25, amended. For each of the six keywords that `GeometryType` has a member for,
a text that begins with the keyword in any letter case is classified as that member (no
keyword of the six begins another, so MULTIPOLYGON, MULTILINESTRING and MULTIPOINT are
never classified as Polygon, LineString or Point); a text is classified as Unknown exactly
when none of the six keywords begins it, and so is every text that begins with
`GEOMETRYCOLLECTION`. -/
theorem geometry_type_identification (V : GeometryWrapper) :
    (∀ kw T, (kw, T) ∈ variant_keywords → starts_with_keyword kw V.wkt →
      V.geometry_type = T) ∧
    (V.geometry_type = .Unknown
      ↔ ∀ kw T, (kw, T) ∈ variant_keywords → ¬ starts_with_keyword kw V.wkt) ∧
    (starts_with_keyword "GEOMETRYCOLLECTION".toList V.wkt → V.geometry_type = .Unknown) := by
  refine ⟨geometry_type_of_keyword V, geometry_type_unknown_iff V, ?_⟩
  rintro ⟨rest, hr⟩
  rw [geometry_type_unknown_iff]
  rintro kw T hk ⟨rest2, hr2⟩
  rw [hr] at hr2
  simp only [variant_keywords, List.mem_cons, Prod.mk.injEq, List.mem_singleton,
    List.not_mem_nil, or_false] at hk
  rcases hk with ⟨rfl, -⟩ | ⟨rfl, -⟩ | ⟨rfl, -⟩ | ⟨rfl, -⟩ | ⟨rfl, -⟩ | ⟨rfl, -⟩ <;>
    simp at hr2

/-- Claim C25, amended, applied to `multipolygon(((0 0,0 1,1 1,0 0)))` in small letters. -/
theorem geometry_type_identification_witness :
    GeometryWrapper.geometry_type ⟨"multipolygon(((0 0,0 1,1 1,0 0)))".toList, -1, .XY⟩
      = .MultiPolygon :=
  (geometry_type_identification ⟨"multipolygon(((0 0,0 1,1 1,0 0)))".toList, -1, .XY⟩).1
    "MULTIPOLYGON".toList .MultiPolygon (by simp [variant_keywords])
    ⟨"(((0 0,0 1,1 1,0 0)))".toList, by decide⟩

/-- Claim C26, the claim as stated fails. For the value of the default constructor (empty
text, SRID -1) `to_ewkt` returns the empty string, without the prefix. -/
theorem to_ewkt_of_empty :
    GeometryWrapper.to_ewkt ⟨[], -1, .XY⟩ = [] ∧
    GeometryWrapper.to_ewkt ⟨[], -1, .XY⟩
      ≠ "SRID=".toList ++ to_string_int (-1) ++ ";".toList
          ++ GeometryWrapper.to_wkt ⟨[], -1, .XY⟩ := by
  decide

/-- Claim C26, amended. For every value whose WKT text is not empty, `to_ewkt` is `SRID=`,
the decimal rendering of the SRID (also for -1), `;` and the WKT text; for a value whose
WKT text is empty it is the empty string. -/
theorem to_ewkt_form (V : GeometryWrapper) :
    (V.wkt ≠ [] →
      V.to_ewkt = "SRID=".toList ++ to_string_int V.srid ++ ";".toList ++ V.to_wkt) ∧
    (V.wkt = [] → V.to_ewkt = []) := by
  constructor
  · intro h
    have hemp : V.wkt.isEmpty = false := by
      cases hw : V.wkt with
      | nil => exact absurd hw h
      | cons _ _ => rfl
    simp [GeometryWrapper.to_ewkt, GeometryWrapper.to_wkt, hemp]
  · intro h
    simp [GeometryWrapper.to_ewkt, h]

/-- Claim C26, amended, applied to `POINT(1 2)` with the SRIDs -1 and 4326. -/
theorem to_ewkt_form_witness :
    GeometryWrapper.to_ewkt ⟨"POINT(1 2)".toList, -1, .XY⟩ = "SRID=-1;POINT(1 2)".toList ∧
    GeometryWrapper.to_ewkt ⟨"POINT(1 2)".toList, 4326, .XY⟩
      = "SRID=4326;POINT(1 2)".toList :=
  ⟨((to_ewkt_form ⟨"POINT(1 2)".toList, -1, .XY⟩).1 (by decide)).trans (by decide),
    by decide⟩

/-- Claim C27. On the zero-filled region the field `srid` is 0, so the test
`geometries.empty() && srid == -1` of "Initialize context on first call" fails and the
constructor does not run: a first valid geometry whose SRID is not 0 takes the branch
`srid != geom.srid()`, the context is marked failed and the geometry is not accumulated.
This happens for `SRID=4326;POINT(0 0)` and for `POINT(0 0)` (SRID -1), in each of the
three step functions; only a geometry with SRID 0 is accumulated. -/
theorem first_step_on_zeroed_region :
    (∀ (name : Str) (to_text : SqlValue → Str) (text : Str) (geom : GeometryWrapper),
      from_ewkt (c_str text) = some geom →
      (geom.srid ≠ 0 →
        collect_step name to_text none [.text text]
          = some ⟨[], 0, true, "Mixed SRIDs in ".toList ++ name⟩) ∧
      (geom.srid = 0 →
        collect_step name to_text none [.text text] = some ⟨[geom], 0, false, []⟩)) ∧
    (∀ to_text : SqlValue → Str,
      st_collect_step to_text none [.text "SRID=4326;POINT(0 0)".toList]
        = some ⟨[], 0, true, "Mixed SRIDs in ST_Collect".toList⟩ ∧
      st_collect_step to_text none [.text "POINT(0 0)".toList]
        = some ⟨[], 0, true, "Mixed SRIDs in ST_Collect".toList⟩ ∧
      st_union_step to_text none [.text "SRID=4326;POINT(0 0)".toList]
        = some ⟨[], 0, true, "Mixed SRIDs in ST_Union".toList⟩ ∧
      st_convexhull_agg_step to_text none [.text "SRID=4326;POINT(0 0)".toList]
        = some ⟨[], 0, true, "Mixed SRIDs in ST_ConvexHull_Agg".toList⟩ ∧
      aggregate (st_collect_step to_text) st_collect_final
        [.text "SRID=4326;POINT(0 0)".toList] = .null) := by
  have general : ∀ (name : Str) (to_text : SqlValue → Str) (text : Str)
      (geom : GeometryWrapper), from_ewkt (c_str text) = some geom →
      (geom.srid ≠ 0 →
        collect_step name to_text none [.text text]
          = some ⟨[], 0, true, "Mixed SRIDs in ".toList ++ name⟩) ∧
      (geom.srid = 0 →
        collect_step name to_text none [.text text] = some ⟨[geom], 0, false, []⟩) := by
    intro name to_text text geom hp
    have h := collect_step_parsed name to_text CollectContext.zeroed text geom
      (Or.inr (Or.inl (by decide))) hp
    have h0 : collect_step name to_text none [.text text]
        = collect_step name to_text (some CollectContext.zeroed) [.text text] := rfl
    rw [h0, h]
    constructor
    · intro hs
      rw [if_neg (by decide), if_pos (by intro e; exact hs e.symm)]
      rfl
    · intro hs
      rw [if_neg (by decide), if_neg (by intro e; exact e hs.symm)]
      rfl
  have p1 : from_ewkt (c_str "SRID=4326;POINT(0 0)".toList)
      = some ⟨"POINT(0 0)".toList, 4326, .XY⟩ := by decide
  have p2 : from_ewkt (c_str "POINT(0 0)".toList) = some ⟨"POINT(0 0)".toList, -1, .XY⟩ := by
    decide
  refine ⟨general, fun to_text => ⟨?_, ?_, ?_, ?_, ?_⟩⟩
  · exact (general _ to_text _ _ p1).1 (by decide)
  · exact (general _ to_text _ _ p2).1 (by decide)
  · exact (general _ to_text _ _ p1).1 (by decide)
  · exact (general _ to_text _ _ p1).1 (by decide)
  · have h := (general "ST_Collect".toList to_text _ _ p1).1 (by decide)
    simp only [aggregate, List.foldl, st_collect_step, h]
    rfl

/-- Claim C27 applied to `SRID=4326;POINT(0 0)` as the first row of a group: the context is
marked failed and holds no geometry. -/
theorem first_step_on_zeroed_region_witness :
    collect_step "ST_Collect".toList (fun _ => []) none
        [.text "SRID=4326;POINT(0 0)".toList]
      = some ⟨[], 0, true, "Mixed SRIDs in ".toList ++ "ST_Collect".toList⟩ :=
  (first_step_on_zeroed_region.1 "ST_Collect".toList (fun _ => [])
      "SRID=4326;POINT(0 0)".toList ⟨"POINT(0 0)".toList, 4326, .XY⟩ (by decide)).1
    (by decide)

theorem to_ewkb_head (R : WktReader) (V : GeometryWrapper) :
    ∃ tail, V.to_ewkb R = 1 :: tail := by
  by_cases h : V.geometry_type = .Unknown
  · exact ⟨[], by simp [GeometryWrapper.to_ewkb, h, LittleEndian]⟩
  · rw [to_ewkb_eq R V h, point_ewkb]
    exact ⟨_, rfl⟩

/-- Claim C30. For every value the result of `to_ewkb` starts with the byte 1 and so is
not empty; when the type is Unknown it is the single byte 1. Hence for every text that
`from_ewkt` accepts `ST_AsEWKB` returns the blob of `to_ewkb`, never the error
`failed to generate EWKB`. -/
theorem to_ewkb_never_empty (R : WktReader) (V : GeometryWrapper) :
    (V.to_ewkb R).head? = some 1 ∧ V.to_ewkb R ≠ [] ∧
    (V.geometry_type = .Unknown → V.to_ewkb R = [1]) ∧
    (∀ text : Str, from_ewkt (c_str text) = some V →
      st_as_ewkb R [.text text] = .blob (V.to_ewkb R)) := by
  obtain ⟨tail, ht⟩ := to_ewkb_head R V
  refine ⟨by rw [ht]; rfl, by rw [ht]; simp, ?_, ?_⟩
  · intro h
    simp [GeometryWrapper.to_ewkb, h, LittleEndian]
  · intro text hp
    simp [st_as_ewkb, read_text_arg, hp, ht]

/-- Claim C30 applied to a collection text, with a reader that reads nothing: `to_ewkb` is
the single byte 1 and `ST_AsEWKB` returns it as a blob. -/
theorem to_ewkb_never_empty_witness :
    GeometryWrapper.to_ewkb ⟨fun _ => none, fun _ => none⟩
        ⟨"GEOMETRYCOLLECTION(POINT(1 2))".toList, -1, .XY⟩ = [1] ∧
    st_as_ewkb ⟨fun _ => none, fun _ => none⟩ [.text "GEOMETRYCOLLECTION(POINT(1 2))".toList]
      = .blob [1] :=
  ⟨(to_ewkb_never_empty ⟨fun _ => none, fun _ => none⟩
      ⟨"GEOMETRYCOLLECTION(POINT(1 2))".toList, -1, .XY⟩).2.2.1 (by decide),
    by decide⟩

/-! ## Bounding boxes, transformation, union and convex hull -/

/-- Claim C22. For a value whose four bounds are defined, `extent` is `BOX(`, x_min, a
space, y_min, a comma, x_max, a space, y_max and `)`: after the comma there is no space.
This is not the form `BOX(minX minY, maxX maxY)` of the doc comment of `extent`, nor the
form that `st_extent_agg_final` emits for the same four numbers, which have a space after
the comma. `ST_Extent` of `POINT(5 5)` is `BOX(5 5,5 5)`. -/
theorem extent_text_without_space :
    (∀ (B : Boost) (V : GeometryWrapper) (a b c d : Nat),
      V.x_min B = some a → V.y_min B = some b → V.x_max B = some c → V.y_max B = some d →
      V.extent B = some ("BOX(".toList ++ B.put_double a ++ " ".toList ++ B.put_double b
        ++ ",".toList ++ B.put_double c ++ " ".toList ++ B.put_double d ++ ")".toList) ∧
      V.extent B ≠ some ("BOX(".toList ++ B.put_double a ++ " ".toList ++ B.put_double b
        ++ ", ".toList ++ B.put_double c ++ " ".toList ++ B.put_double d ++ ")".toList) ∧
      st_extent_agg_final B.put_double (some ⟨a, b, c, d, true⟩)
        = .text (c_str ("BOX(".toList ++ B.put_double a ++ " ".toList ++ B.put_double b
            ++ ", ".toList ++ B.put_double c ++ " ".toList ++ B.put_double d ++ ")".toList))) ∧
    st_extent boost_second_fragment [.text "POINT(5 5)".toList]
      = .text "BOX(5 5,5 5)".toList ∧
    extent_aggregate boost_second_fragment (fun _ => []) put_sample
        [.text "POINT(5 5)".toList]
      = .text "BOX(5 5, 5 5)".toList := by
  refine ⟨?_, by decide, by decide⟩
  intro B V a b c d hx hy hx2 hy2
  have e : V.extent B = some ("BOX(".toList ++ B.put_double a ++ " ".toList ++ B.put_double b
      ++ ",".toList ++ B.put_double c ++ " ".toList ++ B.put_double d ++ ")".toList) := by
    simp [GeometryWrapper.extent, hx, hy, hx2, hy2]
  refine ⟨e, ?_, rfl⟩
  rw [e]
  intro h
  have hl := congrArg (fun o : Option Str => (o.getD []).length) h
  simp at hl

/-- Claim C22 applied to `POINT(5 5)`, whose bounds are all 5: `extent` is `BOX(5 5,5 5)`,
without a space after the comma. -/
theorem extent_text_without_space_witness :
    GeometryWrapper.extent boost_second_fragment ⟨"POINT(5 5)".toList, 0, .XY⟩
      = some "BOX(5 5,5 5)".toList :=
  ((extent_text_without_space.1 boost_second_fragment ⟨"POINT(5 5)".toList, 0, .XY⟩
      0x4014000000000000 0x4014000000000000 0x4014000000000000 0x4014000000000000
      (by decide) (by decide) (by decide) (by decide)).1).trans (by decide)

theorem value_int_of_srid (to_int : SqlValue → Int) (i : Int) (h1 : -2147483648 ≤ i)
    (h2 : i ≤ 2147483647) : value_int to_int (.integer i) = i := by
  have h := to_int32_to_uint32 i h1 h2
  have e : to_int32 (to_uint32 i % 2 ^ 32) = to_int32 (to_uint32 i) := by
    simp only [to_int32, Nat.mod_mod]
  rw [e] at h
  exact h

/-- Claim C24. In a build with PROJ, for a text that parses into a value V: when the SRID
of V is -1, `ST_Transform` with any target reports the error of the undefined source SRID;
when it is not, `ST_Transform(V, V.srid)` returns the EWKT of V itself, `transform_geometry`
returns V unchanged, and the state of the `ProjContext` is the same as before: no call of
`get_transform` and no new entry in the cache. -/
theorem st_transform_short_circuits (P : Proj) (B : Boost) (to_text : SqlValue → Str)
    (to_int : SqlValue → Int) (st : ProjContext) (text : Str) (geom : GeometryWrapper)
    (target : Int) (hp : from_ewkt (c_str text) = some geom) :
    (geom.srid = -1 →
      st_transform true P B to_text to_int st [.text text, .integer target]
        = (.error "Source geometry has undefined SRID (-1)".toList, st)) ∧
    (geom.srid ≠ -1 →
      st_transform true P B to_text to_int st [.text text, .integer geom.srid]
        = (.text (c_str geom.to_ewkt), st) ∧
      transform_geometry P B st geom geom.srid = (some geom, st)) := by
  constructor
  · intro hs
    simp [st_transform, value_text, hp, hs]
  · intro hs
    have hr := from_ewkt_srid_range _ _ hp
    have hv := value_int_of_srid to_int geom.srid hr.1 hr.2
    have ht : transform_geometry P B st geom geom.srid = (some geom, st) := by
      simp [transform_geometry]
    refine ⟨?_, ht⟩
    simp [st_transform, value_text, hp, hs, hv, ht]

/-- Claim C24 applied to `POINT(1 2)` (SRID -1, target 3857) and to `SRID=4326;POINT(1 2)`
(target 4326), with a library that knows no transformation and an empty cache. -/
theorem st_transform_short_circuits_witness :
    st_transform true ⟨fun _ _ => none, fun _ => none, fun _ c => c, fun _ => [], fun _ => []⟩
        boost_fragment (fun _ => []) (fun _ => 0) ⟨[], []⟩
        [.text "POINT(1 2)".toList, .integer 3857]
      = (.error "Source geometry has undefined SRID (-1)".toList, ⟨[], []⟩) ∧
    st_transform true ⟨fun _ _ => none, fun _ => none, fun _ c => c, fun _ => [], fun _ => []⟩
        boost_fragment (fun _ => []) (fun _ => 0) ⟨[], []⟩
        [.text "SRID=4326;POINT(1 2)".toList, .integer 4326]
      = (.text "SRID=4326;POINT(1 2)".toList, ⟨[], []⟩) :=
  ⟨(st_transform_short_circuits _ boost_fragment _ _ ⟨[], []⟩ "POINT(1 2)".toList
      ⟨"POINT(1 2)".toList, -1, .XY⟩ 3857 (by decide)).1 rfl,
    ((st_transform_short_circuits _ boost_fragment _ _ ⟨[], []⟩ "SRID=4326;POINT(1 2)".toList
      ⟨"POINT(1 2)".toList, 4326, .XY⟩ 0 (by decide)).2 (by decide)).1.trans (by decide)⟩

/-- Claim C28. The loop of `st_union_final` unites each new polygon with `output[0]` only
and replaces the whole output by the result. For three polygons A, B, C such that the
union of A with B is the two polygons A, B and the union of A with C is the two polygons
A, C, the output after the loop is A, C: the polygon B is lost, and `ST_Union` returns the
multipolygon of A and C. -/
theorem st_union_final_loses_polygon (B : Boost) (ga gb gc : GeometryWrapper)
    (pa pb pc : polygon_t) (srid : Int)
    (ha : ga.as_variant B = some (.polygon pa)) (hb : gb.as_variant B = some (.polygon pb))
    (hc : gc.as_variant B = some (.polygon pc))
    (hab : B.union_ pa pb = .ok [pa, pb]) (hac : B.union_ pa pc = .ok [pa, pc]) :
    union_loop B [ga, gb, gc] [] = .ok [pa, pc] ∧
    st_union_final B (some ⟨[ga, gb, gc], srid, false, []⟩)
      = .text (c_str (GeometryWrapper.mk (B.wkt_multipolygon [pa, pc]) srid .XY).to_ewkt) := by
  have hl : union_loop B [ga, gb, gc] [] = .ok [pa, pc] := by
    simp [union_loop, ha, hb, hc, hab, hac]
  refine ⟨hl, ?_⟩
  simp [st_union_final, ha, hl]

/-- Claim C28 applied to the three disjoint unit squares: the rows A, B, C leave A and C,
the rows B, A, C leave B and C. -/
theorem st_union_final_loses_polygon_witness :
    union_loop boost_second_fragment
        [⟨"POLYGON((0 0,0 1,1 1,1 0,0 0))".toList, 0, .XY⟩,
         ⟨"POLYGON((2 0,2 1,3 1,3 0,2 0))".toList, 0, .XY⟩,
         ⟨"POLYGON((4 0,4 1,5 1,5 0,4 0))".toList, 0, .XY⟩] []
      = .ok [square_a, square_c] ∧
    union_loop boost_second_fragment
        [⟨"POLYGON((2 0,2 1,3 1,3 0,2 0))".toList, 0, .XY⟩,
         ⟨"POLYGON((0 0,0 1,1 1,1 0,0 0))".toList, 0, .XY⟩,
         ⟨"POLYGON((4 0,4 1,5 1,5 0,4 0))".toList, 0, .XY⟩] []
      = .ok [square_b, square_c] :=
  ⟨(st_union_final_loses_polygon boost_second_fragment
      ⟨"POLYGON((0 0,0 1,1 1,1 0,0 0))".toList, 0, .XY⟩
      ⟨"POLYGON((2 0,2 1,3 1,3 0,2 0))".toList, 0, .XY⟩
      ⟨"POLYGON((4 0,4 1,5 1,5 0,4 0))".toList, 0, .XY⟩ square_a square_b square_c 0
      (by decide) (by decide) (by decide) rfl rfl).1,
    (st_union_final_loses_polygon boost_second_fragment
      ⟨"POLYGON((2 0,2 1,3 1,3 0,2 0))".toList, 0, .XY⟩
      ⟨"POLYGON((0 0,0 1,1 1,1 0,0 0))".toList, 0, .XY⟩
      ⟨"POLYGON((4 0,4 1,5 1,5 0,4 0))".toList, 0, .XY⟩ square_b square_a square_c 0
      (by decide) (by decide) (by decide) rfl rfl).1⟩

/-- Claim C29. The points that `st_convexhull_agg_final` collects from a geometry: the
point of a Point, the points of a LineString, the outer ring of a Polygon (not its inner
rings) and the points of a MultiPoint; a MultiLineString and a MultiPolygon contribute no
point at all. For the single input `MULTILINESTRING((0 0,10 10))` the multipoint handed to
the hull computation is empty. -/
theorem hull_points_of_variants :
    (∀ (B : Boost) (g : GeometryWrapper),
      (∀ p, g.as_variant B = some (.point p) → hull_points B g = [p]) ∧
      (∀ l, g.as_variant B = some (.linestring l) → hull_points B g = l) ∧
      (∀ p, g.as_variant B = some (.polygon p) → hull_points B g = p.outer) ∧
      (∀ m, g.as_variant B = some (.multipoint m) → hull_points B g = m) ∧
      (∀ m, g.as_variant B = some (.multilinestring m) → hull_points B g = []) ∧
      (∀ m, g.as_variant B = some (.multipolygon m) → hull_points B g = [])) ∧
    GeometryWrapper.as_variant boost_second_fragment
        ⟨"MULTILINESTRING((0 0,10 10))".toList, 0, .XY⟩
      = some (.multilinestring [[(0, 0), (0x4024000000000000, 0x4024000000000000)]]) ∧
    hull_points boost_second_fragment ⟨"MULTILINESTRING((0 0,10 10))".toList, 0, .XY⟩ = [] ∧
    (∀ (B : Boost) (hull : polygon_t), B.convex_hull [] = .ok hull →
      st_convexhull_agg_final B
          (some ⟨[⟨"MULTILINESTRING((0 0,10 10))".toList, 0, .XY⟩], 0, false, []⟩)
        = .text (c_str (GeometryWrapper.mk (B.wkt_polygon hull) 0 .XY).to_ewkt)) := by
  refine ⟨fun B g => ⟨?_, ?_, ?_, ?_, ?_, ?_⟩, by decide, by decide, fun B hull hh0 => ?_⟩
  · intro p h
    simp [hull_points, h]
  · intro p h
    simp [hull_points, h]
  · intro p h
    simp [hull_points, h]
  · intro p h
    simp [hull_points, h]
  · intro p h
    simp [hull_points, h]
  · intro p h
    simp [hull_points, h]
  · have ht : GeometryWrapper.geometry_type ⟨"MULTILINESTRING((0 0,10 10))".toList, 0, .XY⟩
        = .MultiLineString := by decide
    have hv : GeometryWrapper.as_variant B ⟨"MULTILINESTRING((0 0,10 10))".toList, 0, .XY⟩
        = (GeometryWrapper.as B.multilinestring
            ⟨"MULTILINESTRING((0 0,10 10))".toList, 0, .XY⟩).map .multilinestring := by
      rw [GeometryWrapper.as_variant, if_neg (by decide), ht]
    have hh : hull_points B ⟨"MULTILINESTRING((0 0,10 10))".toList, 0, .XY⟩ = [] := by
      rw [hull_points, hv]
      cases GeometryWrapper.as B.multilinestring
        ⟨"MULTILINESTRING((0 0,10 10))".toList, 0, .XY⟩ <;> rfl
    simp only [st_convexhull_agg_final, List.map_cons, List.map_nil, hh]
    simp [hh0]

/-- Claim C29 applied to `MULTILINESTRING((0 0,10 10))`: it reads as a MultiLineString with
the two points (0, 0) and (10, 10), and none of them is collected. -/
theorem hull_points_of_variants_witness :
    hull_points boost_second_fragment ⟨"MULTILINESTRING((0 0,10 10))".toList, 0, .XY⟩ = [] :=
  (hull_points_of_variants.1 boost_second_fragment
      ⟨"MULTILINESTRING((0 0,10 10))".toList, 0, .XY⟩).2.2.2.2.1
    [[(0, 0), (0x4024000000000000, 0x4024000000000000)]] (by decide)

/-! ## Envelope and extent -/

/-- Claim C21. When the four bounds a = x_min, b = y_min, c = x_max, d = y_max are defined,
`envelope` is the value with dimension XY, the SRID of V and the text of a POLYGON with the
single ring (a b),(c b),(c d),(a d),(a b): five tuples, the first equal to the last. The
signed area of that ring is (c - a)(d - b), so the ring runs counter-clockwise when the
bounds are ordered, a <= c and b <= d. `envelope` and `extent` are absent exactly when one
of the four bounds is absent. -/
theorem envelope_shape (B : Boost) (V : GeometryWrapper) :
    (∀ a b c d, V.x_min B = some a → V.y_min B = some b → V.x_max B = some c →
      V.y_max B = some d →
      V.envelope B = some ⟨polygon_text B.put_double [envelope_ring a b c d], V.srid, .XY⟩ ∧
      (envelope_ring a b c d).length = 5 ∧
      (envelope_ring a b c d).head? = (envelope_ring a b c d).getLast? ∧
      signed_area ((envelope_ring a b c d).map (fun p => (fp_value p.1, fp_value p.2)))
        = (fp_value c - fp_value a) * (fp_value d - fp_value b) ∧
      (fp_value a ≤ fp_value c → fp_value b ≤ fp_value d →
        0 ≤ signed_area ((envelope_ring a b c d).map (fun p => (fp_value p.1, fp_value p.2))))) ∧
    (V.envelope B = none
      ↔ V.x_min B = none ∨ V.y_min B = none ∨ V.x_max B = none ∨ V.y_max B = none) ∧
    (V.extent B = none
      ↔ V.x_min B = none ∨ V.y_min B = none ∨ V.x_max B = none ∨ V.y_max B = none) := by
  refine ⟨?_, ?_, ?_⟩
  · intro a b c d hx hy hx2 hy2
    have harea : signed_area ((envelope_ring a b c d).map (fun p => (fp_value p.1, fp_value p.2)))
        = (fp_value c - fp_value a) * (fp_value d - fp_value b) := by
      simp only [signed_area, envelope_ring, List.map_cons, List.map_nil, shoelace]
      ring
    refine ⟨?_, rfl, rfl, harea, ?_⟩
    · simp [GeometryWrapper.envelope, hx, hy, hx2, hy2, polygon_text, envelope_ring,
        tuple_text, List.intercalate, List.intersperse]
    · intro h1 h2
      rw [harea]
      exact mul_nonneg (sub_nonneg.mpr h1) (sub_nonneg.mpr h2)
  · cases hx : V.x_min B <;> cases hy : V.y_min B <;> cases hx2 : V.x_max B <;>
      cases hy2 : V.y_max B <;> simp [GeometryWrapper.envelope, hx, hy, hx2, hy2]
  · cases hx : V.x_min B <;> cases hy : V.y_min B <;> cases hx2 : V.x_max B <;>
      cases hy2 : V.y_max B <;> simp [GeometryWrapper.extent, hx, hy, hx2, hy2]

/-- Claim C21 applied to `POINT(5 5)`, whose bounds are all 5: the envelope is the ring
(5 5),(5 5),(5 5),(5 5),(5 5) with the SRID 4326. -/
theorem envelope_shape_witness :
    GeometryWrapper.envelope boost_second_fragment ⟨"POINT(5 5)".toList, 4326, .XY⟩
      = some ⟨"POLYGON((5 5,5 5,5 5,5 5,5 5))".toList, 4326, .XY⟩ :=
  (((envelope_shape boost_second_fragment ⟨"POINT(5 5)".toList, 4326, .XY⟩).1
      0x4014000000000000 0x4014000000000000 0x4014000000000000 0x4014000000000000
      (by decide) (by decide) (by decide) (by decide)).1).trans (by decide)

/-! ## The aggregate `ST_Extent_Agg` -/

theorem extent_of_nil : extent_of [] = ExtentContext.constructed := rfl

theorem extent_of_snoc (ts : List (Nat × Nat × Nat × Nat)) (t : Nat × Nat × Nat × Nat) :
    extent_of (ts ++ [t])
      = ⟨fp_min (extent_of ts).min_x t.1, fp_min (extent_of ts).min_y t.2.1,
         fp_max (extent_of ts).max_x t.2.2.1, fp_max (extent_of ts).max_y t.2.2.2, true⟩ := by
  simp [extent_of, List.foldl_append]

theorem extent_start (c : Option ExtentContext) (ts : List (Nat × Nat × Nat × Nat))
    (h : (c = none ∧ ts = []) ∨ c = some (extent_of ts)) :
    (if !(c.getD ExtentContext.zeroed).has_data then ExtentContext.constructed
      else c.getD ExtentContext.zeroed) = extent_of ts := by
  rcases h with ⟨rfl, rfl⟩ | rfl
  · rfl
  · cases ts with
    | nil => rfl
    | cons t ts => simp [extent_of]

theorem extent_step_of (B : Boost) (to_text : SqlValue → Str) (c : Option ExtentContext)
    (ts : List (Nat × Nat × Nat × Nat)) (row : SqlValue)
    (h : (c = none ∧ ts = []) ∨ c = some (extent_of ts)) :
    st_extent_agg_step B to_text c [row]
      = some (extent_of (ts ++ (row_bounds B to_text row).toList)) := by
  have h1 := extent_start c ts h
  simp only [st_extent_agg_step, row_bounds, h1]
  by_cases hn : row = .null
  · simp [hn]
  · simp only [if_neg hn]
    cases from_ewkt (value_text to_text row) with
    | none => simp
    | some geom =>
      cases hx : geom.x_min B <;> cases hx2 : geom.x_max B <;> cases hy : geom.y_min B <;>
        cases hy2 : geom.y_max B <;> simp [extent_of_snoc, hx, hx2, hy, hy2]

theorem extent_fold_some (B : Boost) (to_text : SqlValue → Str) :
    ∀ (rows : List SqlValue) (ts : List (Nat × Nat × Nat × Nat)),
      rows.foldl (fun c row => st_extent_agg_step B to_text c [row]) (some (extent_of ts))
        = some (extent_of (ts ++ rows.filterMap (row_bounds B to_text))) := by
  intro rows
  induction rows with
  | nil => intro ts; simp
  | cons r rs ih =>
    intro ts
    rw [List.foldl_cons, extent_step_of B to_text _ ts r (Or.inr rfl), ih]
    cases hr : row_bounds B to_text r <;> simp [List.filterMap_cons, hr]

theorem extent_context_eq (B : Boost) (to_text : SqlValue → Str) (rows : List SqlValue) :
    extent_context B to_text rows
      = if rows = [] then none
        else some (extent_of (rows.filterMap (row_bounds B to_text))) := by
  cases rows with
  | nil => rfl
  | cons r rs =>
    rw [if_neg (by simp), extent_context, List.foldl_cons,
      extent_step_of B to_text none [] r (Or.inl ⟨rfl, rfl⟩), extent_fold_some]
    cases hr : row_bounds B to_text r <;> simp [List.filterMap_cons, hr]

theorem fp_min_key (a x : Nat) (ha : fp_is_nan a = false) :
    fp_is_nan (fp_min a x) = false ∧ fp_key (fp_min a x) = key_min (fp_key a) x := by
  unfold fp_min fp_lt key_min
  cases hx : fp_is_nan x
  · by_cases hlt : fp_key x < fp_key a
    · simp [ha, hlt, hx]
      omega
    · simp [ha, hlt, hx]
      omega
  · simp [ha]

theorem fp_max_key (a x : Nat) (ha : fp_is_nan a = false) :
    fp_is_nan (fp_max a x) = false ∧ fp_key (fp_max a x) = key_max (fp_key a) x := by
  unfold fp_max fp_lt key_max
  cases hx : fp_is_nan x
  · by_cases hlt : fp_key a < fp_key x
    · simp [ha, hlt, hx]
      omega
    · simp [ha, hlt, hx]
      omega
  · simp [ha]

theorem foldl_fp_min_key : ∀ (xs : List Nat) (a : Nat), fp_is_nan a = false →
    fp_is_nan (xs.foldl fp_min a) = false
      ∧ fp_key (xs.foldl fp_min a) = xs.foldl key_min (fp_key a) := by
  intro xs
  induction xs with
  | nil => intro a ha; exact ⟨ha, rfl⟩
  | cons x xs ih =>
    intro a ha
    have h := fp_min_key a x ha
    have h2 := ih (fp_min a x) h.1
    simp only [List.foldl_cons]
    rw [← h.2]
    exact h2

theorem foldl_fp_max_key : ∀ (xs : List Nat) (a : Nat), fp_is_nan a = false →
    fp_is_nan (xs.foldl fp_max a) = false
      ∧ fp_key (xs.foldl fp_max a) = xs.foldl key_max (fp_key a) := by
  intro xs
  induction xs with
  | nil => intro a ha; exact ⟨ha, rfl⟩
  | cons x xs ih =>
    intro a ha
    have h := fp_max_key a x ha
    have h2 := ih (fp_max a x) h.1
    simp only [List.foldl_cons]
    rw [← h.2]
    exact h2

theorem foldl_key_min_perm {xs ys : List Nat} (p : xs.Perm ys) (k : Int) :
    xs.foldl key_min k = ys.foldl key_min k := by
  refine p.foldl_eq' ?_ k
  intro x _ y _ z
  simp only [key_min]
  split_ifs <;> omega

theorem foldl_key_max_perm {xs ys : List Nat} (p : xs.Perm ys) (k : Int) :
    xs.foldl key_max k = ys.foldl key_max k := by
  refine p.foldl_eq' ?_ k
  intro x _ y _ z
  simp only [key_max]
  split_ifs <;> omega

theorem same_number_min {xs ys : List Nat} (p : xs.Perm ys) :
    same_number (xs.foldl fp_min DBL_MAX) (ys.foldl fp_min DBL_MAX) := by
  have h1 := foldl_fp_min_key xs DBL_MAX (by decide)
  have h2 := foldl_fp_min_key ys DBL_MAX (by decide)
  exact ⟨h1.1, h2.1, by rw [h1.2, h2.2, foldl_key_min_perm p]⟩

theorem same_number_max {xs ys : List Nat} (p : xs.Perm ys) :
    same_number (xs.foldl fp_max DBL_LOWEST) (ys.foldl fp_max DBL_LOWEST) := by
  have h1 := foldl_fp_max_key xs DBL_LOWEST (by decide)
  have h2 := foldl_fp_max_key ys DBL_LOWEST (by decide)
  exact ⟨h1.1, h2.1, by rw [h1.2, h2.2, foldl_key_max_perm p]⟩

theorem fp_finite_key (x : Nat) (h : fp_finite x = true) :
    fp_is_nan x = false ∧ fp_key DBL_LOWEST ≤ fp_key x ∧ fp_key x ≤ fp_key DBL_MAX := by
  have hk1 : fp_key DBL_LOWEST = -9218868437227405311 := by decide
  have hk2 : fp_key DBL_MAX = 9218868437227405311 := by decide
  have he : x / 4503599627370496 % 2048 ≠ 2047 := by
    simpa [fp_finite, fp_exponent] using h
  refine ⟨by simp [fp_is_nan, fp_exponent, he], ?_, ?_⟩
  · rw [hk1]
    unfold fp_key
    split_ifs <;> norm_num <;> omega
  · rw [hk2]
    unfold fp_key
    split_ifs <;> norm_num <;> omega

theorem foldl_key_min_le : ∀ (xs : List Nat) (k : Int),
    xs.foldl key_min k ≤ k
      ∧ ∀ x ∈ xs, fp_is_nan x = false → xs.foldl key_min k ≤ fp_key x := by
  intro xs
  induction xs with
  | nil => intro k; simp
  | cons y ys ih =>
    intro k
    have h := ih (key_min k y)
    have hk : key_min k y ≤ k := by
      unfold key_min
      split_ifs <;> omega
    refine ⟨le_trans h.1 hk, ?_⟩
    intro x hx hn
    simp only [List.foldl_cons]
    rcases List.mem_cons.mp hx with rfl | hx
    · refine le_trans h.1 ?_
      simp only [key_min, hn]
      simp
    · exact h.2 x hx hn

theorem foldl_key_max_le : ∀ (xs : List Nat) (k : Int),
    k ≤ xs.foldl key_max k
      ∧ ∀ x ∈ xs, fp_is_nan x = false → fp_key x ≤ xs.foldl key_max k := by
  intro xs
  induction xs with
  | nil => intro k; simp
  | cons y ys ih =>
    intro k
    have h := ih (key_max k y)
    have hk : k ≤ key_max k y := by
      unfold key_max
      split_ifs <;> omega
    refine ⟨le_trans hk h.1, ?_⟩
    intro x hx hn
    simp only [List.foldl_cons]
    rcases List.mem_cons.mp hx with rfl | hx
    · refine le_trans ?_ h.1
      simp only [key_max, hn]
      simp
    · exact h.2 x hx hn

theorem foldl_key_min_mem : ∀ (xs : List Nat) (k : Int),
    xs.foldl key_min k = k
      ∨ ∃ x ∈ xs, fp_is_nan x = false ∧ xs.foldl key_min k = fp_key x := by
  intro xs
  induction xs with
  | nil => intro k; simp
  | cons y ys ih =>
    intro k
    simp only [List.foldl_cons]
    rcases ih (key_min k y) with h | ⟨x, hx, hn, h⟩
    · rw [h]
      unfold key_min
      cases hy : fp_is_nan y
      · by_cases hle : k ≤ fp_key y
        · left; simp [hle]
        · right
          exact ⟨y, List.mem_cons_self _ _, hy, by simp; omega⟩
      · left; simp
    · exact Or.inr ⟨x, List.mem_cons_of_mem _ hx, hn, h⟩

theorem foldl_key_max_mem : ∀ (xs : List Nat) (k : Int),
    xs.foldl key_max k = k
      ∨ ∃ x ∈ xs, fp_is_nan x = false ∧ xs.foldl key_max k = fp_key x := by
  intro xs
  induction xs with
  | nil => intro k; simp
  | cons y ys ih =>
    intro k
    simp only [List.foldl_cons]
    rcases ih (key_max k y) with h | ⟨x, hx, hn, h⟩
    · rw [h]
      unfold key_max
      cases hy : fp_is_nan y
      · by_cases hle : fp_key y ≤ k
        · left; simp [hle]
        · right
          exact ⟨y, List.mem_cons_self _ _, hy, by simp; omega⟩
      · left; simp
    · exact Or.inr ⟨x, List.mem_cons_of_mem _ hx, hn, h⟩

theorem foldl_fp_min_finite (xs : List Nat) (hne : xs ≠ [])
    (hf : ∀ x ∈ xs, fp_finite x = true) :
    (∀ x ∈ xs, fp_key (xs.foldl fp_min DBL_MAX) ≤ fp_key x)
      ∧ ∃ x ∈ xs, same_number (xs.foldl fp_min DBL_MAX) x := by
  have h := foldl_fp_min_key xs DBL_MAX (by decide)
  have hle := foldl_key_min_le xs (fp_key DBL_MAX)
  refine ⟨fun x hx => ?_, ?_⟩
  · rw [h.2]
    exact hle.2 x hx (fp_finite_key x (hf x hx)).1
  · rcases foldl_key_min_mem xs (fp_key DBL_MAX) with hk | ⟨x, hx, hn, hk⟩
    · obtain ⟨x, hx⟩ := List.exists_mem_of_ne_nil xs hne
      have hfx := fp_finite_key x (hf x hx)
      have h3 := hle.2 x hx hfx.1
      refine ⟨x, hx, h.1, hfx.1, ?_⟩
      rw [h.2]
      rw [hk] at h3 ⊢
      exact le_antisymm h3 hfx.2.2
    · exact ⟨x, hx, h.1, hn, by rw [h.2, hk]⟩

theorem foldl_fp_max_finite (xs : List Nat) (hne : xs ≠ [])
    (hf : ∀ x ∈ xs, fp_finite x = true) :
    (∀ x ∈ xs, fp_key x ≤ fp_key (xs.foldl fp_max DBL_LOWEST))
      ∧ ∃ x ∈ xs, same_number (xs.foldl fp_max DBL_LOWEST) x := by
  have h := foldl_fp_max_key xs DBL_LOWEST (by decide)
  have hle := foldl_key_max_le xs (fp_key DBL_LOWEST)
  refine ⟨fun x hx => ?_, ?_⟩
  · rw [h.2]
    exact hle.2 x hx (fp_finite_key x (hf x hx)).1
  · rcases foldl_key_max_mem xs (fp_key DBL_LOWEST) with hk | ⟨x, hx, hn, hk⟩
    · obtain ⟨x, hx⟩ := List.exists_mem_of_ne_nil xs hne
      have hfx := fp_finite_key x (hf x hx)
      have h3 := hle.2 x hx hfx.1
      refine ⟨x, hx, h.1, hfx.1, ?_⟩
      rw [h.2]
      rw [hk] at h3 ⊢
      exact le_antisymm hfx.2.1 h3
    · exact ⟨x, hx, h.1, hn, by rw [h.2, hk]⟩

theorem extent_aggregate_null_iff (B : Boost) (to_text : SqlValue → Str) (put : Nat → Str)
    (rows : List SqlValue) :
    extent_aggregate B to_text put rows = .null ↔ contributions B to_text rows = [] := by
  have h : extent_aggregate B to_text put rows
      = st_extent_agg_final put (extent_context B to_text rows) := rfl
  rw [h, extent_context_eq, contributions]
  by_cases hr : rows = []
  · subst hr
    simp [st_extent_agg_final]
  · rw [if_neg hr]
    cases hts : rows.filterMap (row_bounds B to_text) with
    | nil => simp [st_extent_agg_final, extent_of]
    | cons t ts => simp [st_extent_agg_final, extent_of]

theorem contributions_perm (B : Boost) (to_text : SqlValue → Str) {rows rows2 : List SqlValue}
    (p : rows.Perm rows2) :
    (contributions B to_text rows).Perm (contributions B to_text rows2) :=
  p.filterMap _

/-- Claim C23, the counterexample. The rows `POINT(0 0)` and `POINT(-0 0)` give
`BOX(0 0, 0 0)` in that order and `BOX(-0 0, -0 0)` in the other order, so the result is
not the same for every permutation of the rows. The single row `POINT(inf inf)` has the
bound x_min = +infinity but leaves min_x at the largest finite double, which is less than
the minimum of the rows' x_min. -/
theorem extent_agg_special_values :
    extent_aggregate boost_second_fragment (fun _ => []) put_sample
        [.text "POINT(0 0)".toList, .text "POINT(-0 0)".toList]
      = .text "BOX(0 0, 0 0)".toList ∧
    extent_aggregate boost_second_fragment (fun _ => []) put_sample
        [.text "POINT(-0 0)".toList, .text "POINT(0 0)".toList]
      = .text "BOX(-0 0, -0 0)".toList ∧
    row_bounds boost_second_fragment (fun _ => []) (.text "POINT(inf inf)".toList)
      = some (0x7FF0000000000000, 0x7FF0000000000000, 0x7FF0000000000000,
          0x7FF0000000000000) ∧
    extent_context boost_second_fragment (fun _ => []) [.text "POINT(inf inf)".toList]
      = some ⟨DBL_MAX, DBL_MAX, 0x7FF0000000000000, 0x7FF0000000000000, true⟩ ∧
    fp_lt DBL_MAX 0x7FF0000000000000 = true ∧
    extent_aggregate boost_second_fragment (fun _ => []) put_sample
        [.text "POINT(inf inf)".toList]
      = .text "BOX(1.79769e+308 1.79769e+308, inf inf)".toList := by
  refine ⟨by decide, by decide, by decide, by decide, by decide, by decide⟩

/-- Claim C23, amended. The context after the rows of a non-empty group is the fold of
`std::min` and `std::max` over the bounds of exactly the non-NULL rows whose text parses and
whose four bounds are defined, from the largest and the lowest finite double; the result is
NULL iff there is no such row. For every permutation of the rows the four fields are numbers
that compare equal (they may differ in the sign of a zero) and the result is NULL for both
or for neither. When all the bounds are finite, min_x and min_y are below the x_min and
y_min of every contributing row and equal to one of them, and max_x and max_y are above the
x_max and y_max of every contributing row and equal to one of them. -/
theorem extent_agg_fold (B : Boost) (to_text : SqlValue → Str) (put : Nat → Str)
    (rows rows2 : List SqlValue) (p : rows.Perm rows2) :
    extent_context B to_text rows
      = (if rows = [] then none else some (extent_of (contributions B to_text rows))) ∧
    (extent_aggregate B to_text put rows = .null ↔ contributions B to_text rows = []) ∧
    same_number (extent_of (contributions B to_text rows)).min_x
      (extent_of (contributions B to_text rows2)).min_x ∧
    same_number (extent_of (contributions B to_text rows)).min_y
      (extent_of (contributions B to_text rows2)).min_y ∧
    same_number (extent_of (contributions B to_text rows)).max_x
      (extent_of (contributions B to_text rows2)).max_x ∧
    same_number (extent_of (contributions B to_text rows)).max_y
      (extent_of (contributions B to_text rows2)).max_y ∧
    (extent_aggregate B to_text put rows = .null
      ↔ extent_aggregate B to_text put rows2 = .null) ∧
    ((∀ t ∈ contributions B to_text rows,
        fp_finite t.1 = true ∧ fp_finite t.2.1 = true ∧ fp_finite t.2.2.1 = true
          ∧ fp_finite t.2.2.2 = true) →
      contributions B to_text rows ≠ [] →
      (∀ t ∈ contributions B to_text rows,
        fp_key (extent_of (contributions B to_text rows)).min_x ≤ fp_key t.1
          ∧ fp_key (extent_of (contributions B to_text rows)).min_y ≤ fp_key t.2.1
          ∧ fp_key t.2.2.1 ≤ fp_key (extent_of (contributions B to_text rows)).max_x
          ∧ fp_key t.2.2.2 ≤ fp_key (extent_of (contributions B to_text rows)).max_y) ∧
      (∃ t ∈ contributions B to_text rows,
        same_number (extent_of (contributions B to_text rows)).min_x t.1) ∧
      (∃ t ∈ contributions B to_text rows,
        same_number (extent_of (contributions B to_text rows)).min_y t.2.1) ∧
      (∃ t ∈ contributions B to_text rows,
        same_number (extent_of (contributions B to_text rows)).max_x t.2.2.1) ∧
      (∃ t ∈ contributions B to_text rows,
        same_number (extent_of (contributions B to_text rows)).max_y t.2.2.2)) := by
  have hp := contributions_perm B to_text p
  refine ⟨extent_context_eq B to_text rows, extent_aggregate_null_iff B to_text put rows,
    same_number_min (hp.map _), same_number_min (hp.map _), same_number_max (hp.map _),
    same_number_max (hp.map _), ?_, ?_⟩
  · rw [extent_aggregate_null_iff, extent_aggregate_null_iff]
    constructor
    · intro h
      exact List.Perm.eq_nil (h ▸ hp.symm)
    · intro h
      exact List.Perm.eq_nil (h ▸ hp)
  · intro hf hne
    generalize contributions B to_text rows = ts at hf hne
    have n1 : ts.map (fun t => t.1) ≠ [] := by simpa using hne
    have n2 : ts.map (fun t => t.2.1) ≠ [] := by simpa using hne
    have n3 : ts.map (fun t => t.2.2.1) ≠ [] := by simpa using hne
    have n4 : ts.map (fun t => t.2.2.2) ≠ [] := by simpa using hne
    have f1 : ∀ x ∈ ts.map (fun t => t.1), fp_finite x = true := by
      intro x hx
      obtain ⟨t, ht, rfl⟩ := List.mem_map.mp hx
      exact (hf t ht).1
    have f2 : ∀ x ∈ ts.map (fun t => t.2.1), fp_finite x = true := by
      intro x hx
      obtain ⟨t, ht, rfl⟩ := List.mem_map.mp hx
      exact (hf t ht).2.1
    have f3 : ∀ x ∈ ts.map (fun t => t.2.2.1), fp_finite x = true := by
      intro x hx
      obtain ⟨t, ht, rfl⟩ := List.mem_map.mp hx
      exact (hf t ht).2.2.1
    have f4 : ∀ x ∈ ts.map (fun t => t.2.2.2), fp_finite x = true := by
      intro x hx
      obtain ⟨t, ht, rfl⟩ := List.mem_map.mp hx
      exact (hf t ht).2.2.2
    have m1 := foldl_fp_min_finite _ n1 f1
    have m2 := foldl_fp_min_finite _ n2 f2
    have m3 := foldl_fp_max_finite _ n3 f3
    have m4 := foldl_fp_max_finite _ n4 f4
    refine ⟨fun t ht => ⟨m1.1 _ (List.mem_map_of_mem _ ht), m2.1 _ (List.mem_map_of_mem _ ht),
      m3.1 _ (List.mem_map_of_mem _ ht), m4.1 _ (List.mem_map_of_mem _ ht)⟩, ?_, ?_, ?_, ?_⟩
    · obtain ⟨x, hx, hs⟩ := m1.2
      obtain ⟨t, ht, rfl⟩ := List.mem_map.mp hx
      exact ⟨t, ht, hs⟩
    · obtain ⟨x, hx, hs⟩ := m2.2
      obtain ⟨t, ht, rfl⟩ := List.mem_map.mp hx
      exact ⟨t, ht, hs⟩
    · obtain ⟨x, hx, hs⟩ := m3.2
      obtain ⟨t, ht, rfl⟩ := List.mem_map.mp hx
      exact ⟨t, ht, hs⟩
    · obtain ⟨x, hx, hs⟩ := m4.2
      obtain ⟨t, ht, rfl⟩ := List.mem_map.mp hx
      exact ⟨t, ht, hs⟩

/-- Claim C23 applied to the rows `POINT(0 0)`, `POINT(5 5)` and to the same rows in the
other order: both orders leave the context with the bounds 0, 0, 5, 5, and the result is
`BOX(0 0, 5 5)`. -/
theorem extent_agg_fold_witness :
    List.Perm [SqlValue.text "POINT(0 0)".toList, .text "POINT(5 5)".toList]
      [.text "POINT(5 5)".toList, .text "POINT(0 0)".toList] ∧
    extent_context boost_second_fragment (fun _ => [])
        [.text "POINT(0 0)".toList, .text "POINT(5 5)".toList]
      = some ⟨0, 0, 0x4014000000000000, 0x4014000000000000, true⟩ ∧
    extent_context boost_second_fragment (fun _ => [])
        [.text "POINT(5 5)".toList, .text "POINT(0 0)".toList]
      = some ⟨0, 0, 0x4014000000000000, 0x4014000000000000, true⟩ ∧
    extent_aggregate boost_second_fragment (fun _ => []) put_sample
        [.text "POINT(0 0)".toList, .text "POINT(5 5)".toList]
      = .text "BOX(0 0, 5 5)".toList :=
  ⟨List.Perm.swap _ _ _,
   ((extent_agg_fold boost_second_fragment (fun _ => []) put_sample
      [.text "POINT(0 0)".toList, .text "POINT(5 5)".toList]
      [.text "POINT(5 5)".toList, .text "POINT(0 0)".toList] (List.Perm.swap _ _ _)).1).trans
    (by decide),
   by decide, by decide⟩

end sqlitegis
